import Mathlib

/-!
# StudioReverb: the orchestration core (`DSP.cpp`, `DSP.hpp`, `Plugin.cpp`)

A shallow embedding of `StudioReverbDSP` and of the part of the host wrapper
`StudioReverbPlugin` that drives it.

Modelling conventions

* `float` and `double` values are rationals (`ℚ`), and the arithmetic of the source is
  kept operation by operation. One operation is rounded as the machine rounds it: the
  `float` sum `value + 0.5f` of the type case of `setParameterValue`, whose truncation
  selects the variant, is the binary32 sum (`f32add`, round to nearest, ties to even).
  The rounding error of the other operations is outside the model.
* `uint32_t` values are natural numbers; where the source computes on them
  (`frames - offset`, `offset + i`, `offset += buffer_frames`) the result is reduced
  modulo `2^32`.
* The six freeverb3 processors are external. A processor is represented by the
  chronological list of calls the engine made on it (`Call`), which determines its
  internal state, and the samples its block-process call writes are given by a
  parameter (`Freeverb`), a function of that history, of the input slices, of the
  prior contents of the output slices and of the frame count.
* Buffers are functions from sample index to sample; a stereo pair is indexed by
  `Fin 2` (channel 0 is left, channel 1 is right).
-/

namespace StudioReverb

/-! ## `DistrhoPluginInfo.h` -/

/-- Parameter id `paramReverbType` of `enum Parameters`. -/
def paramReverbType : Nat := 0
/-- Parameter id `paramDry`. -/
def paramDry : Nat := 1
/-- Parameter id `paramEarly`. -/
def paramEarly : Nat := 2
/-- Parameter id `paramLate`. -/
def paramLate : Nat := 3
/-- Parameter id `paramSize`. -/
def paramSize : Nat := 4
/-- Parameter id `paramWidth`. -/
def paramWidth : Nat := 5
/-- Parameter id `paramPredelay`. -/
def paramPredelay : Nat := 6
/-- Parameter id `paramDecay`. -/
def paramDecay : Nat := 7
/-- Parameter id `paramDiffuse`. -/
def paramDiffuse : Nat := 8
/-- Parameter id `paramDamping`. -/
def paramDamping : Nat := 9
/-- Parameter id `paramModulation`. -/
def paramModulation : Nat := 10
/-- Parameter id `paramLowCut`. -/
def paramLowCut : Nat := 11
/-- Parameter id `paramHighCut`. -/
def paramHighCut : Nat := 12
/-- Number of parameters, the last enumerator of `enum Parameters`. -/
def paramCount : Nat := 13

/-- Enumerator `REVERB_ROOM` of `enum ReverbType`. -/
def REVERB_ROOM : Int := 0
/-- Enumerator `REVERB_HALL`. -/
def REVERB_HALL : Int := 1
/-- Enumerator `REVERB_PLATE`. -/
def REVERB_PLATE : Int := 2
/-- Enumerator `REVERB_EARLY_REFLECTIONS`. -/
def REVERB_EARLY_REFLECTIONS : Int := 3
/-- Enumerator `REVERB_TYPE_COUNT`. -/
def REVERB_TYPE_COUNT : Int := 4

/-! ## `DSP.hpp` -/

/-- Buffer size for processing (`static const uint32_t BUFFER_SIZE = 256`). -/
def BUFFER_SIZE : Nat := 256

/-- The modulus of `uint32_t` arithmetic. -/
def U32 : Nat := 4294967296

/-- Subtraction of two `uint32_t` values. -/
def u32sub (a b : Nat) : Nat := (a + U32 - b) % U32

/-- Addition of two `uint32_t` values. -/
def u32add (a b : Nat) : Nat := (a + b) % U32

/-- The preset constants of freeverb3's `earlyref` (external header). -/
def FV3_EARLYREF_PRESET_0 : Nat := 0
/-- Preset 1 of `earlyref`. -/
def FV3_EARLYREF_PRESET_1 : Nat := 1
/-- Preset 2 of `earlyref`. -/
def FV3_EARLYREF_PRESET_2 : Nat := 2

/-- One call made by the engine on a freeverb3 processor, with its arguments.
`processreplace` records the `numsamples` input samples of each channel and the
contents of the two output slices at the time of the call. -/
inductive Call where
  | loadPresetReflection (preset : Nat)
  | setMuteOnChange (b : Bool)
  | setdryr (v : ℚ)
  | setwet (v : ℚ)
  | setwidth (v : ℚ)
  | setLRDelay (v : ℚ)
  | setLRCrossApFreq (fc : ℚ) (bw : Int)
  | setDiffusionApFreq (fc : ℚ) (bw : Int)
  | setSampleRate (fs : ℚ)
  | setRSFactor (v : ℚ)
  | setrt60 (v : ℚ)
  | setidiffusion1 (v : ℚ)
  | setodiffusion1 (v : ℚ)
  | setdamp (v : ℚ)
  | setoutputdamp (v : ℚ)
  | setdccutfreq (v : ℚ)
  | setmoddepth (v : ℚ)
  | setmodfreq (v : ℚ)
  | setdiffusion (v : ℚ)
  | setbandwidthfreq (v : ℚ)
  | setdamping (v : ℚ)
  | setPreDelay (v : ℚ)
  | setoutputhpf (v : ℚ)
  | setoutputlpf (v : ℚ)
  | mute
  | processreplace (inputL inputR outputL outputR : List ℚ) (numsamples : Nat)
  deriving DecidableEq

/-- A mono buffer: sample index to sample. -/
abbrev Buffer := Nat → ℚ

/-- A pair of channel buffers (`float**`, `float[2][BUFFER_SIZE]`). -/
abbrev Stereo := Fin 2 → Buffer

/-- The first `n` samples of the buffer that starts `offset` samples into `p`
(the pointer `p + offset` read over `n` frames). -/
def slice (p : Buffer) (offset n : Nat) : List ℚ :=
  (List.range n).map (fun i => p (offset + i))

/-- The block-process capability of an external processor: the sample it writes to
channel `c`, index `i` of its output, given the calls made on it so far, the two
input slices, the prior contents of the two output slices and the frame count. -/
abbrev Processor :=
  List Call → List ℚ → List ℚ → List ℚ → List ℚ → Nat → Fin 2 → Nat → ℚ

/-- The three freeverb3 processor classes used by the engine. -/
structure Freeverb where
  earlyref_f : Processor
  progenitor2_f : Processor
  nrevb_f : Processor

/-- State of `class StudioReverbDSP` (`DSP.hpp`, private members). -/
structure StudioReverbDSP where
  sampleRate : ℚ
  params : Nat → ℚ
  currentReverbType : Int
  dryLevel : ℚ
  earlyLevel : ℚ
  lateLevel : ℚ
  roomEarly : List Call
  roomLate : List Call
  hallEarly : List Call
  hallLate : List Call
  plateReverb : List Call
  earlyOnly : List Call
  early_out_buffer : Stereo
  late_out_buffer : Stereo

/-- Result of one `processreplace` call: the processor's new history and the two
output buffers. -/
structure Processed where
  log : List Call
  outL : Buffer
  outR : Buffer

/-- The call `p.processreplace(inL, inR, outL, outR, frames)` on a processor of class
`P` with history `log`: the call is recorded and the first `frames` samples of both
output buffers are replaced by what the processor computes. -/
def processreplace (P : Processor) (log : List Call) (inL inR outL outR : Buffer)
    (frames : Nat) : Processed :=
  let iL := slice inL 0 frames
  let iR := slice inR 0 frames
  let oL := slice outL 0 frames
  let oR := slice outR 0 frames
  { log := log ++ [Call.processreplace iL iR oL oR frames]
    outL := fun i => if i < frames then P log iL iR oL oR frames 0 i else outL i
    outR := fun i => if i < frames then P log iL iR oL oR frames 1 i else outR i }

/-- The assignment `buf[c][i] = v` on a stereo buffer. -/
def Stereo.set (buf : Stereo) (c : Fin 2) (i : Nat) (v : ℚ) : Stereo :=
  Function.update buf c (Function.update (buf c) i v)

/-- The call `std::memset(buf, 0, n * sizeof(float))` on a mono buffer. -/
def memset0 (buf : Buffer) (n : Nat) : Buffer :=
  fun i => if i < n then 0 else buf i

/-- The loop `for (uint32_t i = 0; i < n; i++) body`. -/
def forLoop {σ : Type} (n : Nat) (body : Nat → σ → σ) (s : σ) : σ :=
  (List.range n).foldl (fun acc i => body i acc) s

/-- The conversion `static_cast<int>(x)` of a floating value: truncation toward
zero. -/
def static_cast_int (x : ℚ) : Int :=
  if 0 ≤ x then ⌊x⌋ else ⌈x⌉

/-- The unit in the last place of binary32 at `x`: `2 ^ (e - 23)`, where `e` is the
binary exponent of `x`, not below the exponent -126 of the subnormal range. -/
def f32ulp (x : ℚ) : ℚ := (2 : ℚ) ^ (max (Int.log 2 |x|) (-126) - 23)

/-- Rounding of a rational to the nearest integer, a tie going to the even one. -/
def roundHalfEven (q : ℚ) : Int :=
  if q - ⌊q⌋ < 1 / 2 then ⌊q⌋
  else if 1 / 2 < q - ⌊q⌋ then ⌊q⌋ + 1
  else if ⌊q⌋ % 2 = 0 then ⌊q⌋ else ⌊q⌋ + 1

/-- The binary32 value nearest to `x` (round to nearest, ties to even), the rounding
of a `float` operation. Overflow to infinity is not modelled. -/
def f32round (x : ℚ) : ℚ := (roundHalfEven (x / f32ulp x) : ℚ) * f32ulp x

/-- The `float` addition `a + b` of two `float` values. -/
def f32add (a b : ℚ) : ℚ := f32round (a + b)

/-- The rational `x` is a binary32 value. -/
def IsF32 (x : ℚ) : Prop := f32round x = x

/-- The largest binary32 value below 0.5: `0x1.fffffep-2`, that is `0.49999997f`. -/
def justBelowHalf : ℚ := 16777215 / 33554432

/-! ## `DSP.cpp` -/

namespace StudioReverbDSP

/-- The method `muteAll()` (`DSP.cpp` 415-423). -/
def muteAll (s : StudioReverbDSP) : StudioReverbDSP :=
  { s with
    roomEarly := s.roomEarly ++ [Call.mute]
    roomLate := s.roomLate ++ [Call.mute]
    hallEarly := s.hallEarly ++ [Call.mute]
    hallLate := s.hallLate ++ [Call.mute]
    plateReverb := s.plateReverb ++ [Call.mute]
    earlyOnly := s.earlyOnly ++ [Call.mute] }

/-- The method `mute()` (`DSP.cpp` 410-413). -/
def mute (s : StudioReverbDSP) : StudioReverbDSP :=
  muteAll s

/-- The method `getParameterValue(index)` (`DSP.cpp` 140-145). -/
def getParameterValue (s : StudioReverbDSP) (index : Nat) : ℚ :=
  if index < paramCount then s.params index else 0

/-- The method `setParameterValue(index, value)` (`DSP.cpp` 147-267). -/
def setParameterValue (s : StudioReverbDSP) (index : Nat) (value : ℚ) : StudioReverbDSP :=
  if index ≥ paramCount then s
  else
    let s := { s with params := Function.update s.params index value }
    if index = paramReverbType then
      muteAll { s with currentReverbType := static_cast_int (f32add value 0.5) }
    else if index = paramDry then
      { s with dryLevel := value / 100 }
    else if index = paramEarly then
      { s with earlyLevel := value / 100 }
    else if index = paramLate then
      { s with lateLevel := value / 100 }
    else if index = paramSize then
      let sizeFactor := value / 50
      { s with
        roomEarly := s.roomEarly ++ [Call.setRSFactor sizeFactor]
        roomLate := s.roomLate ++ [Call.setRSFactor sizeFactor]
        hallEarly := s.hallEarly ++ [Call.setRSFactor (sizeFactor * 1.5)]
        hallLate := s.hallLate ++ [Call.setRSFactor (sizeFactor * 1.5)]
        earlyOnly := s.earlyOnly ++ [Call.setRSFactor sizeFactor] }
    else if index = paramWidth then
      let width := value / 100
      { s with
        roomEarly := s.roomEarly ++ [Call.setwidth width]
        roomLate := s.roomLate ++ [Call.setwidth width]
        hallEarly := s.hallEarly ++ [Call.setwidth width]
        hallLate := s.hallLate ++ [Call.setwidth width]
        plateReverb := s.plateReverb ++ [Call.setwidth width]
        earlyOnly := s.earlyOnly ++ [Call.setwidth width] }
    else if index = paramPredelay then
      { s with
        roomEarly := s.roomEarly ++ [Call.setPreDelay value]
        roomLate := s.roomLate ++ [Call.setPreDelay value]
        hallEarly := s.hallEarly ++ [Call.setPreDelay value]
        hallLate := s.hallLate ++ [Call.setPreDelay value]
        plateReverb := s.plateReverb ++ [Call.setPreDelay value]
        earlyOnly := s.earlyOnly ++ [Call.setPreDelay value] }
    else if index = paramDecay then
      { s with
        roomLate := s.roomLate ++ [Call.setrt60 value]
        hallLate := s.hallLate ++ [Call.setrt60 (value * 1.5)]
        plateReverb := s.plateReverb ++ [Call.setrt60 value] }
    else if index = paramDiffuse then
      let diffusion := value / 100
      let diffuseStages := static_cast_int (diffusion * 10)
      { s with
        roomLate := s.roomLate ++ [Call.setidiffusion1 diffusion, Call.setodiffusion1 diffusion]
        hallLate := s.hallLate ++ [Call.setidiffusion1 diffusion, Call.setodiffusion1 diffusion]
        plateReverb := s.plateReverb ++ [Call.setdiffusion diffusion]
        roomEarly := s.roomEarly ++ [Call.setDiffusionApFreq (150 + diffusion * 350) diffuseStages]
        hallEarly := s.hallEarly ++ [Call.setDiffusionApFreq (100 + diffusion * 400) diffuseStages]
        earlyOnly := s.earlyOnly ++ [Call.setDiffusionApFreq (200 + diffusion * 300) diffuseStages] }
    else if index = paramDamping then
      let dampFreq := 20000 * (1 - value / 100)
      { s with
        roomLate := s.roomLate ++ [Call.setdamp dampFreq, Call.setoutputdamp dampFreq]
        hallLate := s.hallLate ++ [Call.setdamp dampFreq, Call.setoutputdamp dampFreq]
        plateReverb := s.plateReverb ++ [Call.setbandwidthfreq dampFreq] }
    else if index = paramModulation then
      let modDepth := value / 100 * 0.05
      let modFreq := 0.1 + value / 100 * 2
      { s with
        hallLate := s.hallLate ++ [Call.setmoddepth modDepth, Call.setmodfreq modFreq]
        plateReverb := s.plateReverb ++
          [Call.setmoddepth (modDepth * 1.5), Call.setmodfreq (modFreq * 1.5)] }
    else if index = paramLowCut then
      { s with
        roomEarly := s.roomEarly ++ [Call.setoutputhpf value]
        roomLate := s.roomLate ++ [Call.setdccutfreq value]
        hallEarly := s.hallEarly ++ [Call.setoutputhpf value]
        hallLate := s.hallLate ++ [Call.setdccutfreq value]
        plateReverb := s.plateReverb ++ [Call.setdccutfreq value]
        earlyOnly := s.earlyOnly ++ [Call.setoutputhpf value] }
    else if index = paramHighCut then
      { s with
        roomEarly := s.roomEarly ++ [Call.setoutputlpf value]
        hallEarly := s.hallEarly ++ [Call.setoutputlpf value]
        earlyOnly := s.earlyOnly ++ [Call.setoutputlpf value] }
    else s

/-- The method `processRoomReverb(inputs, frames, offset)` (`DSP.cpp` 318-335). -/
def processRoomReverb (fv : Freeverb) (s : StudioReverbDSP) (inputs : Stereo)
    (frames offset : Nat) : StudioReverbDSP :=
  let e := processreplace fv.earlyref_f s.roomEarly
    (fun i => inputs 0 (offset + i)) (fun i => inputs 1 (offset + i))
    (s.early_out_buffer 0) (s.early_out_buffer 1) frames
  let s := { s with roomEarly := e.log, early_out_buffer := ![e.outL, e.outR] }
  let l := processreplace fv.progenitor2_f s.roomLate
    (fun i => inputs 0 (offset + i)) (fun i => inputs 1 (offset + i))
    (s.late_out_buffer 0) (s.late_out_buffer 1) frames
  { s with roomLate := l.log, late_out_buffer := ![l.outL, l.outR] }

/-- One iteration of the combining loop of `processHallReverb` (`DSP.cpp` 358-363). -/
def hallMixStep (i : Nat) (s : StudioReverbDSP) : StudioReverbDSP :=
  let mixedL := s.early_out_buffer 0 i * 0.3 + s.late_out_buffer 0 i * 0.7
  let mixedR := s.early_out_buffer 1 i * 0.3 + s.late_out_buffer 1 i * 0.7
  { s with
    early_out_buffer := ((s.early_out_buffer).set 0 i mixedL).set 1 i mixedR
    late_out_buffer := ((s.late_out_buffer).set 0 i 0).set 1 i 0 }

/-- The method `processHallReverb(inputs, frames, offset)` (`DSP.cpp` 337-365). -/
def processHallReverb (fv : Freeverb) (s : StudioReverbDSP) (inputs : Stereo)
    (frames offset : Nat) : StudioReverbDSP :=
  let e := processreplace fv.earlyref_f s.hallEarly
    (fun i => inputs 0 (offset + i)) (fun i => inputs 1 (offset + i))
    (s.early_out_buffer 0) (s.early_out_buffer 1) frames
  let s := { s with hallEarly := e.log, early_out_buffer := ![e.outL, e.outR] }
  let l := processreplace fv.progenitor2_f s.hallLate
    (fun i => inputs 0 (offset + i)) (fun i => inputs 1 (offset + i))
    (s.late_out_buffer 0) (s.late_out_buffer 1) frames
  let s := { s with hallLate := l.log, late_out_buffer := ![l.outL, l.outR] }
  forLoop frames hallMixStep s

/-- The method `processPlateReverb(inputs, frames, offset)` (`DSP.cpp` 367-380). -/
def processPlateReverb (fv : Freeverb) (s : StudioReverbDSP) (inputs : Stereo)
    (frames offset : Nat) : StudioReverbDSP :=
  let e := processreplace fv.nrevb_f s.plateReverb
    (fun i => inputs 0 (offset + i)) (fun i => inputs 1 (offset + i))
    (s.early_out_buffer 0) (s.early_out_buffer 1) frames
  { s with
    plateReverb := e.log
    early_out_buffer := ![e.outL, e.outR]
    late_out_buffer := ![memset0 (s.late_out_buffer 0) frames,
                         memset0 (s.late_out_buffer 1) frames] }

/-- The method `processEarlyReflections(inputs, frames, offset)` (`DSP.cpp` 382-395). -/
def processEarlyReflections (fv : Freeverb) (s : StudioReverbDSP) (inputs : Stereo)
    (frames offset : Nat) : StudioReverbDSP :=
  let e := processreplace fv.earlyref_f s.earlyOnly
    (fun i => inputs 0 (offset + i)) (fun i => inputs 1 (offset + i))
    (s.early_out_buffer 0) (s.early_out_buffer 1) frames
  { s with
    earlyOnly := e.log
    early_out_buffer := ![e.outL, e.outR]
    late_out_buffer := ![memset0 (s.late_out_buffer 0) frames,
                         memset0 (s.late_out_buffer 1) frames] }

/-- The four `memset` calls at the head of a chunk in `run` (`DSP.cpp` 278-281). -/
def clearBuffers (s : StudioReverbDSP) (buffer_frames : Nat) : StudioReverbDSP :=
  { s with
    early_out_buffer := ![memset0 (s.early_out_buffer 0) buffer_frames,
                          memset0 (s.early_out_buffer 1) buffer_frames]
    late_out_buffer := ![memset0 (s.late_out_buffer 0) buffer_frames,
                         memset0 (s.late_out_buffer 1) buffer_frames] }

/-- The `switch (currentReverbType)` of `run` (`DSP.cpp` 284-300); a value that
matches no `case` falls through the switch. -/
def dispatch (fv : Freeverb) (s : StudioReverbDSP) (inputs : Stereo)
    (buffer_frames offset : Nat) : StudioReverbDSP :=
  if s.currentReverbType = REVERB_ROOM then
    processRoomReverb fv s inputs buffer_frames offset
  else if s.currentReverbType = REVERB_HALL then
    processHallReverb fv s inputs buffer_frames offset
  else if s.currentReverbType = REVERB_PLATE then
    processPlateReverb fv s inputs buffer_frames offset
  else if s.currentReverbType = REVERB_EARLY_REFLECTIONS then
    processEarlyReflections fv s inputs buffer_frames offset
  else s

/-- One iteration of the mixing loop of `run` (`DSP.cpp` 304-311). -/
def mixStep (s : StudioReverbDSP) (inputs : Stereo) (offset : Nat) (i : Nat)
    (outputs : Stereo) : Stereo :=
  let k := u32add offset i
  let outputs := outputs.set 0 k (s.dryLevel * inputs 0 k)
  let outputs := outputs.set 1 k (s.dryLevel * inputs 1 k)
  let outputs := outputs.set 0 k (outputs 0 k + s.earlyLevel * s.early_out_buffer 0 i)
  let outputs := outputs.set 1 k (outputs 1 k + s.earlyLevel * s.early_out_buffer 1 i)
  let outputs := outputs.set 0 k (outputs 0 k + s.lateLevel * s.late_out_buffer 0 i)
  outputs.set 1 k (outputs 1 k + s.lateLevel * s.late_out_buffer 1 i)

/-- The body of the `while` loop of `run` for one chunk (`DSP.cpp` 275-312):
clear the scratch buffers, dispatch on the variant, mix into `outputs`. -/
def chunk (fv : Freeverb) (inputs : Stereo) (buffer_frames offset : Nat)
    (st : StudioReverbDSP × Stereo) : StudioReverbDSP × Stereo :=
  let s := dispatch fv (clearBuffers st.1 buffer_frames) inputs buffer_frames offset
  (s, forLoop buffer_frames (mixStep s inputs offset) st.2)

/-- The `while (offset < frames)` loop of `run` (`DSP.cpp` 274-315), entered with
the given `offset`, engine state and output block. -/
def runLoop (fv : Freeverb) (inputs : Stereo) (frames : Nat) (hf : frames < U32)
    (offset : Nat) (st : StudioReverbDSP × Stereo) : StudioReverbDSP × Stereo :=
  if _h : offset < frames then
    runLoop fv inputs frames hf (u32add offset (min BUFFER_SIZE (u32sub frames offset)))
      (chunk fv inputs (min BUFFER_SIZE (u32sub frames offset)) offset st)
  else st
termination_by frames - offset
decreasing_by
  simp only [u32add, u32sub, U32, BUFFER_SIZE] at *
  omega

/-- The method `run(inputs, outputs, frames)` (`DSP.cpp` 269-316): the engine state
and the output block it leaves. `frames` is a `uint32_t`. -/
def run (fv : Freeverb) (s : StudioReverbDSP) (inputs outputs : Stereo) (frames : Nat)
    (hf : frames < U32) : StudioReverbDSP × Stereo :=
  runLoop fv inputs frames hf 0 (s, outputs)

/-- The method `sampleRateChanged(newSampleRate)` (`DSP.cpp` 397-408). -/
def sampleRateChanged (s : StudioReverbDSP) (newSampleRate : ℚ) : StudioReverbDSP :=
  { s with
    sampleRate := newSampleRate
    roomEarly := s.roomEarly ++ [Call.setSampleRate newSampleRate]
    roomLate := s.roomLate ++ [Call.setSampleRate newSampleRate]
    hallEarly := s.hallEarly ++ [Call.setSampleRate newSampleRate]
    hallLate := s.hallLate ++ [Call.setSampleRate newSampleRate]
    plateReverb := s.plateReverb ++ [Call.setSampleRate newSampleRate]
    earlyOnly := s.earlyOnly ++ [Call.setSampleRate newSampleRate] }

/-- The method `initializeRoomReverb()` (`DSP.cpp` 46-72). -/
def initializeRoomReverb (s : StudioReverbDSP) : StudioReverbDSP :=
  { s with
    roomEarly := s.roomEarly ++
      [Call.loadPresetReflection FV3_EARLYREF_PRESET_1, Call.setMuteOnChange false,
       Call.setdryr 0, Call.setwet 0, Call.setwidth 0.8, Call.setLRDelay 0.3,
       Call.setLRCrossApFreq 750 4, Call.setDiffusionApFreq 150 4,
       Call.setSampleRate s.sampleRate]
    roomLate := s.roomLate ++
      [Call.setMuteOnChange false, Call.setwet 0, Call.setdryr 0, Call.setwidth 1.0,
       Call.setSampleRate s.sampleRate, Call.setRSFactor 1.0, Call.setrt60 2.0,
       Call.setidiffusion1 0.75, Call.setodiffusion1 0.75, Call.setdamp 8000,
       Call.setoutputdamp 8000] }

/-- The method `initializeHallReverb()` (`DSP.cpp` 74-105). -/
def initializeHallReverb (s : StudioReverbDSP) : StudioReverbDSP :=
  { s with
    hallEarly := s.hallEarly ++
      [Call.loadPresetReflection FV3_EARLYREF_PRESET_2, Call.setMuteOnChange false,
       Call.setdryr 0, Call.setwet 0, Call.setwidth 1.0, Call.setLRDelay 0.5,
       Call.setLRCrossApFreq 500 4, Call.setDiffusionApFreq 100 4,
       Call.setSampleRate s.sampleRate]
    hallLate := s.hallLate ++
      [Call.setMuteOnChange false, Call.setwet 0, Call.setdryr 0, Call.setwidth 1.0,
       Call.setSampleRate s.sampleRate, Call.setRSFactor 2.5, Call.setrt60 3.0,
       Call.setidiffusion1 0.85, Call.setodiffusion1 0.85, Call.setdamp 6000,
       Call.setoutputdamp 6000, Call.setdccutfreq 100, Call.setmoddepth 0.02,
       Call.setmodfreq 0.5] }

/-- The method `initializePlateReverb()` (`DSP.cpp` 107-124). -/
def initializePlateReverb (s : StudioReverbDSP) : StudioReverbDSP :=
  { s with
    plateReverb := s.plateReverb ++
      [Call.setMuteOnChange false, Call.setdryr 0, Call.setwet 0,
       Call.setSampleRate s.sampleRate, Call.setrt60 2.5, Call.setdiffusion 0.8,
       Call.setbandwidthfreq 8000, Call.setdamping 0.0005, Call.setmoddepth 0.03,
       Call.setmodfreq 1.0] }

/-- The method `initializeEarlyReflections()` (`DSP.cpp` 126-138). -/
def initializeEarlyReflections (s : StudioReverbDSP) : StudioReverbDSP :=
  { s with
    earlyOnly := s.earlyOnly ++
      [Call.loadPresetReflection FV3_EARLYREF_PRESET_0, Call.setMuteOnChange false,
       Call.setdryr 0, Call.setwet 0, Call.setwidth 1.0, Call.setLRDelay 0.2,
       Call.setLRCrossApFreq 1000 4, Call.setDiffusionApFreq 200 4,
       Call.setSampleRate s.sampleRate] }

/-- The constructor `StudioReverbDSP(sampleRate)` (`DSP.cpp` 11-40). The members the
constructor does not initialise before its body runs (`params`, the three mix levels,
the scratch buffers) start with the indeterminate contents of `mem`; the six
processors start freshly constructed, with no call made on them. -/
def construct (sampleRate : ℚ) (mem : StudioReverbDSP) : StudioReverbDSP :=
  let s : StudioReverbDSP :=
    { mem with
      sampleRate := sampleRate
      currentReverbType := REVERB_ROOM
      roomEarly := []
      roomLate := []
      hallEarly := []
      hallLate := []
      plateReverb := []
      earlyOnly := [] }
  let s := { s with params := Function.update s.params paramReverbType (REVERB_ROOM : ℤ) }
  let s := { s with params := Function.update s.params paramDry 100 }
  let s := { s with params := Function.update s.params paramEarly 75 }
  let s := { s with params := Function.update s.params paramLate 75 }
  let s := { s with params := Function.update s.params paramSize 50 }
  let s := { s with params := Function.update s.params paramWidth 100 }
  let s := { s with params := Function.update s.params paramPredelay 10 }
  let s := { s with params := Function.update s.params paramDecay 2 }
  let s := { s with params := Function.update s.params paramDiffuse 70 }
  let s := { s with params := Function.update s.params paramDamping 50 }
  let s := { s with params := Function.update s.params paramModulation 20 }
  let s := { s with params := Function.update s.params paramLowCut 20 }
  let s := { s with params := Function.update s.params paramHighCut 16000 }
  let s := initializeRoomReverb s
  let s := initializeHallReverb s
  let s := initializePlateReverb s
  let s := initializeEarlyReflections s
  forLoop paramCount (fun i s => setParameterValue s i (s.params i)) s

end StudioReverbDSP

/-! ## `Plugin.cpp` -/

/-- State of `class StudioReverbPlugin`: its one data member, the engine. -/
structure StudioReverbPlugin where
  dsp : StudioReverbDSP

namespace StudioReverbPlugin

/-- The method `getParameterValue(index)` of the wrapper (`Plugin.cpp` 283-286). -/
def getParameterValue (p : StudioReverbPlugin) (index : Nat) : ℚ :=
  p.dsp.getParameterValue index

/-- The method `setParameterValue(index, value)` of the wrapper (`Plugin.cpp` 288-291). -/
def setParameterValue (p : StudioReverbPlugin) (index : Nat) (value : ℚ) :
    StudioReverbPlugin :=
  { p with dsp := p.dsp.setParameterValue index value }

/-- The method `activate()` of the wrapper (`Plugin.cpp` 465-468): nothing to do. -/
def activate (p : StudioReverbPlugin) : StudioReverbPlugin := p

/-- The method `deactivate()` of the wrapper (`Plugin.cpp` 470-474). -/
def deactivate (p : StudioReverbPlugin) : StudioReverbPlugin :=
  { p with dsp := p.dsp.mute }

/-- The method `run(inputs, outputs, frames)` of the wrapper (`Plugin.cpp` 476-479). -/
def run (fv : Freeverb) (p : StudioReverbPlugin) (inputs outputs : Stereo) (frames : Nat)
    (hf : frames < U32) : StudioReverbPlugin × Stereo :=
  let r := p.dsp.run fv inputs outputs frames hf
  ({ p with dsp := r.1 }, r.2)

/-- The method `sampleRateChanged(newSampleRate)` of the wrapper (`Plugin.cpp` 481-484). -/
def sampleRateChanged (p : StudioReverbPlugin) (newSampleRate : ℚ) : StudioReverbPlugin :=
  { p with dsp := p.dsp.sampleRateChanged newSampleRate }

end StudioReverbPlugin

/-! ## The chunk sequence of `run` -/

/-- The chunks visited by the `while` loop of `run` entered at `offset`: the pair
(offset, `buffer_frames`) of every iteration, in order. The recursion is that of
`StudioReverbDSP.runLoop`. -/
def chunksFrom (frames : Nat) (hf : frames < U32) (offset : Nat) : List (Nat × Nat) :=
  if _h : offset < frames then
    (offset, min BUFFER_SIZE (u32sub frames offset)) ::
      chunksFrom frames hf (u32add offset (min BUFFER_SIZE (u32sub frames offset)))
  else []
termination_by frames - offset
decreasing_by
  simp only [u32add, u32sub, U32, BUFFER_SIZE] at *
  omega

/-- The chunks of `run(inputs, outputs, frames)`. -/
def chunks (frames : Nat) (hf : frames < U32) : List (Nat × Nat) :=
  chunksFrom frames hf 0

/-- The engine state and output block at the head of chunk `k` of
`run(inputs, outputs, frames)`: the loop body applied to the first `k` chunks. -/
def headState (fv : Freeverb) (s : StudioReverbDSP) (inputs outputs : Stereo)
    (frames : Nat) (hf : frames < U32) (k : Nat) : StudioReverbDSP × Stereo :=
  ((chunks frames hf).take k).foldl
    (fun st ch => StudioReverbDSP.chunk fv inputs ch.2 ch.1 st) (s, outputs)

/-- A block of `n` zero samples. -/
def zeros (n : Nat) : List ℚ := List.replicate n 0

/-- Two engine states that differ at most in the contents of the scratch buffers
`early_out_buffer` and `late_out_buffer`. -/
def SameButScratch (a b : StudioReverbDSP) : Prop :=
  a.sampleRate = b.sampleRate ∧ a.params = b.params ∧
  a.currentReverbType = b.currentReverbType ∧
  a.dryLevel = b.dryLevel ∧ a.earlyLevel = b.earlyLevel ∧ a.lateLevel = b.lateLevel ∧
  a.roomEarly = b.roomEarly ∧ a.roomLate = b.roomLate ∧
  a.hallEarly = b.hallEarly ∧ a.hallLate = b.hallLate ∧
  a.plateReverb = b.plateReverb ∧ a.earlyOnly = b.earlyOnly

/-- The `processreplace` call that a chunk of `n` frames at `offset` makes on a
processor: the raw input slices, and output slices that hold zeros. -/
def procCall (inputs : Stereo) (offset n : Nat) : Call :=
  Call.processreplace (slice (inputs 0) offset n) (slice (inputs 1) offset n)
    (zeros n) (zeros n) n

/-- The samples a processor of class `P` with history `log` produces for the chunk
of `n` frames at `offset`, run on the raw input slices into zeroed output slices. -/
def procOut (P : Processor) (log : List Call) (inputs : Stereo) (offset n : Nat) : Stereo :=
  P log (slice (inputs 0) offset n) (slice (inputs 1) offset n) (zeros n) (zeros n) n

/-! ## The local values of `setParameterValue` -/

/-- The local `sizeFactor` of the `paramSize` case (`DSP.cpp` 175). -/
def sizeFactor (value : ℚ) : ℚ := value / 50

/-- The local `diffusion` of the `paramDiffuse` case (`DSP.cpp` 213). -/
def diffusion (value : ℚ) : ℚ := value / 100

/-- The local `diffuseStages` of the `paramDiffuse` case (`DSP.cpp` 221). -/
def diffuseStages (value : ℚ) : Int := static_cast_int (diffusion value * 10)

/-- The local `dampFreq` of the `paramDamping` case (`DSP.cpp` 230). -/
def dampFreq (value : ℚ) : ℚ := 20000 * (1 - value / 100)

/-- The local `modDepth` of the `paramModulation` case (`DSP.cpp` 241). -/
def modDepth (value : ℚ) : ℚ := value / 100 * 0.05

/-- The local `modFreq` of the `paramModulation` case (`DSP.cpp` 242). -/
def modFreq (value : ℚ) : ℚ := 0.1 + value / 100 * 2

/-- The diffusion-stage count as the specification words it: `f * 10` rounded to the
nearest integer, with `f = value / 100`. -/
def specDiffuseStages (value : ℚ) : Int := round (value / 100 * 10)

/-- The 256-frame unit impulse of the end-to-end scenario: first sample 1, the rest
0, on both channels. -/
def impulse : Stereo := fun _ i => if i = 0 then 1 else 0

/-- The engine of the end-to-end scenario: constructed at `sampleRate` (over the
indeterminate memory `mem`), then written with type = Room, dry = 100, early = 75 and
late = 75, in this order. -/
def scenarioDSP (sampleRate : ℚ) (mem : StudioReverbDSP) : StudioReverbDSP :=
  (((StudioReverbDSP.construct sampleRate mem
    ).setParameterValue paramReverbType (REVERB_ROOM : ℤ)
    ).setParameterValue paramDry 100
    ).setParameterValue paramEarly 75
    |>.setParameterValue paramLate 75

/-! ## Sample-rate change as the specification words it -/

/-- Re-application of all current parameter values through `setParameterValue`, in id
order: the loop the constructor runs under "Apply initial parameters"
(`DSP.cpp` 37-39). -/
def reapplyParameters (s : StudioReverbDSP) : StudioReverbDSP :=
  forLoop paramCount (fun i s => s.setParameterValue i (s.params i)) s

/-- The sample-rate notification as the specification words it: the new rate is
propagated to the six processors and then all current parameter values are
re-applied. -/
def specSampleRateChanged (s : StudioReverbDSP) (rate : ℚ) : StudioReverbDSP :=
  reapplyParameters (s.sampleRateChanged rate)

/-! ## Reachable engine states -/

/-- The engine states reachable from construction by the public methods of
`StudioReverbDSP`: `setParameterValue`, `run`, `mute` and `sampleRateChanged`. -/
inductive Reachable (fv : Freeverb) : StudioReverbDSP → Prop where
  | construct (sampleRate : ℚ) (mem : StudioReverbDSP) :
      Reachable fv (StudioReverbDSP.construct sampleRate mem)
  | setParameterValue (s : StudioReverbDSP) (index : Nat) (value : ℚ) :
      Reachable fv s → Reachable fv (s.setParameterValue index value)
  | run (s : StudioReverbDSP) (inputs outputs : Stereo) (frames : Nat) (hf : frames < U32) :
      Reachable fv s → Reachable fv (s.run fv inputs outputs frames hf).1
  | mute (s : StudioReverbDSP) : Reachable fv s → Reachable fv s.mute
  | sampleRateChanged (s : StudioReverbDSP) (rate : ℚ) :
      Reachable fv s → Reachable fv (s.sampleRateChanged rate)

/-- The derived state agrees with the parameter store: the three mix gains are the
stored percentages divided by 100 and the active variant is the `float` sum of the
stored type value and 0.5, truncated. -/
def Coherent (s : StudioReverbDSP) : Prop :=
  s.dryLevel = s.params paramDry / 100 ∧
  s.earlyLevel = s.params paramEarly / 100 ∧
  s.lateLevel = s.params paramLate / 100 ∧
  s.currentReverbType = static_cast_int (f32add (s.params paramReverbType) 0.5)

/-! ## Buffers advanced by an offset -/

/-- The stereo block `buf` advanced by `d` frames (the pointers `buf[c] + d`). -/
def shift (buf : Stereo) (d : Nat) : Stereo := fun c i => buf c (d + i)

/-! ## `UI.hpp`, `UI.cpp` -/

/-- The function `std::max(a, b)`: `(a < b) ? b : a`. -/
def std_max (a b : ℚ) : ℚ := if a < b then b else a

/-- The function `std::min(a, b)`: `(b < a) ? b : a`. -/
def std_min (a b : ℚ) : ℚ := if b < a then b else a

/-- The `struct Knob` of `StudioReverbUI` (`UI.hpp`), without its label. -/
structure Knob where
  param : Nat
  x : ℚ
  y : ℚ
  radius : ℚ
  visible : Bool

/-- State of `class StudioReverbUI` (`UI.hpp`, private members); `fDraggingKnob` is
`none` for `nullptr`. -/
structure StudioReverbUI where
  fReverbType : Int
  fParameters : Nat → ℚ
  fSampleRate : ℚ
  fKnobs : List Knob
  fDraggingKnob : Option Knob
  fDragStartY : ℚ
  fDragStartValue : ℚ

/-- What `onMotion` does besides returning: the value it returns and the call
`setParameterValue(param, value)` it makes on the UI base class, if any. -/
structure MotionResult where
  handled : Bool
  sent : Option (Nat × ℚ)

namespace StudioReverbUI

/-- The method `getParameterMin(param)` (`UI.cpp` 584-601). -/
def getParameterMin (param : Nat) : ℚ :=
  if param = paramReverbType then 0
  else if param = paramDry ∨ param = paramEarly ∨ param = paramLate ∨ param = paramSize ∨
      param = paramWidth ∨ param = paramDiffuse ∨ param = paramDamping ∨
      param = paramModulation then 0
  else if param = paramPredelay then 0
  else if param = paramDecay then 0.1
  else if param = paramLowCut then 20
  else if param = paramHighCut then 1000
  else 0

/-- The method `getParameterMax(param)` (`UI.cpp` 603-620). -/
def getParameterMax (param : Nat) : ℚ :=
  if param = paramReverbType then ((REVERB_TYPE_COUNT - 1 : ℤ) : ℚ)
  else if param = paramDry ∨ param = paramEarly ∨ param = paramLate ∨ param = paramSize ∨
      param = paramWidth ∨ param = paramDiffuse ∨ param = paramDamping ∨
      param = paramModulation then 100
  else if param = paramPredelay then 200
  else if param = paramDecay then 10
  else if param = paramLowCut then 500
  else if param = paramHighCut then 20000
  else 1

/-- The method `getParameterDefault(param)` (`UI.cpp` 622-641). -/
def getParameterDefault (param : Nat) : ℚ :=
  if param = paramReverbType then ((REVERB_ROOM : ℤ) : ℚ)
  else if param = paramDry then 100
  else if param = paramEarly then 75
  else if param = paramLate then 75
  else if param = paramSize then 50
  else if param = paramWidth then 100
  else if param = paramPredelay then 10
  else if param = paramDecay then 2
  else if param = paramDiffuse then 70
  else if param = paramDamping then 50
  else if param = paramModulation then 20
  else if param = paramLowCut then 20
  else if param = paramHighCut then 16000
  else 0

/-- The knobs that `initializeKnobPositions()` creates (`UI.cpp` 160-183). -/
def initialKnobs : List Knob :=
  [ { param := paramDry, x := 50, y := 150, radius := 50, visible := true },
    { param := paramEarly, x := 120, y := 150, radius := 50, visible := true },
    { param := paramLate, x := 190, y := 150, radius := 50, visible := true },
    { param := paramSize, x := 50, y := 250, radius := 50, visible := true },
    { param := paramWidth, x := 120, y := 250, radius := 50, visible := true },
    { param := paramPredelay, x := 190, y := 250, radius := 50, visible := true },
    { param := paramDecay, x := 50, y := 350, radius := 50, visible := true },
    { param := paramDiffuse, x := 120, y := 350, radius := 50, visible := true },
    { param := paramDamping, x := 190, y := 350, radius := 50, visible := true },
    { param := paramModulation, x := 260, y := 350, radius := 50, visible := true },
    { param := paramLowCut, x := 50, y := 450, radius := 50, visible := true },
    { param := paramHighCut, x := 120, y := 450, radius := 50, visible := true } ]

/-- The method `initializeKnobPositions()` (`UI.cpp` 160-183). -/
def initializeKnobPositions (ui : StudioReverbUI) : StudioReverbUI :=
  { ui with fKnobs := initialKnobs }

/-- The method `onMotion(ev)` (`UI.cpp` 141-155), for the mouse position `y`
(`ev.pos.getY()`). -/
def onMotion (ui : StudioReverbUI) (y : ℚ) : MotionResult :=
  match ui.fDraggingKnob with
  | none => { handled := false, sent := none }
  | some knob =>
    let delta := (ui.fDragStartY - y) / 100
    let newValue := ui.fDragStartValue +
      delta * (getParameterMax knob.param - getParameterMin knob.param)
    let newValue := std_max (getParameterMin knob.param)
      (std_min (getParameterMax knob.param) newValue)
    { handled := true, sent := some (knob.param, newValue) }

end StudioReverbUI

/-- A sample UI state: the Decay knob is being dragged, the drag started at height 300
with the value 2. -/
def demoUI : StudioReverbUI where
  fReverbType := REVERB_ROOM
  fParameters := StudioReverbUI.getParameterDefault
  fSampleRate := 48000
  fKnobs := StudioReverbUI.initialKnobs
  fDraggingKnob := some { param := paramDecay, x := 50, y := 350, radius := 50, visible := true }
  fDragStartY := 300
  fDragStartValue := 2

/-! ## Concrete data used to instantiate the theorems -/

/-- A sample processor set: the early-reflection class halves its input, the late
class outputs its input plus what its output slice held, the plate class outputs
the number of calls made on it so far. -/
def demoFreeverb : Freeverb where
  earlyref_f := fun _ iL iR _ _ _ c i => (if c = 0 then iL else iR).getD i 0 / 2
  progenitor2_f := fun _ iL iR oL oR _ c i =>
    (if c = 0 then iL else iR).getD i 0 + (if c = 0 then oL else oR).getD i 0
  nrevb_f := fun log _ _ _ _ _ _ _ => (log.length : ℚ)

/-- A sample engine state: parameters at the constructor defaults, no call made on
any processor yet, and scratch buffers holding the non-zero value 9. -/
def demoDSP : StudioReverbDSP where
  sampleRate := 48000
  params := fun i => [0, 100, 75, 75, 50, 100, 10, 2, 70, 50, 20, 20, 16000].getD i 0
  currentReverbType := REVERB_ROOM
  dryLevel := 1
  earlyLevel := 3 / 4
  lateLevel := 3 / 4
  roomEarly := []
  roomLate := []
  hallEarly := []
  hallLate := []
  plateReverb := []
  earlyOnly := []
  early_out_buffer := fun _ _ => 9
  late_out_buffer := fun _ _ => 9

/-- A sample stereo input: the ramp `i + 1` on the left, `-(i + 1)` on the right. -/
def demoInputs : Stereo := fun c i => if c = 0 then (i : ℚ) + 1 else -((i : ℚ) + 1)

/-- A sample output block, holding 5 everywhere before the call. -/
def demoOutputs : Stereo := fun _ _ => 5

/-! ## Basic lemmas -/

theorem forLoop_zero {σ : Type} (body : Nat → σ → σ) (s : σ) : forLoop 0 body s = s := by
  simp [forLoop]

theorem forLoop_succ {σ : Type} (n : Nat) (body : Nat → σ → σ) (s : σ) :
    forLoop (n + 1) body s = body n (forLoop n body s) := by
  simp [forLoop, List.range_succ, List.foldl_append]

theorem Stereo.set_apply (buf : Stereo) (c : Fin 2) (i : Nat) (v : ℚ) (d : Fin 2) (j : Nat) :
    buf.set c i v d j = if d = c ∧ j = i then v else buf d j := by
  unfold Stereo.set
  by_cases hd : d = c
  · subst hd
    by_cases hj : j = i
    · subst hj; simp
    · simp [hj]
  · simp [hd]

theorem pair_apply (a b : Buffer) (c : Fin 2) (i : Nat) :
    (![a, b] : Stereo) c i = if c = 0 then a i else b i := by
  fin_cases c <;> simp

theorem slice_shift (p : Buffer) (offset n : Nat) :
    slice (fun i => p (offset + i)) 0 n = slice p offset n := by
  simp [slice]

theorem slice_congr (p q : Buffer) (n : Nat) (h : ∀ i, i < n → p i = q i) :
    slice p 0 n = slice q 0 n := by
  unfold slice
  apply List.map_congr_left
  intro i hi
  simp only [List.mem_range] at hi
  simpa using h i hi

theorem slice_memset0 (buf : Buffer) (n : Nat) : slice (memset0 buf n) 0 n = zeros n := by
  unfold slice zeros memset0
  apply List.ext_getElem
  · simp
  · intro i h1 h2
    simp at h1
    simp [h1]

/-! ## The combining loop of `processHallReverb` -/

theorem SameButScratch.refl (a : StudioReverbDSP) : SameButScratch a a := by
  simp [SameButScratch]

theorem SameButScratch.symm {a b : StudioReverbDSP} (h : SameButScratch a b) :
    SameButScratch b a := by
  obtain ⟨h1, h2, h3, h4, h5, h6, h7, h8, h9, h10, h11, h12⟩ := h
  exact ⟨h1.symm, h2.symm, h3.symm, h4.symm, h5.symm, h6.symm, h7.symm, h8.symm, h9.symm,
    h10.symm, h11.symm, h12.symm⟩

theorem SameButScratch.trans {a b c : StudioReverbDSP} (h : SameButScratch a b)
    (k : SameButScratch b c) : SameButScratch a c := by
  obtain ⟨h1, h2, h3, h4, h5, h6, h7, h8, h9, h10, h11, h12⟩ := h
  obtain ⟨k1, k2, k3, k4, k5, k6, k7, k8, k9, k10, k11, k12⟩ := k
  exact ⟨h1.trans k1, h2.trans k2, h3.trans k3, h4.trans k4, h5.trans k5, h6.trans k6,
    h7.trans k7, h8.trans k8, h9.trans k9, h10.trans k10, h11.trans k11, h12.trans k12⟩

theorem hallLoop_same (n : Nat) (s : StudioReverbDSP) :
    SameButScratch (forLoop n StudioReverbDSP.hallMixStep s) s := by
  induction n with
  | zero => rw [forLoop_zero]; exact SameButScratch.refl s
  | succ n ih =>
    rw [forLoop_succ]
    refine SameButScratch.trans ?_ ih
    simp [SameButScratch, StudioReverbDSP.hallMixStep]

theorem hallLoop_buffers (n : Nat) (s : StudioReverbDSP) (c : Fin 2) (i : Nat) :
    (forLoop n StudioReverbDSP.hallMixStep s).early_out_buffer c i =
        (if i < n then s.early_out_buffer c i * 0.3 + s.late_out_buffer c i * 0.7
         else s.early_out_buffer c i) ∧
    (forLoop n StudioReverbDSP.hallMixStep s).late_out_buffer c i =
        (if i < n then 0 else s.late_out_buffer c i) := by
  induction n generalizing c i with
  | zero => simp [forLoop_zero]
  | succ n ih =>
    rw [forLoop_succ]
    have e0 := (ih 0 n).1
    have e1 := (ih 1 n).1
    have l0 := (ih 0 n).2
    have l1 := (ih 1 n).2
    simp only [lt_irrefl, if_false] at e0 e1 l0 l1
    simp only [StudioReverbDSP.hallMixStep, Stereo.set_apply, e0, e1, l0, l1]
    by_cases hi : i = n
    · subst hi
      fin_cases c <;> simp
    · have hlt : i < n + 1 ↔ i < n := by omega
      simp only [hi, and_false, if_false, hlt]
      exact ih c i

/-! ## Dispatch on a cleared chunk -/

theorem processreplace_cleared (P : Processor) (log : List Call) (inputs : Stereo)
    (x y : Buffer) (offset n : Nat) :
    processreplace P log (fun i => inputs 0 (offset + i)) (fun i => inputs 1 (offset + i))
        (memset0 x n) (memset0 y n) n =
      { log := log ++ [procCall inputs offset n]
        outL := fun i => if i < n then procOut P log inputs offset n 0 i else x i
        outR := fun i => if i < n then procOut P log inputs offset n 1 i else y i } := by
  simp only [processreplace, slice_shift, slice_memset0, procCall, procOut]
  congr 1
  · funext i; by_cases h : i < n <;> simp [h, memset0]
  · funext i; by_cases h : i < n <;> simp [h, memset0]

theorem dispatch_room (fv : Freeverb) (s : StudioReverbDSP) (inputs : Stereo) (n offset : Nat)
    (h : s.currentReverbType = REVERB_ROOM) :
    StudioReverbDSP.dispatch fv (StudioReverbDSP.clearBuffers s n) inputs n offset =
      { s with
        roomEarly := s.roomEarly ++ [procCall inputs offset n]
        roomLate := s.roomLate ++ [procCall inputs offset n]
        early_out_buffer :=
          ![fun i => if i < n then procOut fv.earlyref_f s.roomEarly inputs offset n 0 i
                     else s.early_out_buffer 0 i,
            fun i => if i < n then procOut fv.earlyref_f s.roomEarly inputs offset n 1 i
                     else s.early_out_buffer 1 i]
        late_out_buffer :=
          ![fun i => if i < n then procOut fv.progenitor2_f s.roomLate inputs offset n 0 i
                     else s.late_out_buffer 0 i,
            fun i => if i < n then procOut fv.progenitor2_f s.roomLate inputs offset n 1 i
                     else s.late_out_buffer 1 i] } := by
  simp [StudioReverbDSP.dispatch, StudioReverbDSP.clearBuffers, h,
    StudioReverbDSP.processRoomReverb, processreplace_cleared]

theorem dispatch_plate (fv : Freeverb) (s : StudioReverbDSP) (inputs : Stereo) (n offset : Nat)
    (h : s.currentReverbType = REVERB_PLATE) :
    StudioReverbDSP.dispatch fv (StudioReverbDSP.clearBuffers s n) inputs n offset =
      { s with
        plateReverb := s.plateReverb ++ [procCall inputs offset n]
        early_out_buffer :=
          ![fun i => if i < n then procOut fv.nrevb_f s.plateReverb inputs offset n 0 i
                     else s.early_out_buffer 0 i,
            fun i => if i < n then procOut fv.nrevb_f s.plateReverb inputs offset n 1 i
                     else s.early_out_buffer 1 i]
        late_out_buffer :=
          ![memset0 (s.late_out_buffer 0) n, memset0 (s.late_out_buffer 1) n] } := by
  have e : memset0 (memset0 (s.late_out_buffer 0) n) n = memset0 (s.late_out_buffer 0) n ∧
      memset0 (memset0 (s.late_out_buffer 1) n) n = memset0 (s.late_out_buffer 1) n := by
    constructor <;> (funext i; by_cases hi : i < n <;> simp [memset0, hi])
  simp [StudioReverbDSP.dispatch, StudioReverbDSP.clearBuffers, h, REVERB_PLATE, REVERB_ROOM,
    REVERB_HALL, StudioReverbDSP.processPlateReverb, processreplace_cleared, e.1, e.2]

theorem dispatch_early (fv : Freeverb) (s : StudioReverbDSP) (inputs : Stereo) (n offset : Nat)
    (h : s.currentReverbType = REVERB_EARLY_REFLECTIONS) :
    StudioReverbDSP.dispatch fv (StudioReverbDSP.clearBuffers s n) inputs n offset =
      { s with
        earlyOnly := s.earlyOnly ++ [procCall inputs offset n]
        early_out_buffer :=
          ![fun i => if i < n then procOut fv.earlyref_f s.earlyOnly inputs offset n 0 i
                     else s.early_out_buffer 0 i,
            fun i => if i < n then procOut fv.earlyref_f s.earlyOnly inputs offset n 1 i
                     else s.early_out_buffer 1 i]
        late_out_buffer :=
          ![memset0 (s.late_out_buffer 0) n, memset0 (s.late_out_buffer 1) n] } := by
  have e : memset0 (memset0 (s.late_out_buffer 0) n) n = memset0 (s.late_out_buffer 0) n ∧
      memset0 (memset0 (s.late_out_buffer 1) n) n = memset0 (s.late_out_buffer 1) n := by
    constructor <;> (funext i; by_cases hi : i < n <;> simp [memset0, hi])
  simp [StudioReverbDSP.dispatch, StudioReverbDSP.clearBuffers, h, REVERB_PLATE, REVERB_ROOM,
    REVERB_HALL, REVERB_EARLY_REFLECTIONS, StudioReverbDSP.processEarlyReflections,
    processreplace_cleared, e.1, e.2]

theorem dispatch_other (fv : Freeverb) (s : StudioReverbDSP) (inputs : Stereo) (n offset : Nat)
    (h0 : s.currentReverbType ≠ REVERB_ROOM) (h1 : s.currentReverbType ≠ REVERB_HALL)
    (h2 : s.currentReverbType ≠ REVERB_PLATE)
    (h3 : s.currentReverbType ≠ REVERB_EARLY_REFLECTIONS) :
    StudioReverbDSP.dispatch fv (StudioReverbDSP.clearBuffers s n) inputs n offset =
      StudioReverbDSP.clearBuffers s n := by
  simp [StudioReverbDSP.dispatch, StudioReverbDSP.clearBuffers, h0, h1, h2, h3]

theorem dispatch_hall_loop (fv : Freeverb) (s : StudioReverbDSP) (inputs : Stereo)
    (n offset : Nat) (h : s.currentReverbType = REVERB_HALL) :
    StudioReverbDSP.dispatch fv (StudioReverbDSP.clearBuffers s n) inputs n offset =
      forLoop n StudioReverbDSP.hallMixStep
      { s with
        hallEarly := s.hallEarly ++ [procCall inputs offset n]
        hallLate := s.hallLate ++ [procCall inputs offset n]
        early_out_buffer :=
          ![fun i => if i < n then procOut fv.earlyref_f s.hallEarly inputs offset n 0 i
                     else s.early_out_buffer 0 i,
            fun i => if i < n then procOut fv.earlyref_f s.hallEarly inputs offset n 1 i
                     else s.early_out_buffer 1 i]
        late_out_buffer :=
          ![fun i => if i < n then procOut fv.progenitor2_f s.hallLate inputs offset n 0 i
                     else s.late_out_buffer 0 i,
            fun i => if i < n then procOut fv.progenitor2_f s.hallLate inputs offset n 1 i
                     else s.late_out_buffer 1 i] } := by
  simp [StudioReverbDSP.dispatch, StudioReverbDSP.clearBuffers, h, REVERB_ROOM, REVERB_HALL,
    StudioReverbDSP.processHallReverb, processreplace_cleared]

theorem dispatch_hall_same (fv : Freeverb) (s : StudioReverbDSP) (inputs : Stereo)
    (n offset : Nat) (h : s.currentReverbType = REVERB_HALL) :
    SameButScratch
      (StudioReverbDSP.dispatch fv (StudioReverbDSP.clearBuffers s n) inputs n offset)
      { s with
        hallEarly := s.hallEarly ++ [procCall inputs offset n]
        hallLate := s.hallLate ++ [procCall inputs offset n] } := by
  rw [dispatch_hall_loop fv s inputs n offset h]
  refine SameButScratch.trans (hallLoop_same n _) ?_
  simp [SameButScratch]

theorem dispatch_hall_buffers (fv : Freeverb) (s : StudioReverbDSP) (inputs : Stereo)
    (n offset : Nat) (h : s.currentReverbType = REVERB_HALL) (c : Fin 2) (i : Nat)
    (hi : i < n) :
    (StudioReverbDSP.dispatch fv (StudioReverbDSP.clearBuffers s n) inputs n offset
        ).early_out_buffer c i =
      procOut fv.earlyref_f s.hallEarly inputs offset n c i * 0.3 +
        procOut fv.progenitor2_f s.hallLate inputs offset n c i * 0.7 ∧
    (StudioReverbDSP.dispatch fv (StudioReverbDSP.clearBuffers s n) inputs n offset
        ).late_out_buffer c i = 0 := by
  rw [dispatch_hall_loop fv s inputs n offset h]
  have := hallLoop_buffers n
    { s with
      hallEarly := s.hallEarly ++ [procCall inputs offset n]
      hallLate := s.hallLate ++ [procCall inputs offset n]
      early_out_buffer :=
        ![fun i => if i < n then procOut fv.earlyref_f s.hallEarly inputs offset n 0 i
                   else s.early_out_buffer 0 i,
          fun i => if i < n then procOut fv.earlyref_f s.hallEarly inputs offset n 1 i
                   else s.early_out_buffer 1 i]
      late_out_buffer :=
        ![fun i => if i < n then procOut fv.progenitor2_f s.hallLate inputs offset n 0 i
                   else s.late_out_buffer 0 i,
          fun i => if i < n then procOut fv.progenitor2_f s.hallLate inputs offset n 1 i
                   else s.late_out_buffer 1 i] } c i
  rw [this.1, this.2]
  fin_cases c <;> simp [hi]

theorem dispatch_indep (fv : Freeverb) (a b : StudioReverbDSP) (inputs : Stereo)
    (n offset : Nat) (hab : SameButScratch a b) :
    SameButScratch
      (StudioReverbDSP.dispatch fv (StudioReverbDSP.clearBuffers a n) inputs n offset)
      (StudioReverbDSP.dispatch fv (StudioReverbDSP.clearBuffers b n) inputs n offset) ∧
    ∀ (c : Fin 2) (i : Nat), i < n →
      (StudioReverbDSP.dispatch fv (StudioReverbDSP.clearBuffers a n) inputs n offset
          ).early_out_buffer c i =
        (StudioReverbDSP.dispatch fv (StudioReverbDSP.clearBuffers b n) inputs n offset
          ).early_out_buffer c i ∧
      (StudioReverbDSP.dispatch fv (StudioReverbDSP.clearBuffers a n) inputs n offset
          ).late_out_buffer c i =
        (StudioReverbDSP.dispatch fv (StudioReverbDSP.clearBuffers b n) inputs n offset
          ).late_out_buffer c i := by
  obtain ⟨h1, h2, h3, h4, h5, h6, h7, h8, h9, h10, h11, h12⟩ := hab
  by_cases r0 : a.currentReverbType = REVERB_ROOM
  · rw [dispatch_room fv a inputs n offset r0, dispatch_room fv b inputs n offset (h3 ▸ r0)]
    refine ⟨by simp [SameButScratch, *], ?_⟩
    intro c i hi
    fin_cases c <;> simp [hi, *]
  by_cases r1 : a.currentReverbType = REVERB_HALL
  · have sa := dispatch_hall_same fv a inputs n offset r1
    have sb := dispatch_hall_same fv b inputs n offset (h3 ▸ r1)
    refine ⟨SameButScratch.trans sa (SameButScratch.trans ?_ sb.symm), ?_⟩
    · simp [SameButScratch, *]
    · intro c i hi
      have ba := dispatch_hall_buffers fv a inputs n offset r1 c i hi
      have bb := dispatch_hall_buffers fv b inputs n offset (h3 ▸ r1) c i hi
      rw [ba.1, ba.2, bb.1, bb.2, h9, h10]
      simp
  by_cases r2 : a.currentReverbType = REVERB_PLATE
  · rw [dispatch_plate fv a inputs n offset r2, dispatch_plate fv b inputs n offset (h3 ▸ r2)]
    refine ⟨by simp [SameButScratch, *], ?_⟩
    intro c i hi
    fin_cases c <;> simp [hi, memset0, *]
  by_cases r3 : a.currentReverbType = REVERB_EARLY_REFLECTIONS
  · rw [dispatch_early fv a inputs n offset r3, dispatch_early fv b inputs n offset (h3 ▸ r3)]
    refine ⟨by simp [SameButScratch, *], ?_⟩
    intro c i hi
    fin_cases c <;> simp [hi, memset0, *]
  · rw [dispatch_other fv a inputs n offset r0 r1 r2 r3,
      dispatch_other fv b inputs n offset (h3 ▸ r0) (h3 ▸ r1) (h3 ▸ r2) (h3 ▸ r3)]
    refine ⟨by simp [SameButScratch, StudioReverbDSP.clearBuffers, *], ?_⟩
    intro c i hi
    fin_cases c <;> simp [hi, memset0, StudioReverbDSP.clearBuffers]

theorem dispatch_levels (fv : Freeverb) (s : StudioReverbDSP) (inputs : Stereo)
    (n offset : Nat) :
    (StudioReverbDSP.dispatch fv (StudioReverbDSP.clearBuffers s n) inputs n offset).dryLevel =
        s.dryLevel ∧
    (StudioReverbDSP.dispatch fv (StudioReverbDSP.clearBuffers s n) inputs n offset).earlyLevel =
        s.earlyLevel ∧
    (StudioReverbDSP.dispatch fv (StudioReverbDSP.clearBuffers s n) inputs n offset).lateLevel =
        s.lateLevel ∧
    (StudioReverbDSP.dispatch fv (StudioReverbDSP.clearBuffers s n) inputs n offset
        ).currentReverbType = s.currentReverbType := by
  by_cases r0 : s.currentReverbType = REVERB_ROOM
  · rw [dispatch_room fv s inputs n offset r0]; simp
  by_cases r1 : s.currentReverbType = REVERB_HALL
  · obtain ⟨-, -, h3, h4, h5, h6, -⟩ := dispatch_hall_same fv s inputs n offset r1
    exact ⟨h4, h5, h6, h3⟩
  by_cases r2 : s.currentReverbType = REVERB_PLATE
  · rw [dispatch_plate fv s inputs n offset r2]; simp
  by_cases r3 : s.currentReverbType = REVERB_EARLY_REFLECTIONS
  · rw [dispatch_early fv s inputs n offset r3]; simp
  · rw [dispatch_other fv s inputs n offset r0 r1 r2 r3]
    simp [StudioReverbDSP.clearBuffers]

/-! ## The mixing loop of `run` -/

theorem mixStep_apply (s : StudioReverbDSP) (inputs : Stereo) (offset i : Nat)
    (outputs : Stereo) (c : Fin 2) (j : Nat) :
    StudioReverbDSP.mixStep s inputs offset i outputs c j =
      if j = u32add offset i then
        s.dryLevel * inputs c j + s.earlyLevel * s.early_out_buffer c i +
          s.lateLevel * s.late_out_buffer c i
      else outputs c j := by
  by_cases hj : j = u32add offset i
  · subst hj
    fin_cases c <;> simp [StudioReverbDSP.mixStep, Stereo.set_apply]
  · fin_cases c <;> simp [StudioReverbDSP.mixStep, Stereo.set_apply, hj]

theorem mixLoop_apply (s : StudioReverbDSP) (inputs : Stereo) (offset n : Nat)
    (hno : offset + n ≤ U32) (outputs : Stereo) (c : Fin 2) (j : Nat) :
    forLoop n (StudioReverbDSP.mixStep s inputs offset) outputs c j =
      if offset ≤ j ∧ j < offset + n then
        s.dryLevel * inputs c j + s.earlyLevel * s.early_out_buffer c (j - offset) +
          s.lateLevel * s.late_out_buffer c (j - offset)
      else outputs c j := by
  induction n with
  | zero =>
    rw [forLoop_zero]
    have : ¬ (offset ≤ j ∧ j < offset + 0) := by omega
    rw [if_neg this]
  | succ n ih =>
    have hno2 : offset + n ≤ U32 := by omega
    have hk : u32add offset n = offset + n := by
      unfold u32add
      apply Nat.mod_eq_of_lt
      omega
    rw [forLoop_succ, mixStep_apply, hk, ih hno2]
    by_cases hj : j = offset + n
    · subst hj
      have : offset ≤ offset + n ∧ offset + n < offset + (n + 1) := by omega
      simp [this]
    · by_cases hr : offset ≤ j ∧ j < offset + n
      · have : offset ≤ j ∧ j < offset + (n + 1) := by omega
        simp [hj, hr, this]
      · have : ¬ (offset ≤ j ∧ j < offset + (n + 1)) := by omega
        simp [hj, hr, this]

/-! ## The chunk sequence -/

theorem chunksFrom_done (frames : Nat) (hf : frames < U32) (offset : Nat)
    (h : frames ≤ offset) : chunksFrom frames hf offset = [] := by
  rw [chunksFrom]
  simp [Nat.not_lt.mpr h]

theorem chunksFrom_step (frames : Nat) (hf : frames < U32) (offset : Nat)
    (h : offset < frames) :
    chunksFrom frames hf offset =
      (offset, min 256 (frames - offset)) ::
        chunksFrom frames hf (offset + min 256 (frames - offset)) := by
  have hs : u32sub frames offset = frames - offset := by
    unfold u32sub U32 at *
    omega
  have ha : u32add offset (min 256 (frames - offset)) = offset + min 256 (frames - offset) := by
    unfold u32add U32 at *
    omega
  rw [chunksFrom]
  simp [h, hs, ha, BUFFER_SIZE]

theorem runLoop_done (fv : Freeverb) (inputs : Stereo) (frames : Nat) (hf : frames < U32)
    (offset : Nat) (st : StudioReverbDSP × Stereo) (h : frames ≤ offset) :
    StudioReverbDSP.runLoop fv inputs frames hf offset st = st := by
  rw [StudioReverbDSP.runLoop]
  simp [Nat.not_lt.mpr h]

theorem runLoop_step (fv : Freeverb) (inputs : Stereo) (frames : Nat) (hf : frames < U32)
    (offset : Nat) (st : StudioReverbDSP × Stereo) (h : offset < frames) :
    StudioReverbDSP.runLoop fv inputs frames hf offset st =
      StudioReverbDSP.runLoop fv inputs frames hf (offset + min 256 (frames - offset))
        (StudioReverbDSP.chunk fv inputs (min 256 (frames - offset)) offset st) := by
  have hs : u32sub frames offset = frames - offset := by
    unfold u32sub U32 at *
    omega
  have ha : u32add offset (min 256 (frames - offset)) = offset + min 256 (frames - offset) := by
    unfold u32add U32 at *
    omega
  rw [StudioReverbDSP.runLoop]
  simp [h, hs, ha, BUFFER_SIZE]

theorem runLoop_eq_foldl (fv : Freeverb) (inputs : Stereo) (frames : Nat) (hf : frames < U32)
    (m : Nat) : ∀ (offset : Nat) (st : StudioReverbDSP × Stereo), frames - offset ≤ m →
    StudioReverbDSP.runLoop fv inputs frames hf offset st =
      (chunksFrom frames hf offset).foldl
        (fun st ch => StudioReverbDSP.chunk fv inputs ch.2 ch.1 st) st := by
  induction m with
  | zero =>
    intro offset st h
    have : frames ≤ offset := by omega
    rw [runLoop_done _ _ _ _ _ _ this, chunksFrom_done _ _ _ this]
    rfl
  | succ m ih =>
    intro offset st h
    by_cases hlt : offset < frames
    · rw [runLoop_step _ _ _ _ _ _ hlt, chunksFrom_step _ _ _ hlt, List.foldl_cons]
      apply ih
      omega
    · have : frames ≤ offset := by omega
      rw [runLoop_done _ _ _ _ _ _ this, chunksFrom_done _ _ _ this]
      rfl

theorem chunksFrom_eq_map (frames : Nat) (hf : frames < U32) (m : Nat) :
    ∀ (offset : Nat), offset ≤ frames → frames - offset ≤ 256 * m →
    chunksFrom frames hf offset =
      (List.range ((frames - offset + 255) / 256)).map
        (fun i => (offset + 256 * i, min 256 (frames - (offset + 256 * i)))) := by
  induction m with
  | zero =>
    intro offset h1 h2
    have : frames ≤ offset := by omega
    rw [chunksFrom_done _ _ _ this]
    have : (frames - offset + 255) / 256 = 0 := by omega
    simp [this]
  | succ m ih =>
    intro offset h1 h2
    by_cases hlt : offset < frames
    · rw [chunksFrom_step _ _ _ hlt]
      by_cases hbig : 256 < frames - offset
      · have hmin : min 256 (frames - offset) = 256 := by omega
        have hcnt : (frames - offset + 255) / 256 = (frames - (offset + 256) + 255) / 256 + 1 := by
          omega
        rw [hmin, ih (offset + 256) (by omega) (by omega), hcnt, List.range_succ_eq_map]
        simp only [List.map_cons, List.map_map, Nat.mul_zero, Nat.add_zero, hmin]
        congr 1
        apply List.map_congr_left
        intro i _
        simp only [Function.comp, Nat.succ_eq_add_one]
        have : offset + 256 + 256 * i = offset + 256 * (i + 1) := by ring
        rw [this]
      · have hmin : min 256 (frames - offset) = frames - offset := by omega
        have hcnt : (frames - offset + 255) / 256 = 1 := by omega
        rw [hmin, chunksFrom_done _ _ _ (by omega), hcnt]
        simp [List.range_succ, hmin]
    · have : frames ≤ offset := by omega
      rw [chunksFrom_done _ _ _ this]
      have : (frames - offset + 255) / 256 = 0 := by omega
      simp [this]

theorem chunks_eq_map (frames : Nat) (hf : frames < U32) :
    chunks frames hf =
      (List.range ((frames + 255) / 256)).map
        (fun k => (256 * k, min 256 (frames - 256 * k))) := by
  unfold chunks
  rw [chunksFrom_eq_map frames hf frames 0 (by omega) (by omega)]
  simp

/-! ## The state at the head of each chunk -/

theorem chunks_length (frames : Nat) (hf : frames < U32) :
    (chunks frames hf).length = (frames + 255) / 256 := by
  rw [chunks_eq_map]
  simp

theorem run_eq_foldl (fv : Freeverb) (s : StudioReverbDSP) (inputs outputs : Stereo)
    (frames : Nat) (hf : frames < U32) :
    StudioReverbDSP.run fv s inputs outputs frames hf =
      (chunks frames hf).foldl
        (fun st ch => StudioReverbDSP.chunk fv inputs ch.2 ch.1 st) (s, outputs) := by
  unfold StudioReverbDSP.run chunks
  exact runLoop_eq_foldl fv inputs frames hf frames 0 (s, outputs) (by omega)

theorem run_eq_headState (fv : Freeverb) (s : StudioReverbDSP) (inputs outputs : Stereo)
    (frames : Nat) (hf : frames < U32) :
    StudioReverbDSP.run fv s inputs outputs frames hf =
      headState fv s inputs outputs frames hf ((frames + 255) / 256) := by
  rw [run_eq_foldl]
  unfold headState
  rw [List.take_of_length_le (by rw [chunks_length])]

theorem headState_zero (fv : Freeverb) (s : StudioReverbDSP) (inputs outputs : Stereo)
    (frames : Nat) (hf : frames < U32) :
    headState fv s inputs outputs frames hf 0 = (s, outputs) := by
  simp [headState]

theorem headState_succ (fv : Freeverb) (s : StudioReverbDSP) (inputs outputs : Stereo)
    (frames : Nat) (hf : frames < U32) (k : Nat) (hk : k < (frames + 255) / 256) :
    headState fv s inputs outputs frames hf (k + 1) =
      StudioReverbDSP.chunk fv inputs (min 256 (frames - 256 * k)) (256 * k)
        (headState fv s inputs outputs frames hf k) := by
  unfold headState
  rw [chunks_eq_map, ← List.map_take, ← List.map_take, List.take_range, List.take_range]
  have h1 : min (k + 1) ((frames + 255) / 256) = k + 1 := by omega
  have h2 : min k ((frames + 255) / 256) = k := by omega
  rw [h1, h2, List.range_succ, List.map_append, List.foldl_append]
  simp

theorem foldl_chunk_levels (fv : Freeverb) (inputs : Stereo) (l : List (Nat × Nat)) :
    ∀ (st : StudioReverbDSP × Stereo),
    (l.foldl (fun st ch => StudioReverbDSP.chunk fv inputs ch.2 ch.1 st) st).1.dryLevel =
        st.1.dryLevel ∧
    (l.foldl (fun st ch => StudioReverbDSP.chunk fv inputs ch.2 ch.1 st) st).1.earlyLevel =
        st.1.earlyLevel ∧
    (l.foldl (fun st ch => StudioReverbDSP.chunk fv inputs ch.2 ch.1 st) st).1.lateLevel =
        st.1.lateLevel ∧
    (l.foldl (fun st ch => StudioReverbDSP.chunk fv inputs ch.2 ch.1 st) st
        ).1.currentReverbType = st.1.currentReverbType := by
  induction l with
  | nil => intro st; simp
  | cons ch l ih =>
    intro st
    rw [List.foldl_cons]
    obtain ⟨a, b, c, d⟩ := ih (StudioReverbDSP.chunk fv inputs ch.2 ch.1 st)
    obtain ⟨a2, b2, c2, d2⟩ := dispatch_levels fv st.1 inputs ch.2 ch.1
    rw [a, b, c, d]
    exact ⟨a2, b2, c2, d2⟩

theorem headState_levels (fv : Freeverb) (s : StudioReverbDSP) (inputs outputs : Stereo)
    (frames : Nat) (hf : frames < U32) (k : Nat) :
    (headState fv s inputs outputs frames hf k).1.dryLevel = s.dryLevel ∧
    (headState fv s inputs outputs frames hf k).1.earlyLevel = s.earlyLevel ∧
    (headState fv s inputs outputs frames hf k).1.lateLevel = s.lateLevel ∧
    (headState fv s inputs outputs frames hf k).1.currentReverbType = s.currentReverbType :=
  foldl_chunk_levels fv inputs _ (s, outputs)

theorem headState_outputs (fv : Freeverb) (s : StudioReverbDSP) (inputs outputs : Stereo)
    (frames : Nat) (hf : frames < U32) (c : Fin 2) (j : Nat) (hj : j < frames) (k : Nat) :
    k ≤ (frames + 255) / 256 → j < 256 * k →
    (headState fv s inputs outputs frames hf k).2 c j =
      s.dryLevel * inputs c j +
      s.earlyLevel *
        (StudioReverbDSP.dispatch fv
          (StudioReverbDSP.clearBuffers (headState fv s inputs outputs frames hf (j / 256)).1
            (min 256 (frames - 256 * (j / 256))))
          inputs (min 256 (frames - 256 * (j / 256))) (256 * (j / 256))
          ).early_out_buffer c (j % 256) +
      s.lateLevel *
        (StudioReverbDSP.dispatch fv
          (StudioReverbDSP.clearBuffers (headState fv s inputs outputs frames hf (j / 256)).1
            (min 256 (frames - 256 * (j / 256))))
          inputs (min 256 (frames - 256 * (j / 256))) (256 * (j / 256))
          ).late_out_buffer c (j % 256) := by
  induction k with
  | zero => intro _ h; omega
  | succ k ih =>
    intro hk hjk
    rw [headState_succ fv s inputs outputs frames hf k (by omega)]
    unfold StudioReverbDSP.chunk
    simp only
    rw [mixLoop_apply _ _ _ _ (by unfold U32 at *; omega)]
    by_cases hin : 256 * k ≤ j ∧ j < 256 * k + min 256 (frames - 256 * k)
    · have hq : j / 256 = k := by omega
      have hr : j - 256 * k = j % 256 := by omega
      obtain ⟨l1, l2, l3, -⟩ := dispatch_levels fv
        (headState fv s inputs outputs frames hf k).1 inputs (min 256 (frames - 256 * k))
        (256 * k)
      obtain ⟨m1, m2, m3, -⟩ := headState_levels fv s inputs outputs frames hf k
      rw [if_pos hin, l1, l2, l3, m1, m2, m3, hr, hq]
    · rw [if_neg hin]
      exact ih (by omega) (by omega)

theorem chunksFrom_sum (frames : Nat) (hf : frames < U32) (m : Nat) :
    ∀ (offset : Nat), offset ≤ frames → frames - offset ≤ m →
    ((chunksFrom frames hf offset).map Prod.snd).sum = frames - offset := by
  induction m with
  | zero =>
    intro offset h1 h2
    rw [chunksFrom_done _ _ _ (by omega)]
    simp
    omega
  | succ m ih =>
    intro offset h1 h2
    by_cases hlt : offset < frames
    · rw [chunksFrom_step _ _ _ hlt, List.map_cons, List.sum_cons,
        ih (offset + min 256 (frames - offset)) (by omega) (by omega)]
      simp only
      omega
    · rw [chunksFrom_done _ _ _ (by omega)]
      simp
      omega

theorem chunks_getElem? (frames : Nat) (hf : frames < U32) (k : Nat)
    (hk : k < (frames + 255) / 256) :
    (chunks frames hf)[k]? = some (256 * k, min 256 (frames - 256 * k)) := by
  rw [chunks_eq_map, List.getElem?_map, List.getElem?_range hk]
  rfl

/-! ## Claims -/

/-- C1. For every frame count `n`, every frame index `j < n` and each channel `c`, the
output sample that `run(inputs, outputs, n)` leaves at `outputs[c][j]` is
`dryLevel * inputs[c][j] + earlyLevel * early[c][j mod 256] + lateLevel * late[c][j mod 256]`,
where `early` and `late` are the scratch buffers left by the variant dispatch on the
chunk `j / 256` that contains `j`; the sum is not clipped or limited. -/
theorem run_output_is_mix (fv : Freeverb) (s : StudioReverbDSP) (inputs outputs : Stereo)
    (n : Nat) (hf : n < U32) (c : Fin 2) (j : Nat) (hj : j < n) :
    (StudioReverbDSP.run fv s inputs outputs n hf).2 c j =
      s.dryLevel * inputs c j +
      s.earlyLevel *
        (StudioReverbDSP.dispatch fv
          (StudioReverbDSP.clearBuffers (headState fv s inputs outputs n hf (j / 256)).1
            (min 256 (n - 256 * (j / 256))))
          inputs (min 256 (n - 256 * (j / 256))) (256 * (j / 256))
          ).early_out_buffer c (j % 256) +
      s.lateLevel *
        (StudioReverbDSP.dispatch fv
          (StudioReverbDSP.clearBuffers (headState fv s inputs outputs n hf (j / 256)).1
            (min 256 (n - 256 * (j / 256))))
          inputs (min 256 (n - 256 * (j / 256))) (256 * (j / 256))
          ).late_out_buffer c (j % 256) := by
  rw [run_eq_headState]
  exact headState_outputs fv s inputs outputs n hf c j hj _ (le_refl _) (by omega)

/-- C2. The block of `frames` frames is processed as consecutive chunks: `run` is the
loop body folded over the chunk list; there are `ceil(frames / 256)` chunks; chunk `k`
starts at `256 * k` and has length `min(256, frames - 256 * k)`; every length is
between 1 and 256; every chunk but the last has length 256; the lengths sum to
`frames`; every frame index below `frames` lies in exactly one chunk; and for
`frames = 0` there is no chunk and `run` returns the engine state (so no processor
call is recorded) and the output block unchanged. -/
theorem run_chunking (fv : Freeverb) (s : StudioReverbDSP) (inputs outputs : Stereo)
    (frames : Nat) (hf : frames < U32) :
    StudioReverbDSP.run fv s inputs outputs frames hf =
      (chunks frames hf).foldl
        (fun st ch => StudioReverbDSP.chunk fv inputs ch.2 ch.1 st) (s, outputs) ∧
    (chunks frames hf).length = (frames + 255) / 256 ∧
    (((chunks frames hf).length : ℤ) = ⌈(frames : ℚ) / 256⌉) ∧
    (∀ k, k < (chunks frames hf).length →
      (chunks frames hf)[k]? = some (256 * k, min 256 (frames - 256 * k))) ∧
    (∀ ch ∈ chunks frames hf, 1 ≤ ch.2 ∧ ch.2 ≤ 256) ∧
    (∀ k, k + 1 < (chunks frames hf).length →
      (chunks frames hf)[k]? = some (256 * k, 256)) ∧
    ((chunks frames hf).map Prod.snd).sum = frames ∧
    (∀ j, j < frames → ∃! k, k < (chunks frames hf).length ∧
      (chunks frames hf)[k]? = some (256 * k, min 256 (frames - 256 * k)) ∧
      256 * k ≤ j ∧ j < 256 * k + min 256 (frames - 256 * k)) ∧
    (frames = 0 → chunks frames hf = [] ∧
      StudioReverbDSP.run fv s inputs outputs frames hf = (s, outputs)) := by
  have hlen := chunks_length frames hf
  refine ⟨run_eq_foldl fv s inputs outputs frames hf, hlen, ?_, ?_, ?_, ?_, ?_, ?_, ?_⟩
  · rw [hlen]
    symm
    rw [Int.ceil_eq_iff]
    have h1 : 256 * ((frames + 255) / 256) ≤ frames + 255 := by omega
    have h2 : frames ≤ 256 * ((frames + 255) / 256) := by omega
    generalize (frames + 255) / 256 = q at h1 h2 ⊢
    have h1q : (256 : ℚ) * (q : ℚ) ≤ (frames : ℚ) + 255 := by exact_mod_cast h1
    have h2q : (frames : ℚ) ≤ (256 : ℚ) * (q : ℚ) := by exact_mod_cast h2
    simp only [Int.cast_natCast]
    constructor
    · rw [lt_div_iff₀ (by norm_num)]
      linarith
    · rw [div_le_iff₀ (by norm_num)]
      linarith
  · intro k hk
    exact chunks_getElem? frames hf k (hlen ▸ hk)
  · intro ch hch
    rw [chunks_eq_map] at hch
    simp only [List.mem_map, List.mem_range] at hch
    obtain ⟨k, hk, rfl⟩ := hch
    simp only
    omega
  · intro k hk
    rw [chunks_getElem? frames hf k (by omega)]
    have : min 256 (frames - 256 * k) = 256 := by omega
    rw [this]
  · unfold chunks
    rw [chunksFrom_sum frames hf frames 0 (by omega) (by omega)]
    rfl
  · intro j hj
    refine ⟨j / 256, ⟨by omega, chunks_getElem? frames hf _ (by omega), by omega, by omega⟩, ?_⟩
    rintro k ⟨-, -, h3, h4⟩
    omega
  · intro h0
    subst h0
    refine ⟨chunksFrom_done 0 hf 0 (le_refl _), ?_⟩
    exact runLoop_done fv inputs 0 hf 0 (s, outputs) (le_refl _)

/-- C1 at a concrete input: 300 frames in Room mode, right channel, frame 260 (the
fifth frame of the second chunk). The input sample is `-261`, the early processor
yields `-261/2`, the late one `-261`, and the gains are `1`, `3/4`, `3/4`. -/
theorem run_output_is_mix_witness :
    (300 < U32 ∧ 260 < 300) ∧
    (StudioReverbDSP.run demoFreeverb demoDSP demoInputs demoOutputs 300 (by decide)).2 1 260 =
      1 * (-261) + 3 / 4 * (-261 / 2) + 3 / 4 * (-261) := by
  refine ⟨⟨by decide, by decide⟩, ?_⟩
  rw [run_output_is_mix demoFreeverb demoDSP demoInputs demoOutputs 300 (by decide) 1 260
    (by decide)]
  have ht := (headState_levels demoFreeverb demoDSP demoInputs demoOutputs 300 (by decide)
    (260 / 256)).2.2.2
  rw [dispatch_room _ _ _ _ _ (ht.trans rfl)]
  simp [procOut, demoFreeverb, demoDSP, demoInputs, slice, zeros]
  norm_num

/-- C2 at a concrete input: 600 frames are processed as the three chunks
`(0, 256)`, `(256, 256)`, `(512, 88)`. -/
theorem run_chunking_witness :
    600 < U32 ∧
    (chunks 600 (by decide)).length = 3 ∧
    (chunks 600 (by decide))[1]? = some (256, 256) ∧
    (chunks 600 (by decide))[2]? = some (512, 88) ∧
    ((chunks 600 (by decide)).map Prod.snd).sum = 600 := by
  obtain ⟨-, h2, -, h4, -, -, h7, -, -⟩ :=
    run_chunking demoFreeverb demoDSP demoInputs demoOutputs 600 (by decide)
  exact ⟨by decide, h2, h4 1 (by rw [h2]; decide), h4 2 (by rw [h2]; decide), h7⟩

/-- C3. In Hall mode, for a chunk of `n` frames at any `offset`, every index `i < n`
and each channel `c`, after the scratch buffers are cleared and the variant is
dispatched, `early_out_buffer[c][i] = 0.3 * e[c][i] + 0.7 * l[c][i]` and
`late_out_buffer[c][i] = 0`, where `e` is what Hall-Early and `l` what Hall-Late
produced for the chunk; each of the two was called once, on the raw input slice. -/
theorem hall_mixing_law (fv : Freeverb) (s : StudioReverbDSP) (inputs : Stereo)
    (n offset : Nat) (h : s.currentReverbType = REVERB_HALL) (c : Fin 2) (i : Nat)
    (hi : i < n) :
    (StudioReverbDSP.dispatch fv (StudioReverbDSP.clearBuffers s n) inputs n offset
        ).early_out_buffer c i =
      0.3 * fv.earlyref_f s.hallEarly (slice (inputs 0) offset n) (slice (inputs 1) offset n)
              (zeros n) (zeros n) n c i +
      0.7 * fv.progenitor2_f s.hallLate (slice (inputs 0) offset n) (slice (inputs 1) offset n)
              (zeros n) (zeros n) n c i ∧
    (StudioReverbDSP.dispatch fv (StudioReverbDSP.clearBuffers s n) inputs n offset
        ).late_out_buffer c i = 0 ∧
    (StudioReverbDSP.dispatch fv (StudioReverbDSP.clearBuffers s n) inputs n offset
        ).hallEarly =
      s.hallEarly ++ [Call.processreplace (slice (inputs 0) offset n) (slice (inputs 1) offset n)
        (zeros n) (zeros n) n] ∧
    (StudioReverbDSP.dispatch fv (StudioReverbDSP.clearBuffers s n) inputs n offset
        ).hallLate =
      s.hallLate ++ [Call.processreplace (slice (inputs 0) offset n) (slice (inputs 1) offset n)
        (zeros n) (zeros n) n] := by
  obtain ⟨b1, b2⟩ := dispatch_hall_buffers fv s inputs n offset h c i hi
  obtain ⟨-, -, -, -, -, -, -, -, l1, l2, -, -⟩ := dispatch_hall_same fv s inputs n offset h
  refine ⟨?_, b2, l1, l2⟩
  rw [b1]
  simp only [procOut]
  ring

/-- C3 at a concrete input: a Hall chunk of 4 frames at offset 2, left channel,
index 3. The input sample is `6`, Hall-Early yields `3`, Hall-Late yields `6`. -/
theorem hall_mixing_law_witness :
    ({ demoDSP with currentReverbType := REVERB_HALL } : StudioReverbDSP).currentReverbType =
      REVERB_HALL ∧ 3 < 4 ∧
    (StudioReverbDSP.dispatch demoFreeverb
      (StudioReverbDSP.clearBuffers { demoDSP with currentReverbType := REVERB_HALL } 4)
      demoInputs 4 2).early_out_buffer 0 3 = 0.3 * 3 + 0.7 * 6 ∧
    (StudioReverbDSP.dispatch demoFreeverb
      (StudioReverbDSP.clearBuffers { demoDSP with currentReverbType := REVERB_HALL } 4)
      demoInputs 4 2).late_out_buffer 0 3 = 0 := by
  obtain ⟨h1, h2, -, -⟩ := hall_mixing_law demoFreeverb
    { demoDSP with currentReverbType := REVERB_HALL } demoInputs 4 2 rfl 0 3 (by decide)
  refine ⟨rfl, by decide, ?_, h2⟩
  rw [h1]
  simp [demoFreeverb, demoDSP, demoInputs, slice, zeros]
  norm_num

/-- C4. In Plate mode, for a chunk of `n` frames at any `offset` and any input, the
dispatch records exactly one `processreplace` call, on Plate, and none on the other
five processors; the early buffer receives what Plate produced and
`late_out_buffer[c][i] = 0` for both channels and every `i < n`. In EarlyReflections
mode the same holds with EarlyOnly in the place of Plate. -/
theorem plate_and_early_dispatch (fv : Freeverb) (s : StudioReverbDSP) (inputs : Stereo)
    (n offset : Nat) :
    (s.currentReverbType = REVERB_PLATE →
      (StudioReverbDSP.dispatch fv (StudioReverbDSP.clearBuffers s n) inputs n offset
          ).plateReverb =
        s.plateReverb ++ [Call.processreplace (slice (inputs 0) offset n)
          (slice (inputs 1) offset n) (zeros n) (zeros n) n] ∧
      (StudioReverbDSP.dispatch fv (StudioReverbDSP.clearBuffers s n) inputs n offset
          ).roomEarly = s.roomEarly ∧
      (StudioReverbDSP.dispatch fv (StudioReverbDSP.clearBuffers s n) inputs n offset
          ).roomLate = s.roomLate ∧
      (StudioReverbDSP.dispatch fv (StudioReverbDSP.clearBuffers s n) inputs n offset
          ).hallEarly = s.hallEarly ∧
      (StudioReverbDSP.dispatch fv (StudioReverbDSP.clearBuffers s n) inputs n offset
          ).hallLate = s.hallLate ∧
      (StudioReverbDSP.dispatch fv (StudioReverbDSP.clearBuffers s n) inputs n offset
          ).earlyOnly = s.earlyOnly ∧
      ∀ (c : Fin 2) (i : Nat), i < n →
        (StudioReverbDSP.dispatch fv (StudioReverbDSP.clearBuffers s n) inputs n offset
            ).early_out_buffer c i =
          fv.nrevb_f s.plateReverb (slice (inputs 0) offset n) (slice (inputs 1) offset n)
            (zeros n) (zeros n) n c i ∧
        (StudioReverbDSP.dispatch fv (StudioReverbDSP.clearBuffers s n) inputs n offset
            ).late_out_buffer c i = 0) ∧
    (s.currentReverbType = REVERB_EARLY_REFLECTIONS →
      (StudioReverbDSP.dispatch fv (StudioReverbDSP.clearBuffers s n) inputs n offset
          ).earlyOnly =
        s.earlyOnly ++ [Call.processreplace (slice (inputs 0) offset n)
          (slice (inputs 1) offset n) (zeros n) (zeros n) n] ∧
      (StudioReverbDSP.dispatch fv (StudioReverbDSP.clearBuffers s n) inputs n offset
          ).roomEarly = s.roomEarly ∧
      (StudioReverbDSP.dispatch fv (StudioReverbDSP.clearBuffers s n) inputs n offset
          ).roomLate = s.roomLate ∧
      (StudioReverbDSP.dispatch fv (StudioReverbDSP.clearBuffers s n) inputs n offset
          ).hallEarly = s.hallEarly ∧
      (StudioReverbDSP.dispatch fv (StudioReverbDSP.clearBuffers s n) inputs n offset
          ).hallLate = s.hallLate ∧
      (StudioReverbDSP.dispatch fv (StudioReverbDSP.clearBuffers s n) inputs n offset
          ).plateReverb = s.plateReverb ∧
      ∀ (c : Fin 2) (i : Nat), i < n →
        (StudioReverbDSP.dispatch fv (StudioReverbDSP.clearBuffers s n) inputs n offset
            ).early_out_buffer c i =
          fv.earlyref_f s.earlyOnly (slice (inputs 0) offset n) (slice (inputs 1) offset n)
            (zeros n) (zeros n) n c i ∧
        (StudioReverbDSP.dispatch fv (StudioReverbDSP.clearBuffers s n) inputs n offset
            ).late_out_buffer c i = 0) := by
  constructor
  · intro h
    rw [dispatch_plate fv s inputs n offset h]
    refine ⟨rfl, rfl, rfl, rfl, rfl, rfl, ?_⟩
    intro c i hi
    fin_cases c <;> simp [hi, memset0, procOut]
  · intro h
    rw [dispatch_early fv s inputs n offset h]
    refine ⟨rfl, rfl, rfl, rfl, rfl, rfl, ?_⟩
    intro c i hi
    fin_cases c <;> simp [hi, memset0, procOut]

/-- C4 at concrete inputs: a Plate chunk and an EarlyReflections chunk of 4 frames at
offset 2. Plate (no call made on it before) yields `0`; EarlyOnly yields half the
right input sample `-6`; the late buffer holds `0` although it held `9` before. -/
theorem plate_and_early_dispatch_witness :
    ((StudioReverbDSP.dispatch demoFreeverb
        (StudioReverbDSP.clearBuffers { demoDSP with currentReverbType := REVERB_PLATE } 4)
        demoInputs 4 2).plateReverb.length = 1 ∧
      (StudioReverbDSP.dispatch demoFreeverb
        (StudioReverbDSP.clearBuffers { demoDSP with currentReverbType := REVERB_PLATE } 4)
        demoInputs 4 2).early_out_buffer 1 3 = 0 ∧
      (StudioReverbDSP.dispatch demoFreeverb
        (StudioReverbDSP.clearBuffers { demoDSP with currentReverbType := REVERB_PLATE } 4)
        demoInputs 4 2).late_out_buffer 1 3 = 0) ∧
    ((StudioReverbDSP.dispatch demoFreeverb
        (StudioReverbDSP.clearBuffers
          { demoDSP with currentReverbType := REVERB_EARLY_REFLECTIONS } 4)
        demoInputs 4 2).earlyOnly.length = 1 ∧
      (StudioReverbDSP.dispatch demoFreeverb
        (StudioReverbDSP.clearBuffers
          { demoDSP with currentReverbType := REVERB_EARLY_REFLECTIONS } 4)
        demoInputs 4 2).early_out_buffer 1 3 = -3 ∧
      (StudioReverbDSP.dispatch demoFreeverb
        (StudioReverbDSP.clearBuffers
          { demoDSP with currentReverbType := REVERB_EARLY_REFLECTIONS } 4)
        demoInputs 4 2).late_out_buffer 1 3 = 0) := by
  obtain ⟨p1, -, -, -, -, -, p2⟩ := (plate_and_early_dispatch demoFreeverb
    { demoDSP with currentReverbType := REVERB_PLATE } demoInputs 4 2).1 rfl
  obtain ⟨e1, -, -, -, -, -, e2⟩ := (plate_and_early_dispatch demoFreeverb
    { demoDSP with currentReverbType := REVERB_EARLY_REFLECTIONS } demoInputs 4 2).2 rfl
  refine ⟨⟨?_, ?_, (p2 1 3 (by decide)).2⟩, ⟨?_, ?_, (e2 1 3 (by decide)).2⟩⟩
  · rw [p1]; simp [demoDSP]
  · rw [(p2 1 3 (by decide)).1]; simp [demoFreeverb, demoDSP]
  · rw [e1]; simp [demoDSP]
  · rw [(e2 1 3 (by decide)).1]
    simp [demoFreeverb, demoDSP, demoInputs, slice, zeros]
    norm_num

/-! ## Independence from the prior scratch contents -/

theorem forLoop_congr {σ : Type} (n : Nat) (f g : Nat → σ → σ) (s : σ)
    (h : ∀ i, i < n → ∀ x, f i x = g i x) : forLoop n f s = forLoop n g s := by
  induction n with
  | zero => simp [forLoop_zero]
  | succ n ih =>
    rw [forLoop_succ, forLoop_succ, ih (fun i hi => h i (by omega)), h n (by omega)]

theorem mixStep_congr (a b : StudioReverbDSP) (inputs : Stereo) (offset i : Nat)
    (outputs : Stereo) (h1 : a.dryLevel = b.dryLevel) (h2 : a.earlyLevel = b.earlyLevel)
    (h3 : a.lateLevel = b.lateLevel)
    (he : ∀ c, a.early_out_buffer c i = b.early_out_buffer c i)
    (hl : ∀ c, a.late_out_buffer c i = b.late_out_buffer c i) :
    StudioReverbDSP.mixStep a inputs offset i outputs =
      StudioReverbDSP.mixStep b inputs offset i outputs := by
  funext c j
  rw [mixStep_apply, mixStep_apply, h1, h2, h3, he c, hl c]

theorem chunk_indep (fv : Freeverb) (inputs : Stereo) (n offset : Nat)
    (x y : StudioReverbDSP × Stereo) (h : SameButScratch x.1 y.1) (ho : x.2 = y.2) :
    SameButScratch (StudioReverbDSP.chunk fv inputs n offset x).1
        (StudioReverbDSP.chunk fv inputs n offset y).1 ∧
    (StudioReverbDSP.chunk fv inputs n offset x).2 =
      (StudioReverbDSP.chunk fv inputs n offset y).2 := by
  obtain ⟨hs, hb⟩ := dispatch_indep fv x.1 y.1 inputs n offset h
  refine ⟨hs, ?_⟩
  unfold StudioReverbDSP.chunk
  simp only
  rw [ho]
  apply forLoop_congr
  intro i hi o
  exact mixStep_congr _ _ inputs offset i o hs.2.2.2.1 hs.2.2.2.2.1 hs.2.2.2.2.2.1
    (fun c => (hb c i hi).1) (fun c => (hb c i hi).2)

theorem foldl_chunk_indep (fv : Freeverb) (inputs : Stereo) (l : List (Nat × Nat)) :
    ∀ (x y : StudioReverbDSP × Stereo), SameButScratch x.1 y.1 → x.2 = y.2 →
    SameButScratch
      (l.foldl (fun st ch => StudioReverbDSP.chunk fv inputs ch.2 ch.1 st) x).1
      (l.foldl (fun st ch => StudioReverbDSP.chunk fv inputs ch.2 ch.1 st) y).1 ∧
    (l.foldl (fun st ch => StudioReverbDSP.chunk fv inputs ch.2 ch.1 st) x).2 =
      (l.foldl (fun st ch => StudioReverbDSP.chunk fv inputs ch.2 ch.1 st) y).2 := by
  induction l with
  | nil => intro x y h ho; exact ⟨h, ho⟩
  | cons ch l ih =>
    intro x y h ho
    obtain ⟨h1, h2⟩ := chunk_indep fv inputs ch.2 ch.1 x y h ho
    exact ih _ _ h1 h2

/-- C5. Both scratch buffers are zeroed over the chunk's frame count before dispatch;
for two engines that differ at most in the contents of `early_out_buffer` and
`late_out_buffer`, the dispatch on any chunk leaves the same scratch contents at every
index below the chunk length and the same remaining state, whatever the active
variant; and `run` on the same input and output block writes identical outputs and
leaves engines that again differ at most in the scratch contents. -/
theorem run_independent_of_scratch (fv : Freeverb) (a b : StudioReverbDSP)
    (inputs outputs : Stereo) (frames : Nat) (hf : frames < U32)
    (hab : SameButScratch a b) :
    (∀ (n : Nat) (c : Fin 2) (i : Nat), i < n →
      (StudioReverbDSP.clearBuffers a n).early_out_buffer c i = 0 ∧
      (StudioReverbDSP.clearBuffers a n).late_out_buffer c i = 0) ∧
    (∀ (n offset : Nat),
      SameButScratch
        (StudioReverbDSP.dispatch fv (StudioReverbDSP.clearBuffers a n) inputs n offset)
        (StudioReverbDSP.dispatch fv (StudioReverbDSP.clearBuffers b n) inputs n offset) ∧
      ∀ (c : Fin 2) (i : Nat), i < n →
        (StudioReverbDSP.dispatch fv (StudioReverbDSP.clearBuffers a n) inputs n offset
            ).early_out_buffer c i =
          (StudioReverbDSP.dispatch fv (StudioReverbDSP.clearBuffers b n) inputs n offset
            ).early_out_buffer c i ∧
        (StudioReverbDSP.dispatch fv (StudioReverbDSP.clearBuffers a n) inputs n offset
            ).late_out_buffer c i =
          (StudioReverbDSP.dispatch fv (StudioReverbDSP.clearBuffers b n) inputs n offset
            ).late_out_buffer c i) ∧
    (StudioReverbDSP.run fv a inputs outputs frames hf).2 =
      (StudioReverbDSP.run fv b inputs outputs frames hf).2 ∧
    SameButScratch (StudioReverbDSP.run fv a inputs outputs frames hf).1
      (StudioReverbDSP.run fv b inputs outputs frames hf).1 := by
  refine ⟨?_, fun n offset => dispatch_indep fv a b inputs n offset hab, ?_, ?_⟩
  · intro n c i hi
    fin_cases c <;> simp [StudioReverbDSP.clearBuffers, memset0, hi]
  · rw [run_eq_foldl, run_eq_foldl]
    exact (foldl_chunk_indep fv inputs _ (a, outputs) (b, outputs) hab rfl).2
  · rw [run_eq_foldl, run_eq_foldl]
    exact (foldl_chunk_indep fv inputs _ (a, outputs) (b, outputs) hab rfl).1

/-- C5 at a concrete input: the sample engine with scratch buffers holding 9 and the
same engine with scratch buffers holding -1 and 4 write the same outputs for 300
frames. -/
theorem run_independent_of_scratch_witness :
    300 < U32 ∧
    SameButScratch demoDSP
      { demoDSP with early_out_buffer := fun _ _ => -1, late_out_buffer := fun _ _ => 4 } ∧
    (StudioReverbDSP.run demoFreeverb demoDSP demoInputs demoOutputs 300 (by decide)).2 =
      (StudioReverbDSP.run demoFreeverb
        { demoDSP with early_out_buffer := fun _ _ => -1, late_out_buffer := fun _ _ => 4 }
        demoInputs demoOutputs 300 (by decide)).2 :=
  ⟨by decide, by simp [SameButScratch],
    (run_independent_of_scratch demoFreeverb demoDSP
      { demoDSP with early_out_buffer := fun _ _ => -1, late_out_buffer := fun _ _ => 4 }
      demoInputs demoOutputs 300 (by decide) (by simp [SameButScratch])).2.2.1⟩

/-! ## The binary32 sum of the type case -/

theorem log2_eq (r : ℚ) (k : ℤ) (h1 : (2 : ℚ) ^ k ≤ r) (h2 : r < (2 : ℚ) ^ (k + 1)) :
    Int.log 2 r = k := by
  have hr : 0 < r := lt_of_lt_of_le (by positivity) h1
  have a : k ≤ Int.log 2 r :=
    (Int.zpow_le_iff_le_log (b := 2) (by norm_num) hr).mp (by exact_mod_cast h1)
  have b : Int.log 2 r < k + 1 :=
    (Int.lt_zpow_iff_log_lt (b := 2) (by norm_num) hr).mp (by exact_mod_cast h2)
  omega

theorem f32ulp_eq (x : ℚ) (k : ℤ) (hk : -126 ≤ k) (h1 : (2 : ℚ) ^ k ≤ |x|)
    (h2 : |x| < (2 : ℚ) ^ (k + 1)) : f32ulp x = (2 : ℚ) ^ (k - 23) := by
  unfold f32ulp
  rw [log2_eq |x| k h1 h2, max_eq_left hk]

theorem f32ulp_pos (x : ℚ) : 0 < f32ulp x := by
  unfold f32ulp
  positivity

theorem roundHalfEven_int (n : ℤ) : roundHalfEven (n : ℚ) = n := by
  unfold roundHalfEven
  simp

theorem roundHalfEven_error (q : ℚ) : |((roundHalfEven q : ℤ) : ℚ) - q| ≤ 1 / 2 := by
  have h1 := Int.floor_le q
  have h2 := Int.lt_floor_add_one q
  unfold roundHalfEven
  rw [abs_le]
  split_ifs with a b c
  · constructor <;> linarith
  · push_cast
    constructor <;> linarith
  · constructor <;> linarith
  · push_cast
    constructor <;> linarith

theorem f32round_error (x : ℚ) : |f32round x - x| ≤ f32ulp x / 2 := by
  have hu := f32ulp_pos x
  have h := roundHalfEven_error (x / f32ulp x)
  unfold f32round
  have e : ((roundHalfEven (x / f32ulp x) : ℤ) : ℚ) * f32ulp x - x =
      (((roundHalfEven (x / f32ulp x) : ℤ) : ℚ) - x / f32ulp x) * f32ulp x := by
    field_simp
  rw [e, abs_mul, abs_of_pos hu]
  calc |((roundHalfEven (x / f32ulp x) : ℤ) : ℚ) - x / f32ulp x| * f32ulp x
      ≤ 1 / 2 * f32ulp x := by
        apply mul_le_mul_of_nonneg_right h (le_of_lt hu)
    _ = f32ulp x / 2 := by ring

theorem f32round_grid (x : ℚ) (k n : ℤ) (hk : -126 ≤ k) (h1 : (2 : ℚ) ^ k ≤ |x|)
    (h2 : |x| < (2 : ℚ) ^ (k + 1)) (hx : x = (n : ℚ) * (2 : ℚ) ^ (k - 23)) :
    f32round x = x := by
  unfold f32round
  rw [f32ulp_eq x k hk h1 h2]
  have hp : (0 : ℚ) < (2 : ℚ) ^ (k - 23) := by positivity
  have e : x / (2 : ℚ) ^ (k - 23) = (n : ℚ) := by
    rw [hx]
    field_simp
  rw [e, roundHalfEven_int, ← hx]

theorem f32ulp_le_of_lt_one (x : ℚ) (h : |x| < 1) : f32ulp x ≤ (2 : ℚ) ^ (-23 : ℤ) := by
  unfold f32ulp
  have hl : Int.log 2 |x| ≤ 0 := by
    rcases eq_or_lt_of_le (abs_nonneg x) with h0 | h0
    · rw [← h0, Int.log_of_right_le_zero 2 (le_refl (0 : ℚ))]
    · have := (Int.lt_zpow_iff_log_lt (b := 2) (by norm_num) h0 (x := 0)).mp (by simpa using h)
      omega
  apply zpow_le_zpow_right₀ (by norm_num)
  have : max (Int.log 2 |x|) (-126) ≤ 0 := max_le hl (by norm_num)
  omega

theorem static_cast_int_nonneg (x : ℚ) (h : 0 ≤ x) : static_cast_int x = ⌊x⌋ := by
  simp [static_cast_int, h]

theorem static_cast_int_small (y : ℚ) (h1 : -1 < y) (h2 : y < 1) : static_cast_int y = 0 := by
  unfold static_cast_int
  split_ifs with h
  · rw [Int.floor_eq_iff]
    constructor
    · simpa using h
    · simpa using h2
  · rw [Int.ceil_eq_iff]
    constructor
    · simpa using h1
    · push_neg at h
      simpa using le_of_lt h

theorem f32add_half_of_int (n : ℕ) (k : ℤ) (hk : -126 ≤ k)
    (h1 : (2 : ℚ) ^ k ≤ (n : ℚ) + 1 / 2) (h2 : (n : ℚ) + 1 / 2 < (2 : ℚ) ^ (k + 1))
    (m : ℤ) (hm : (n : ℚ) + 1 / 2 = (m : ℚ) * (2 : ℚ) ^ (k - 23)) :
    f32add (n : ℚ) 0.5 = (n : ℚ) + 1 / 2 := by
  unfold f32add
  have e : (n : ℚ) + 0.5 = (n : ℚ) + 1 / 2 := by norm_num
  have hpos : (0 : ℚ) ≤ (n : ℚ) + 1 / 2 := by positivity
  rw [e]
  exact f32round_grid _ k m hk (by rwa [abs_of_nonneg hpos]) (by rwa [abs_of_nonneg hpos]) hm

theorem f32add_0 : f32add 0 0.5 = 1 / 2 := by
  have := f32add_half_of_int 0 (-1) (by norm_num) (by norm_num) (by norm_num) 8388608
    (by norm_num)
  simpa using this

theorem f32add_1 : f32add 1 0.5 = 3 / 2 := by
  have := f32add_half_of_int 1 0 (by norm_num) (by norm_num) (by norm_num) 12582912
    (by norm_num)
  rw [show ((1 : ℕ) : ℚ) = 1 by norm_num] at this
  rw [this]; norm_num

theorem f32add_2 : f32add 2 0.5 = 5 / 2 := by
  have := f32add_half_of_int 2 1 (by norm_num) (by norm_num) (by norm_num) 10485760
    (by norm_num)
  rw [show ((2 : ℕ) : ℚ) = 2 by norm_num] at this
  rw [this]; norm_num

theorem f32add_3 : f32add 3 0.5 = 7 / 2 := by
  have := f32add_half_of_int 3 1 (by norm_num) (by norm_num) (by norm_num) 14680064
    (by norm_num)
  rw [show ((3 : ℕ) : ℚ) = 3 by norm_num] at this
  rw [this]; norm_num

theorem f32add_4 : f32add 4 0.5 = 9 / 2 := by
  have := f32add_half_of_int 4 2 (by norm_num) (by norm_num) (by norm_num) 9437184
    (by norm_num)
  rw [show ((4 : ℕ) : ℚ) = 4 by norm_num] at this
  rw [this]; norm_num

theorem f32add_7 : f32add 7 0.5 = 15 / 2 := by
  have := f32add_half_of_int 7 2 (by norm_num) (by norm_num) (by norm_num) 15728640
    (by norm_num)
  rw [show ((7 : ℕ) : ℚ) = 7 by norm_num] at this
  rw [this]; norm_num

theorem justBelowHalf_isF32 : IsF32 justBelowHalf := by
  unfold IsF32 justBelowHalf
  exact f32round_grid _ (-2) 16777215 (by norm_num)
    (by rw [abs_of_nonneg (by norm_num)]; norm_num)
    (by rw [abs_of_nonneg (by norm_num)]; norm_num) (by norm_num)

theorem f32add_justBelowHalf : f32add justBelowHalf 0.5 = 1 := by
  unfold f32add justBelowHalf f32round
  have e : (16777215 / 33554432 + 0.5 : ℚ) = 33554431 / 33554432 := by norm_num
  rw [e, f32ulp_eq _ (-1) (by norm_num)
    (by rw [abs_of_nonneg (by norm_num)]; norm_num)
    (by rw [abs_of_nonneg (by norm_num)]; norm_num)]
  have q : (33554431 / 33554432 : ℚ) / (2 : ℚ) ^ ((-1 : ℤ) - 23) = 33554431 / 2 := by norm_num
  have fl : ⌊(33554431 / 2 : ℚ)⌋ = 16777215 := by
    rw [Int.floor_eq_iff]
    norm_num
  have r : roundHalfEven (33554431 / 2 : ℚ) = 16777216 := by
    unfold roundHalfEven
    rw [fl]
    norm_num
  rw [q, r]
  norm_num

theorem roundHalfEven_ge (q : ℚ) (k : ℤ) (h : (k : ℚ) ≤ q) : k ≤ roundHalfEven q := by
  have hf : k ≤ ⌊q⌋ := Int.le_floor.mpr h
  unfold roundHalfEven
  split_ifs <;> omega

theorem roundHalfEven_le (q : ℚ) (k : ℤ) (h : q ≤ (k : ℚ)) : roundHalfEven q ≤ k := by
  rcases eq_or_lt_of_le h with e | e
  · rw [e, roundHalfEven_int]
  · have hf : ⌊q⌋ < k := Int.floor_lt.mpr e
    unfold roundHalfEven
    split_ifs <;> omega

theorem f32round_between (x : ℚ) (k : ℤ) (a b : ℤ) (hk : -126 ≤ k) (h1 : (2 : ℚ) ^ k ≤ |x|)
    (h2 : |x| < (2 : ℚ) ^ (k + 1)) (ha : (a : ℚ) * (2 : ℚ) ^ (k - 23) ≤ x)
    (hb : x ≤ (b : ℚ) * (2 : ℚ) ^ (k - 23)) :
    (a : ℚ) * (2 : ℚ) ^ (k - 23) ≤ f32round x ∧ f32round x ≤ (b : ℚ) * (2 : ℚ) ^ (k - 23) := by
  unfold f32round
  rw [f32ulp_eq x k hk h1 h2]
  have hp : (0 : ℚ) < (2 : ℚ) ^ (k - 23) := by positivity
  have ha2 : (a : ℚ) ≤ x / (2 : ℚ) ^ (k - 23) := (le_div_iff₀ hp).mpr ha
  have hb2 : x / (2 : ℚ) ^ (k - 23) ≤ (b : ℚ) := (div_le_iff₀ hp).mpr hb
  have l := roundHalfEven_ge _ a ha2
  have u := roundHalfEven_le _ b hb2
  constructor
  · exact mul_le_mul_of_nonneg_right (by exact_mod_cast l) (le_of_lt hp)
  · exact mul_le_mul_of_nonneg_right (by exact_mod_cast u) (le_of_lt hp)

theorem IsF32.grid (x : ℚ) (hx : IsF32 x) (k : ℤ) (hk : -126 ≤ k) (h1 : (2 : ℚ) ^ k ≤ |x|)
    (h2 : |x| < (2 : ℚ) ^ (k + 1)) : ∃ m : ℤ, x = (m : ℚ) * (2 : ℚ) ^ (k - 23) := by
  refine ⟨roundHalfEven (x / f32ulp x), ?_⟩
  have := hx
  unfold IsF32 f32round at this
  rw [f32ulp_eq x k hk h1 h2] at this ⊢
  exact this.symm

theorem floor_of_between (r : ℚ) (n : ℤ) (h1 : (n : ℚ) ≤ r) (h2 : r < (n : ℚ) + 1) :
    ⌊r⌋ = n := by
  rw [Int.floor_eq_iff]
  exact ⟨h1, h2⟩

/-- For every `float` value `v` of the range `[0, 3]` other than `justBelowHalf`, the
truncated `float` sum `v + 0.5f` is `floor(v + 1/2)`. -/
theorem static_cast_int_f32add_half (v : ℚ) (hv : IsF32 v) (h0 : 0 ≤ v) (h3 : v ≤ 3)
    (hne : v ≠ justBelowHalf) : static_cast_int (f32add v 0.5) = ⌊v + 1 / 2⌋ := by
  have e2 : (0.5 : ℚ) = 1 / 2 := by norm_num
  unfold f32add
  rw [e2]
  have habs : |v + 1 / 2| = v + 1 / 2 := abs_of_nonneg (by linarith)
  have hva : |v| = v := abs_of_nonneg h0
  -- the rounded sum lies in the same unit interval as the exact sum
  suffices h : ∃ n : ℤ, ((n : ℚ) ≤ v + 1 / 2 ∧ v + 1 / 2 < (n : ℚ) + 1) ∧
      (0 : ℚ) ≤ f32round (v + 1 / 2) ∧
      ((n : ℚ) ≤ f32round (v + 1 / 2) ∧ f32round (v + 1 / 2) < (n : ℚ) + 1) by
    obtain ⟨n, ⟨a1, a2⟩, b0, b1, b2⟩ := h
    rw [static_cast_int_nonneg _ b0, floor_of_between _ n b1 b2, floor_of_between _ n a1 a2]
  by_cases c1 : v < 1 / 2
  · -- the sum lies in [1/2, 1)
    have hlt : v ≤ 1 / 2 - 1 / 16777216 := by
      by_contra hc
      push_neg at hc
      obtain ⟨m, hm⟩ := IsF32.grid v hv (-2) (by norm_num) (by rw [hva]; norm_num; linarith)
        (by rw [hva]; norm_num; linarith)
      have h25 : (2 : ℚ) ^ ((-2 : ℤ) - 23) = 1 / 33554432 := by norm_num
      rw [h25] at hm
      have m1 : (16777214 : ℚ) < (m : ℚ) := by linarith
      have m2 : (m : ℚ) < 16777216 := by linarith
      have m3 : (16777214 : ℤ) < m := by exact_mod_cast m1
      have m4 : m < (16777216 : ℤ) := by exact_mod_cast m2
      have m5 : m = 16777215 := by omega
      apply hne
      rw [hm, m5]
      norm_num [justBelowHalf]
    obtain ⟨l, u⟩ := f32round_between (v + 1 / 2) (-1) 8388608 16777215 (by norm_num)
      (by rw [habs]; norm_num; linarith) (by rw [habs]; norm_num; linarith)
      (by norm_num; linarith) (by norm_num; linarith)
    have h24 : (2 : ℚ) ^ ((-1 : ℤ) - 23) = 1 / 16777216 := by norm_num
    rw [h24] at l u
    refine ⟨0, ⟨by norm_num; linarith, by norm_num; linarith⟩, by linarith, by norm_num; linarith,
      by norm_num; linarith⟩
  · push_neg at c1
    by_cases c2 : v < 1
    · -- the sum lies in [1, 3/2)
      obtain ⟨l, u⟩ := f32round_between (v + 1 / 2) 0 8388608 12582912 (by norm_num)
        (by rw [habs]; norm_num; linarith) (by rw [habs]; norm_num; linarith)
        (by norm_num; linarith) (by norm_num; linarith)
      have h23 : (2 : ℚ) ^ ((0 : ℤ) - 23) = 1 / 8388608 := by norm_num
      rw [h23] at l u
      refine ⟨1, ⟨by norm_num; linarith, by norm_num; linarith⟩, by linarith,
        by norm_num; linarith, by norm_num; linarith⟩
    · push_neg at c2
      by_cases c3 : v < 3 / 2
      · -- the sum lies in [3/2, 2) and is exact
        obtain ⟨m, hm⟩ := IsF32.grid v hv 0 (by norm_num) (by rw [hva]; norm_num; linarith)
          (by rw [hva]; norm_num; linarith)
        have hr : f32round (v + 1 / 2) = v + 1 / 2 := by
          apply f32round_grid _ 0 (m + 4194304) (by norm_num)
          · rw [habs]; norm_num; linarith
          · rw [habs]; norm_num; linarith
          · rw [hm]
            push_cast
            norm_num
            ring
        rw [hr]
        refine ⟨1, ⟨by norm_num; linarith, by norm_num; linarith⟩, by linarith,
          by norm_num; linarith, by norm_num; linarith⟩
      · push_neg at c3
        by_cases c4 : v < 2
        · -- the sum lies in [2, 5/2)
          obtain ⟨l, u⟩ := f32round_between (v + 1 / 2) 1 8388608 10485760 (by norm_num)
            (by rw [habs]; norm_num; linarith) (by rw [habs]; norm_num; linarith)
            (by norm_num; linarith) (by norm_num; linarith)
          have h22 : (2 : ℚ) ^ ((1 : ℤ) - 23) = 1 / 4194304 := by norm_num
          rw [h22] at l u
          refine ⟨2, ⟨by norm_num; linarith, by norm_num; linarith⟩, by linarith,
            by norm_num; linarith, by norm_num; linarith⟩
        · -- the sum lies in [5/2, 7/2] and is exact
          push_neg at c4
          obtain ⟨m, hm⟩ := IsF32.grid v hv 1 (by norm_num) (by rw [hva]; norm_num; linarith)
            (by rw [hva]; norm_num; linarith)
          have hr : f32round (v + 1 / 2) = v + 1 / 2 := by
            apply f32round_grid _ 1 (m + 2097152) (by norm_num)
            · rw [habs]; norm_num; linarith
            · rw [habs]; norm_num; linarith
            · rw [hm]
              push_cast
              norm_num
              ring
          rw [hr]
          by_cases c5 : v < 5 / 2
          · refine ⟨2, ⟨by norm_num; linarith, by norm_num; linarith⟩, by linarith,
              by norm_num; linarith, by norm_num; linarith⟩
          · push_neg at c5
            refine ⟨3, ⟨by norm_num; linarith, by norm_num; linarith⟩, by linarith,
              by norm_num; linarith, by norm_num; linarith⟩

/-! ## Parameter writes -/

theorem setParameterValue_type (s : StudioReverbDSP) (v : ℚ) :
    StudioReverbDSP.setParameterValue s paramReverbType v =
      StudioReverbDSP.muteAll
        { s with
          params := Function.update s.params paramReverbType v
          currentReverbType := static_cast_int (f32add v 0.5) } := by
  simp [StudioReverbDSP.setParameterValue, paramReverbType, paramCount]

theorem setParameterValue_params (s : StudioReverbDSP) (index : Nat) (v : ℚ)
    (h : index < paramCount) :
    (StudioReverbDSP.setParameterValue s index v).params = Function.update s.params index v := by
  unfold StudioReverbDSP.setParameterValue
  rw [if_neg (by omega)]
  simp only [apply_ite StudioReverbDSP.params, StudioReverbDSP.muteAll, ite_self]

theorem setParameterValue_invalid (s : StudioReverbDSP) (index : Nat) (v : ℚ)
    (h : paramCount ≤ index) : StudioReverbDSP.setParameterValue s index v = s := by
  unfold StudioReverbDSP.setParameterValue
  rw [if_pos h]

theorem setParameterValue_type_variant (s : StudioReverbDSP) (v : ℚ) :
    (StudioReverbDSP.setParameterValue s paramReverbType v).currentReverbType =
      static_cast_int (f32add v 0.5) := by
  rw [setParameterValue_type]
  rfl

theorem floor_add_half_nearest (v : ℚ) (m : ℤ) :
    |((⌊v + 1 / 2⌋ : ℤ) : ℚ) - v| ≤ |(m : ℚ) - v| := by
  have hlo : ((⌊v + 1 / 2⌋ : ℤ) : ℚ) ≤ v + 1 / 2 := Int.floor_le _
  have hhi : v + 1 / 2 < ((⌊v + 1 / 2⌋ : ℤ) : ℚ) + 1 := Int.lt_floor_add_one _
  have h1 : |((⌊v + 1 / 2⌋ : ℤ) : ℚ) - v| ≤ 1 / 2 := by
    rw [abs_le]
    constructor <;> linarith
  rcases lt_trichotomy m ⌊v + 1 / 2⌋ with hm | hm | hm
  · have : (m : ℚ) + 1 ≤ ((⌊v + 1 / 2⌋ : ℤ) : ℚ) := by exact_mod_cast hm
    have h2 : 1 / 2 ≤ |(m : ℚ) - v| := by
      rw [le_abs]
      right
      linarith
    linarith
  · rw [hm]
  · have : ((⌊v + 1 / 2⌋ : ℤ) : ℚ) + 1 ≤ (m : ℚ) := by exact_mod_cast hm
    have h2 : 1 / 2 ≤ |(m : ℚ) - v| := by
      rw [le_abs]
      left
      linarith
    linarith

/-- A write of a `float` value `v` of the range `[0, 3]` other than `justBelowHalf` to
the type parameter selects `floor(v + 1/2)`, one of the four variants and an integer
nearest to `v`. -/
theorem type_write_nearest_except_below_half (s : StudioReverbDSP) (v : ℚ) (hv : IsF32 v)
    (h0 : 0 ≤ v) (h3 : v ≤ 3) (hne : v ≠ justBelowHalf) :
    (StudioReverbDSP.setParameterValue s paramReverbType v).currentReverbType = ⌊v + 1 / 2⌋ ∧
    (0 ≤ (StudioReverbDSP.setParameterValue s paramReverbType v).currentReverbType ∧
      (StudioReverbDSP.setParameterValue s paramReverbType v).currentReverbType ≤ 3) ∧
    ∀ m : ℤ,
      |(((StudioReverbDSP.setParameterValue s paramReverbType v).currentReverbType : ℤ) : ℚ) - v|
        ≤ |(m : ℚ) - v| := by
  have ht : (StudioReverbDSP.setParameterValue s paramReverbType v).currentReverbType =
      ⌊v + 1 / 2⌋ := by
    rw [setParameterValue_type_variant, static_cast_int_f32add_half v hv h0 h3 hne]
  rw [ht]
  have hge : (0 : ℤ) ≤ ⌊v + 1 / 2⌋ := Int.floor_nonneg.mpr (by linarith)
  have hle : ⌊v + 1 / 2⌋ < (4 : ℤ) := Int.floor_lt.mpr (by push_cast; linarith)
  exact ⟨rfl, ⟨hge, by omega⟩, floor_add_half_nearest v⟩

/-- C6, at the input where the code misses it. The value `justBelowHalf`
(`0x1.fffffep-2`, the largest `float` below 0.5) is a `float` of the documented range
`[0, 3]` whose nearest integer is 0 (Room): 0 is strictly closer to it than every other
integer. The `float` sum `justBelowHalf + 0.5f` lies half way between two neighbouring
`float` values and is rounded to the even one, `1.0f`, so the write selects Hall (1),
whatever the state. The rest of the claim holds at the four integral values: writing
0, 1, 2, 3 selects exactly Room, Hall, Plate, EarlyReflections. -/
theorem type_write_misses_nearest_below_half :
    IsF32 justBelowHalf ∧ 0 ≤ justBelowHalf ∧ justBelowHalf ≤ 3 ∧
    (∀ m : ℤ, m ≠ 0 → |((0 : ℤ) : ℚ) - justBelowHalf| < |(m : ℚ) - justBelowHalf|) ∧
    (∀ s : StudioReverbDSP,
      (StudioReverbDSP.setParameterValue s paramReverbType justBelowHalf).currentReverbType =
        REVERB_HALL) ∧
    (StudioReverbDSP.setParameterValue demoDSP paramReverbType justBelowHalf).currentReverbType
      ≠ REVERB_ROOM ∧
    (∀ s : StudioReverbDSP,
      (StudioReverbDSP.setParameterValue s paramReverbType 0).currentReverbType = REVERB_ROOM ∧
      (StudioReverbDSP.setParameterValue s paramReverbType 1).currentReverbType = REVERB_HALL ∧
      (StudioReverbDSP.setParameterValue s paramReverbType 2).currentReverbType = REVERB_PLATE ∧
      (StudioReverbDSP.setParameterValue s paramReverbType 3).currentReverbType =
        REVERB_EARLY_REFLECTIONS) := by
  have hall : ∀ s : StudioReverbDSP,
      (StudioReverbDSP.setParameterValue s paramReverbType justBelowHalf).currentReverbType =
        REVERB_HALL := by
    intro s
    rw [setParameterValue_type_variant, f32add_justBelowHalf,
      static_cast_int_nonneg _ (by norm_num)]
    norm_num [REVERB_HALL]
  refine ⟨justBelowHalf_isF32, by norm_num [justBelowHalf], by norm_num [justBelowHalf],
    ?_, hall, ?_, ?_⟩
  · intro m hm
    have h0 : |((0 : ℤ) : ℚ) - justBelowHalf| < 1 / 2 := by
      rw [abs_lt]
      constructor <;> norm_num [justBelowHalf]
    have h1 : (1 : ℚ) / 2 ≤ |(m : ℚ) - justBelowHalf| := by
      rw [le_abs]
      rcases lt_or_gt_of_ne hm with h | h
      · right
        have : (m : ℚ) ≤ -1 := by exact_mod_cast (show m ≤ -1 by omega)
        norm_num [justBelowHalf]
        linarith
      · left
        have : (1 : ℚ) ≤ (m : ℚ) := by exact_mod_cast (show 1 ≤ m by omega)
        norm_num [justBelowHalf]
        linarith
    exact lt_of_lt_of_le h0 h1
  · rw [hall demoDSP]
    decide
  · intro s
    refine ⟨?_, ?_, ?_, ?_⟩
    · rw [setParameterValue_type_variant, f32add_0, static_cast_int_nonneg _ (by norm_num),
        Int.floor_eq_iff]
      norm_num [REVERB_ROOM]
    · rw [setParameterValue_type_variant, f32add_1, static_cast_int_nonneg _ (by norm_num),
        Int.floor_eq_iff]
      norm_num [REVERB_HALL]
    · rw [setParameterValue_type_variant, f32add_2, static_cast_int_nonneg _ (by norm_num),
        Int.floor_eq_iff]
      norm_num [REVERB_PLATE]
    · rw [setParameterValue_type_variant, f32add_3, static_cast_int_nonneg _ (by norm_num),
        Int.floor_eq_iff]
      norm_num [REVERB_EARLY_REFLECTIONS]

/-- C7. Every write to the type parameter, whatever the value written and whatever
the variant active before (so also when the write selects the variant that is already
active), flushes all six processors: a `mute` call is recorded on Room-Early,
Room-Late, Hall-Early, Hall-Late, Plate and EarlyOnly. -/
theorem type_write_flushes_all (s : StudioReverbDSP) (v : ℚ) :
    (StudioReverbDSP.setParameterValue s paramReverbType v).roomEarly =
      s.roomEarly ++ [Call.mute] ∧
    (StudioReverbDSP.setParameterValue s paramReverbType v).roomLate =
      s.roomLate ++ [Call.mute] ∧
    (StudioReverbDSP.setParameterValue s paramReverbType v).hallEarly =
      s.hallEarly ++ [Call.mute] ∧
    (StudioReverbDSP.setParameterValue s paramReverbType v).hallLate =
      s.hallLate ++ [Call.mute] ∧
    (StudioReverbDSP.setParameterValue s paramReverbType v).plateReverb =
      s.plateReverb ++ [Call.mute] ∧
    (StudioReverbDSP.setParameterValue s paramReverbType v).earlyOnly =
      s.earlyOnly ++ [Call.mute] := by
  rw [setParameterValue_type]
  simp [StudioReverbDSP.muteAll]

/-- C8. The method `mute()` records a `mute` call on each of the six processors and
leaves the stored parameter values (hence every `getParameterValue`), the three mix
gains, the active variant, the sample rate and the scratch buffers unchanged; the
wrapper's `deactivate()` leaves the engine in exactly the state `mute()` produces. -/
theorem mute_flushes_and_keeps_parameters (s : StudioReverbDSP) (p : StudioReverbPlugin) :
    (s.mute.roomEarly = s.roomEarly ++ [Call.mute] ∧
     s.mute.roomLate = s.roomLate ++ [Call.mute] ∧
     s.mute.hallEarly = s.hallEarly ++ [Call.mute] ∧
     s.mute.hallLate = s.hallLate ++ [Call.mute] ∧
     s.mute.plateReverb = s.plateReverb ++ [Call.mute] ∧
     s.mute.earlyOnly = s.earlyOnly ++ [Call.mute]) ∧
    (s.mute.params = s.params ∧
     (∀ index, s.mute.getParameterValue index = s.getParameterValue index) ∧
     s.mute.dryLevel = s.dryLevel ∧ s.mute.earlyLevel = s.earlyLevel ∧
     s.mute.lateLevel = s.lateLevel ∧ s.mute.currentReverbType = s.currentReverbType ∧
     s.mute.sampleRate = s.sampleRate ∧ s.mute.early_out_buffer = s.early_out_buffer ∧
     s.mute.late_out_buffer = s.late_out_buffer) ∧
    p.deactivate = { dsp := p.dsp.mute } := by
  simp [StudioReverbDSP.mute, StudioReverbDSP.muteAll, StudioReverbDSP.getParameterValue,
    StudioReverbPlugin.deactivate]

/-- C9. For every valid parameter id (`index < paramCount`, that is 0..12) and every
value `v`, `setParameterValue(index, v)` followed by `getParameterValue(index)` returns
exactly `v` (no clamping or rounding, whatever the id and the value), and
`getParameterValue` of every other id returns what it returned before the write. -/
theorem set_get_roundtrip (s : StudioReverbDSP) (index : Nat) (v : ℚ)
    (h : index < paramCount) :
    (StudioReverbDSP.setParameterValue s index v).getParameterValue index = v ∧
    ∀ other, other ≠ index →
      (StudioReverbDSP.setParameterValue s index v).getParameterValue other =
        s.getParameterValue other := by
  constructor
  · simp [StudioReverbDSP.getParameterValue, setParameterValue_params s index v h, h]
  · intro other ho
    simp [StudioReverbDSP.getParameterValue, setParameterValue_params s index v h,
      Function.update_noteq ho]

/-- C9 at concrete inputs: the type parameter written with `7/5`, and the dry
parameter written with `-250` (outside its documented range `[0, 100]`), read back
unchanged, and the decay parameter keeps its value 2 across the dry write. -/
theorem set_get_roundtrip_witness :
    (paramReverbType < paramCount ∧ paramDry < paramCount) ∧
    (StudioReverbDSP.setParameterValue demoDSP paramReverbType (7 / 5)).getParameterValue
      paramReverbType = 7 / 5 ∧
    (StudioReverbDSP.setParameterValue demoDSP paramDry (-250)).getParameterValue paramDry =
      -250 ∧
    (StudioReverbDSP.setParameterValue demoDSP paramDry (-250)).getParameterValue paramDecay =
      2 := by
  refine ⟨⟨by decide, by decide⟩,
    (set_get_roundtrip demoDSP paramReverbType (7 / 5) (by decide)).1,
    (set_get_roundtrip demoDSP paramDry (-250) (by decide)).1, ?_⟩
  rw [(set_get_roundtrip demoDSP paramDry (-250) (by decide)).2 paramDecay (by decide)]
  simp [StudioReverbDSP.getParameterValue, demoDSP, paramDecay, paramCount]

/-- C10. For every parameter id `index >= paramCount` (13): `getParameterValue(index)`
returns 0 in every state, and `setParameterValue(index, v)` returns the engine state
it was given, for any `v`: no stored value, mix gain or active variant changes and no
call is recorded on any processor. Both methods return normally; the model has no
error result. -/
theorem invalid_id_ignored (s : StudioReverbDSP) (index : Nat) (v : ℚ)
    (h : paramCount ≤ index) :
    s.getParameterValue index = 0 ∧
    StudioReverbDSP.setParameterValue s index v = s := by
  refine ⟨?_, setParameterValue_invalid s index v h⟩
  simp [StudioReverbDSP.getParameterValue, Nat.not_lt.mpr h]

/-- C10 at a concrete input: id 13 reads 0 and a write of 42 to it changes nothing. -/
theorem invalid_id_ignored_witness :
    paramCount ≤ 13 ∧
    demoDSP.getParameterValue 13 = 0 ∧
    StudioReverbDSP.setParameterValue demoDSP 13 42 = demoDSP :=
  ⟨by decide, invalid_id_ignored demoDSP 13 42 (by decide)⟩

/-! ## The cases of `setParameterValue` -/

theorem setParameterValue_dry (s : StudioReverbDSP) (v : ℚ) :
    StudioReverbDSP.setParameterValue s paramDry v =
      { s with params := Function.update s.params paramDry v, dryLevel := v / 100 } := by
  simp [StudioReverbDSP.setParameterValue, paramDry, paramReverbType, paramCount]

theorem setParameterValue_early (s : StudioReverbDSP) (v : ℚ) :
    StudioReverbDSP.setParameterValue s paramEarly v =
      { s with params := Function.update s.params paramEarly v, earlyLevel := v / 100 } := by
  simp [StudioReverbDSP.setParameterValue, paramEarly, paramDry, paramReverbType, paramCount]

theorem setParameterValue_late (s : StudioReverbDSP) (v : ℚ) :
    StudioReverbDSP.setParameterValue s paramLate v =
      { s with params := Function.update s.params paramLate v, lateLevel := v / 100 } := by
  simp [StudioReverbDSP.setParameterValue, paramLate, paramEarly, paramDry, paramReverbType,
    paramCount]

theorem setParameterValue_size (s : StudioReverbDSP) (v : ℚ) :
    StudioReverbDSP.setParameterValue s paramSize v =
      { s with
        params := Function.update s.params paramSize v
        roomEarly := s.roomEarly ++ [Call.setRSFactor (sizeFactor v)]
        roomLate := s.roomLate ++ [Call.setRSFactor (sizeFactor v)]
        hallEarly := s.hallEarly ++ [Call.setRSFactor (sizeFactor v * 1.5)]
        hallLate := s.hallLate ++ [Call.setRSFactor (sizeFactor v * 1.5)]
        earlyOnly := s.earlyOnly ++ [Call.setRSFactor (sizeFactor v)] } := by
  simp [StudioReverbDSP.setParameterValue, paramSize, paramLate, paramEarly, paramDry,
    paramReverbType, paramCount, sizeFactor]

theorem setParameterValue_decay (s : StudioReverbDSP) (v : ℚ) :
    StudioReverbDSP.setParameterValue s paramDecay v =
      { s with
        params := Function.update s.params paramDecay v
        roomLate := s.roomLate ++ [Call.setrt60 v]
        hallLate := s.hallLate ++ [Call.setrt60 (v * 1.5)]
        plateReverb := s.plateReverb ++ [Call.setrt60 v] } := by
  simp [StudioReverbDSP.setParameterValue, paramDecay, paramPredelay, paramWidth, paramSize,
    paramLate, paramEarly, paramDry, paramReverbType, paramCount]

theorem setParameterValue_diffuse (s : StudioReverbDSP) (v : ℚ) :
    StudioReverbDSP.setParameterValue s paramDiffuse v =
      { s with
        params := Function.update s.params paramDiffuse v
        roomLate := s.roomLate ++
          [Call.setidiffusion1 (diffusion v), Call.setodiffusion1 (diffusion v)]
        hallLate := s.hallLate ++
          [Call.setidiffusion1 (diffusion v), Call.setodiffusion1 (diffusion v)]
        plateReverb := s.plateReverb ++ [Call.setdiffusion (diffusion v)]
        roomEarly := s.roomEarly ++
          [Call.setDiffusionApFreq (150 + diffusion v * 350) (diffuseStages v)]
        hallEarly := s.hallEarly ++
          [Call.setDiffusionApFreq (100 + diffusion v * 400) (diffuseStages v)]
        earlyOnly := s.earlyOnly ++
          [Call.setDiffusionApFreq (200 + diffusion v * 300) (diffuseStages v)] } := by
  simp [StudioReverbDSP.setParameterValue, paramDiffuse, paramDecay, paramPredelay, paramWidth,
    paramSize, paramLate, paramEarly, paramDry, paramReverbType, paramCount, diffusion,
    diffuseStages]

theorem setParameterValue_damping (s : StudioReverbDSP) (v : ℚ) :
    StudioReverbDSP.setParameterValue s paramDamping v =
      { s with
        params := Function.update s.params paramDamping v
        roomLate := s.roomLate ++ [Call.setdamp (dampFreq v), Call.setoutputdamp (dampFreq v)]
        hallLate := s.hallLate ++ [Call.setdamp (dampFreq v), Call.setoutputdamp (dampFreq v)]
        plateReverb := s.plateReverb ++ [Call.setbandwidthfreq (dampFreq v)] } := by
  simp [StudioReverbDSP.setParameterValue, paramDamping, paramDiffuse, paramDecay, paramPredelay,
    paramWidth, paramSize, paramLate, paramEarly, paramDry, paramReverbType, paramCount,
    dampFreq]

theorem setParameterValue_modulation (s : StudioReverbDSP) (v : ℚ) :
    StudioReverbDSP.setParameterValue s paramModulation v =
      { s with
        params := Function.update s.params paramModulation v
        hallLate := s.hallLate ++ [Call.setmoddepth (modDepth v), Call.setmodfreq (modFreq v)]
        plateReverb := s.plateReverb ++
          [Call.setmoddepth (modDepth v * 1.5), Call.setmodfreq (modFreq v * 1.5)] } := by
  simp [StudioReverbDSP.setParameterValue, paramModulation, paramDamping, paramDiffuse, paramDecay,
    paramPredelay, paramWidth, paramSize, paramLate, paramEarly, paramDry, paramReverbType,
    paramCount, modDepth, modFreq]

theorem setParameterValue_highcut (s : StudioReverbDSP) (v : ℚ) :
    StudioReverbDSP.setParameterValue s paramHighCut v =
      { s with
        params := Function.update s.params paramHighCut v
        roomEarly := s.roomEarly ++ [Call.setoutputlpf v]
        hallEarly := s.hallEarly ++ [Call.setoutputlpf v]
        earlyOnly := s.earlyOnly ++ [Call.setoutputlpf v] } := by
  simp [StudioReverbDSP.setParameterValue, paramHighCut, paramLowCut, paramModulation,
    paramDamping, paramDiffuse, paramDecay, paramPredelay, paramWidth, paramSize, paramLate,
    paramEarly, paramDry, paramReverbType, paramCount]

theorem setParameterValue_variant (s : StudioReverbDSP) (index : Nat) (v : ℚ)
    (h : index ≠ paramReverbType) :
    (StudioReverbDSP.setParameterValue s index v).currentReverbType = s.currentReverbType := by
  unfold StudioReverbDSP.setParameterValue
  simp only [apply_ite StudioReverbDSP.currentReverbType, if_neg h, ite_self]

theorem diffuseStages_eq_floor (v : ℚ) (h0 : 0 ≤ v) :
    diffuseStages v = ⌊v / 100 * 10⌋ := by
  unfold diffuseStages diffusion
  exact static_cast_int_nonneg _ (by positivity)

theorem diffuseStages_96 : diffuseStages 96 = 9 := by
  rw [diffuseStages_eq_floor 96 (by norm_num), Int.floor_eq_iff]
  norm_num

theorem specDiffuseStages_96 : specDiffuseStages 96 = 10 := by
  unfold specDiffuseStages
  rw [round_eq, Int.floor_eq_iff]
  norm_num

/-- C11. Writing damping `v` sends the cutoff `dampFreq v = 20000 * (1 - v / 100)` to
Room-Late and to Hall-Late, each as input damping (`setdamp`) and as output damping
(`setoutputdamp`), and to the Plate bandwidth; no call is made on Room-Early,
Hall-Early or EarlyOnly. The cutoff is 20000 at `v = 0` and 0 at `v = 100`, strictly
decreasing in `v`, and linear: `20000 - 200 * v`. -/
theorem damping_write (s : StudioReverbDSP) (v : ℚ) :
    (StudioReverbDSP.setParameterValue s paramDamping v).roomLate =
      s.roomLate ++ [Call.setdamp (dampFreq v), Call.setoutputdamp (dampFreq v)] ∧
    (StudioReverbDSP.setParameterValue s paramDamping v).hallLate =
      s.hallLate ++ [Call.setdamp (dampFreq v), Call.setoutputdamp (dampFreq v)] ∧
    (StudioReverbDSP.setParameterValue s paramDamping v).plateReverb =
      s.plateReverb ++ [Call.setbandwidthfreq (dampFreq v)] ∧
    (StudioReverbDSP.setParameterValue s paramDamping v).roomEarly = s.roomEarly ∧
    (StudioReverbDSP.setParameterValue s paramDamping v).hallEarly = s.hallEarly ∧
    (StudioReverbDSP.setParameterValue s paramDamping v).earlyOnly = s.earlyOnly ∧
    dampFreq v = 20000 * (1 - v / 100) ∧
    dampFreq 0 = 20000 ∧
    dampFreq 100 = 0 ∧
    (∀ a b : ℚ, a < b → dampFreq b < dampFreq a) ∧
    (∀ a : ℚ, dampFreq a = 20000 - 200 * a) := by
  rw [setParameterValue_damping]
  refine ⟨rfl, rfl, rfl, rfl, rfl, rfl, rfl, ?_, ?_, ?_, ?_⟩
  · norm_num [dampFreq]
  · norm_num [dampFreq]
  · intro a b hab
    unfold dampFreq
    linarith
  · intro a
    unfold dampFreq
    ring

/-- C11 at concrete inputs: damping 50 on the sample engine sends the cutoff 10000 to
the Plate bandwidth, and damping 75 gives a lower cutoff than damping 25. -/
theorem damping_write_witness :
    (StudioReverbDSP.setParameterValue demoDSP paramDamping 50).plateReverb =
      [Call.setbandwidthfreq 10000] ∧
    dampFreq 75 < dampFreq 25 := by
  obtain ⟨-, -, h3, -, -, -, -, -, -, h10, h11⟩ := damping_write demoDSP 50
  refine ⟨?_, h10 25 75 (by norm_num)⟩
  rw [h3, h11]
  norm_num [demoDSP]

/-- C12. Writing decay `d` sends the decay time `d` unchanged to Room-Late and to
Plate and `1.5 * d` to Hall-Late, and makes no call on Room-Early, Hall-Early or
EarlyOnly; for `d = 2` Hall-Late receives 3 and Room-Late and Plate receive 2. -/
theorem decay_write (s : StudioReverbDSP) (d : ℚ) :
    (StudioReverbDSP.setParameterValue s paramDecay d).roomLate =
      s.roomLate ++ [Call.setrt60 d] ∧
    (StudioReverbDSP.setParameterValue s paramDecay d).hallLate =
      s.hallLate ++ [Call.setrt60 (1.5 * d)] ∧
    (StudioReverbDSP.setParameterValue s paramDecay d).plateReverb =
      s.plateReverb ++ [Call.setrt60 d] ∧
    (StudioReverbDSP.setParameterValue s paramDecay d).roomEarly = s.roomEarly ∧
    (StudioReverbDSP.setParameterValue s paramDecay d).hallEarly = s.hallEarly ∧
    (StudioReverbDSP.setParameterValue s paramDecay d).earlyOnly = s.earlyOnly ∧
    (StudioReverbDSP.setParameterValue s paramDecay 2).roomLate =
      s.roomLate ++ [Call.setrt60 2] ∧
    (StudioReverbDSP.setParameterValue s paramDecay 2).hallLate =
      s.hallLate ++ [Call.setrt60 3] ∧
    (StudioReverbDSP.setParameterValue s paramDecay 2).plateReverb =
      s.plateReverb ++ [Call.setrt60 2] := by
  rw [setParameterValue_decay, setParameterValue_decay]
  refine ⟨rfl, ?_, rfl, rfl, rfl, rfl, rfl, ?_, rfl⟩
  · simp only [mul_comm d]
  · norm_num

/-- C13, as stated, fails: on the sample engine a diffuse write of 96 (in `[0, 100]`)
passes the stage count 9 to Room-Early, while `f * 10 = 9.6` rounded to the nearest
integer is 10. -/
theorem diffuse_stage_count_not_rounded :
    ((0 : ℚ) ≤ 96 ∧ (96 : ℚ) ≤ 100) ∧
    specDiffuseStages 96 = 10 ∧
    (StudioReverbDSP.setParameterValue demoDSP paramDiffuse 96).roomEarly =
      demoDSP.roomEarly ++ [Call.setDiffusionApFreq (150 + diffusion 96 * 350) 9] ∧
    (StudioReverbDSP.setParameterValue demoDSP paramDiffuse 96).roomEarly ≠
      demoDSP.roomEarly ++
        [Call.setDiffusionApFreq (150 + diffusion 96 * 350) (specDiffuseStages 96)] := by
  refine ⟨⟨by norm_num, by norm_num⟩, specDiffuseStages_96, ?_, ?_⟩
  · rw [setParameterValue_diffuse, diffuseStages_96]
  · rw [setParameterValue_diffuse, diffuseStages_96, specDiffuseStages_96]
    simp

/-- C13, amended. Writing diffuse `v` in `[0, 100]` (diffusion `f = v / 100`) passes
the integer stage count `trunc(f * 10)`, that is `f * 10` truncated toward zero, which
is `floor(f * 10)`, to each of the three early-reflection diffusion networks
(Room-Early, Hall-Early, EarlyOnly); the count lies in `0..10` and satisfies
`count <= f * 10 < count + 1`. -/
theorem diffuse_stage_count_truncated (s : StudioReverbDSP) (v : ℚ) (h0 : 0 ≤ v)
    (h100 : v ≤ 100) :
    (StudioReverbDSP.setParameterValue s paramDiffuse v).roomEarly =
      s.roomEarly ++ [Call.setDiffusionApFreq (150 + v / 100 * 350) ⌊v / 100 * 10⌋] ∧
    (StudioReverbDSP.setParameterValue s paramDiffuse v).hallEarly =
      s.hallEarly ++ [Call.setDiffusionApFreq (100 + v / 100 * 400) ⌊v / 100 * 10⌋] ∧
    (StudioReverbDSP.setParameterValue s paramDiffuse v).earlyOnly =
      s.earlyOnly ++ [Call.setDiffusionApFreq (200 + v / 100 * 300) ⌊v / 100 * 10⌋] ∧
    diffuseStages v = ⌊v / 100 * 10⌋ ∧
    0 ≤ diffuseStages v ∧ diffuseStages v ≤ 10 ∧
    ((diffuseStages v : ℤ) : ℚ) ≤ v / 100 * 10 ∧
    v / 100 * 10 < ((diffuseStages v : ℤ) : ℚ) + 1 := by
  have hd := diffuseStages_eq_floor v h0
  rw [setParameterValue_diffuse, hd]
  refine ⟨rfl, rfl, rfl, rfl, ?_, ?_, Int.floor_le _, Int.lt_floor_add_one _⟩
  · exact Int.floor_nonneg.mpr (by positivity)
  · have : ⌊v / 100 * 10⌋ < (11 : ℤ) := Int.floor_lt.mpr (by push_cast; linarith)
    omega

/-- C13 amended, at a concrete input: a diffuse write of 96 passes the stage count 9
to Hall-Early, with allpass frequency 484. -/
theorem diffuse_stage_count_truncated_witness :
    ((0 : ℚ) ≤ 96 ∧ (96 : ℚ) ≤ 100) ∧
    (StudioReverbDSP.setParameterValue demoDSP paramDiffuse 96).hallEarly =
      [Call.setDiffusionApFreq 484 9] := by
  refine ⟨⟨by norm_num, by norm_num⟩, ?_⟩
  obtain ⟨-, h2, -, h4, -⟩ :=
    diffuse_stage_count_truncated demoDSP 96 (by norm_num) (by norm_num)
  rw [h2, ← h4, diffuseStages_96]
  norm_num [demoDSP]

/-- C17. Writing highcut `v` sends the raw value as the output low-pass frequency
(`setoutputlpf`) to Room-Early, Hall-Early and EarlyOnly only: the call histories of
Room-Late, Hall-Late and Plate, which determine the late-path coefficients, are the
same before and after the write. -/
theorem highcut_write (s : StudioReverbDSP) (v : ℚ) :
    (StudioReverbDSP.setParameterValue s paramHighCut v).roomEarly =
      s.roomEarly ++ [Call.setoutputlpf v] ∧
    (StudioReverbDSP.setParameterValue s paramHighCut v).hallEarly =
      s.hallEarly ++ [Call.setoutputlpf v] ∧
    (StudioReverbDSP.setParameterValue s paramHighCut v).earlyOnly =
      s.earlyOnly ++ [Call.setoutputlpf v] ∧
    (StudioReverbDSP.setParameterValue s paramHighCut v).roomLate = s.roomLate ∧
    (StudioReverbDSP.setParameterValue s paramHighCut v).hallLate = s.hallLate ∧
    (StudioReverbDSP.setParameterValue s paramHighCut v).plateReverb = s.plateReverb := by
  rw [setParameterValue_highcut]
  exact ⟨rfl, rfl, rfl, rfl, rfl, rfl⟩

theorem run_variant (fv : Freeverb) (s : StudioReverbDSP) (inputs outputs : Stereo)
    (frames : Nat) (hf : frames < U32) :
    (StudioReverbDSP.run fv s inputs outputs frames hf).1.currentReverbType =
      s.currentReverbType := by
  rw [run_eq_foldl]
  exact (foldl_chunk_levels fv inputs _ (s, outputs)).2.2.2

/-- C19. The active variant changes only through a write to the type parameter:
`setParameterValue` with any id other than the type id (valid or not) and any value,
`run` on any block, `mute` and `sampleRateChanged` each leave `currentReverbType`
unchanged. -/
theorem variant_changes_only_by_type_write (fv : Freeverb) (s : StudioReverbDSP)
    (index : Nat) (v : ℚ) (inputs outputs : Stereo) (frames : Nat) (hf : frames < U32)
    (rate : ℚ) (h : index ≠ paramReverbType) :
    (StudioReverbDSP.setParameterValue s index v).currentReverbType = s.currentReverbType ∧
    (StudioReverbDSP.run fv s inputs outputs frames hf).1.currentReverbType =
      s.currentReverbType ∧
    s.mute.currentReverbType = s.currentReverbType ∧
    (s.sampleRateChanged rate).currentReverbType = s.currentReverbType :=
  ⟨setParameterValue_variant s index v h, run_variant fv s inputs outputs frames hf, rfl, rfl⟩

/-- C19 at concrete inputs: on the sample engine switched to Plate, a decay write, a
write to the invalid id 40 and a run of 300 frames all leave the variant at Plate. -/
theorem variant_changes_only_by_type_write_witness :
    (300 < U32 ∧ paramDecay ≠ paramReverbType ∧ 40 ≠ paramReverbType) ∧
    (StudioReverbDSP.setParameterValue { demoDSP with currentReverbType := REVERB_PLATE }
      paramDecay 5).currentReverbType = REVERB_PLATE ∧
    (StudioReverbDSP.setParameterValue { demoDSP with currentReverbType := REVERB_PLATE }
      40 5).currentReverbType = REVERB_PLATE ∧
    (StudioReverbDSP.run demoFreeverb { demoDSP with currentReverbType := REVERB_PLATE }
      demoInputs demoOutputs 300 (by decide)).1.currentReverbType = REVERB_PLATE :=
  ⟨⟨by decide, by decide, by decide⟩,
    (variant_changes_only_by_type_write demoFreeverb
      { demoDSP with currentReverbType := REVERB_PLATE } paramDecay 5 demoInputs demoOutputs
      300 (by decide) 48000 (by decide)).1,
    (variant_changes_only_by_type_write demoFreeverb
      { demoDSP with currentReverbType := REVERB_PLATE } 40 5 demoInputs demoOutputs
      300 (by decide) 48000 (by decide)).1,
    (variant_changes_only_by_type_write demoFreeverb
      { demoDSP with currentReverbType := REVERB_PLATE } paramDecay 5 demoInputs demoOutputs
      300 (by decide) 48000 (by decide)).2.1⟩

/-! ## The end-to-end scenario -/

theorem slice_getD (p : Buffer) (offset n i : Nat) (h : i < n) :
    (slice p offset n).getD i 0 = p (offset + i) := by
  simp [slice, List.getD_eq_getElem?_getD, List.getElem?_range h]

theorem zeros_getD (n i : Nat) : (zeros n).getD i 0 = 0 := by
  unfold zeros
  rw [List.getD_eq_getElem?_getD]
  by_cases h : i < n
  · simp [List.getElem?_replicate, h]
  · simp [List.getElem?_replicate, h]

theorem run_room_output (fv : Freeverb) (s : StudioReverbDSP) (inputs outputs : Stereo)
    (n : Nat) (hf : n < U32) (c : Fin 2) (j : Nat) (hj : j < n)
    (hr : s.currentReverbType = REVERB_ROOM) :
    (StudioReverbDSP.run fv s inputs outputs n hf).2 c j =
      s.dryLevel * inputs c j +
      s.earlyLevel *
        procOut fv.earlyref_f (headState fv s inputs outputs n hf (j / 256)).1.roomEarly
          inputs (256 * (j / 256)) (min 256 (n - 256 * (j / 256))) c (j % 256) +
      s.lateLevel *
        procOut fv.progenitor2_f (headState fv s inputs outputs n hf (j / 256)).1.roomLate
          inputs (256 * (j / 256)) (min 256 (n - 256 * (j / 256))) c (j % 256) := by
  rw [run_eq_headState,
    headState_outputs fv s inputs outputs n hf c j hj _ (le_refl _) (by omega)]
  have ht := (headState_levels fv s inputs outputs n hf (j / 256)).2.2.2
  rw [dispatch_room _ _ _ _ _ (ht.trans hr)]
  have hlt : j % 256 < 256 ∧ j % 256 < n - 256 * (j / 256) := by omega
  fin_cases c <;> simp [hlt]

theorem scenarioDSP_levels (sampleRate : ℚ) (mem : StudioReverbDSP) :
    (scenarioDSP sampleRate mem).dryLevel = 1 ∧
    (scenarioDSP sampleRate mem).earlyLevel = 0.75 ∧
    (scenarioDSP sampleRate mem).lateLevel = 0.75 ∧
    (scenarioDSP sampleRate mem).currentReverbType = REVERB_ROOM := by
  unfold scenarioDSP
  rw [setParameterValue_late, setParameterValue_early, setParameterValue_dry,
    setParameterValue_type]
  have hz : static_cast_int (f32add ((REVERB_ROOM : ℤ) : ℚ) 0.5) = REVERB_ROOM := by
    have e : (((REVERB_ROOM : ℤ) : ℚ)) = 0 := by norm_num [REVERB_ROOM]
    rw [e, f32add_0, static_cast_int_nonneg _ (by norm_num), Int.floor_eq_iff]
    norm_num [REVERB_ROOM]
  refine ⟨?_, ?_, ?_, ?_⟩
  · norm_num [StudioReverbDSP.muteAll]
  · norm_num [StudioReverbDSP.muteAll]
  · norm_num [StudioReverbDSP.muteAll]
  · simp only [StudioReverbDSP.muteAll, hz]

/-- C20. After constructing the engine (at any sample rate) and writing type = Room,
dry = 100, early = 75, late = 75, the dry gain is exactly 1, the early and late gains
are 0.75 and the variant is Room; for any input block, every output sample `j < n` of
`run` equals the input sample plus 0.75 times the Room-Early output sample plus 0.75
times the Room-Late output sample, each of the two processors being run on the raw
input slice of the chunk (into zeroed output slices) with no further combination; and
for the 256-frame unit impulse the dry contribution to the first output sample is
exactly 1 and that sample is 1 plus the two scaled processor samples. -/
theorem room_scenario (fv : Freeverb) (sampleRate : ℚ) (mem : StudioReverbDSP)
    (inputs outputs : Stereo) (n : Nat) (hf : n < U32) (c : Fin 2) (j : Nat) (hj : j < n) :
    ((scenarioDSP sampleRate mem).dryLevel = 1 ∧
     (scenarioDSP sampleRate mem).earlyLevel = 0.75 ∧
     (scenarioDSP sampleRate mem).lateLevel = 0.75 ∧
     (scenarioDSP sampleRate mem).currentReverbType = REVERB_ROOM) ∧
    (StudioReverbDSP.run fv (scenarioDSP sampleRate mem) inputs outputs n hf).2 c j =
      inputs c j +
      0.75 * fv.earlyref_f
        (headState fv (scenarioDSP sampleRate mem) inputs outputs n hf (j / 256)).1.roomEarly
        (slice (inputs 0) (256 * (j / 256)) (min 256 (n - 256 * (j / 256))))
        (slice (inputs 1) (256 * (j / 256)) (min 256 (n - 256 * (j / 256))))
        (zeros (min 256 (n - 256 * (j / 256)))) (zeros (min 256 (n - 256 * (j / 256))))
        (min 256 (n - 256 * (j / 256))) c (j % 256) +
      0.75 * fv.progenitor2_f
        (headState fv (scenarioDSP sampleRate mem) inputs outputs n hf (j / 256)).1.roomLate
        (slice (inputs 0) (256 * (j / 256)) (min 256 (n - 256 * (j / 256))))
        (slice (inputs 1) (256 * (j / 256)) (min 256 (n - 256 * (j / 256))))
        (zeros (min 256 (n - 256 * (j / 256)))) (zeros (min 256 (n - 256 * (j / 256))))
        (min 256 (n - 256 * (j / 256))) c (j % 256) ∧
    (scenarioDSP sampleRate mem).dryLevel * impulse c 0 = 1 ∧
    (StudioReverbDSP.run fv (scenarioDSP sampleRate mem) impulse outputs 256 (by decide)).2 c 0 =
      1 +
      0.75 * fv.earlyref_f (scenarioDSP sampleRate mem).roomEarly
        (slice (impulse 0) 0 256) (slice (impulse 1) 0 256) (zeros 256) (zeros 256) 256 c 0 +
      0.75 * fv.progenitor2_f (scenarioDSP sampleRate mem).roomLate
        (slice (impulse 0) 0 256) (slice (impulse 1) 0 256) (zeros 256) (zeros 256) 256 c 0 := by
  obtain ⟨hd, he, hl, ht⟩ := scenarioDSP_levels sampleRate mem
  refine ⟨⟨hd, he, hl, ht⟩, ?_, ?_, ?_⟩
  · rw [run_room_output fv _ inputs outputs n hf c j hj ht, hd, he, hl, one_mul]
    rfl
  · rw [hd]
    simp [impulse]
  · rw [run_room_output fv _ impulse outputs 256 (by decide) c 0 (by decide) ht, hd, he, hl,
      one_mul]
    have h0 : headState fv (scenarioDSP sampleRate mem) impulse outputs 256 (by decide) (0 / 256)
        = (scenarioDSP sampleRate mem, outputs) := by
      rw [Nat.zero_div, headState_zero]
    rw [h0]
    simp [procOut, impulse]

/-- C20 at a concrete input: the scenario engine built at 48000 Hz with the sample
processors, fed the unit impulse for 256 frames: the first left output sample is
`1 + 0.75 * (1/2) + 0.75 * 1 = 17/8`. -/
theorem room_scenario_witness :
    (256 < U32 ∧ 0 < 256) ∧
    (StudioReverbDSP.run demoFreeverb (scenarioDSP 48000 demoDSP) impulse demoOutputs 256
      (by decide)).2 0 0 = 17 / 8 := by
  refine ⟨⟨by decide, by decide⟩, ?_⟩
  rw [(room_scenario demoFreeverb 48000 demoDSP impulse demoOutputs 256 (by decide) 0 0
    (by decide)).2.2.2]
  have hs : (slice (impulse 0) 0 256).getD 0 0 = 1 := by
    rw [slice_getD _ _ _ _ (by decide)]
    simp [impulse]
  simp only [demoFreeverb, if_true, hs, zeros_getD]
  norm_num

/-! ## Every case of `setParameterValue`, and re-application -/

theorem setParameterValue_width (s : StudioReverbDSP) (v : ℚ) :
    StudioReverbDSP.setParameterValue s paramWidth v =
      { s with
        params := Function.update s.params paramWidth v
        roomEarly := s.roomEarly ++ [Call.setwidth (v / 100)]
        roomLate := s.roomLate ++ [Call.setwidth (v / 100)]
        hallEarly := s.hallEarly ++ [Call.setwidth (v / 100)]
        hallLate := s.hallLate ++ [Call.setwidth (v / 100)]
        plateReverb := s.plateReverb ++ [Call.setwidth (v / 100)]
        earlyOnly := s.earlyOnly ++ [Call.setwidth (v / 100)] } := by
  simp [StudioReverbDSP.setParameterValue, paramWidth, paramSize, paramLate, paramEarly, paramDry,
    paramReverbType, paramCount]

theorem setParameterValue_predelay (s : StudioReverbDSP) (v : ℚ) :
    StudioReverbDSP.setParameterValue s paramPredelay v =
      { s with
        params := Function.update s.params paramPredelay v
        roomEarly := s.roomEarly ++ [Call.setPreDelay v]
        roomLate := s.roomLate ++ [Call.setPreDelay v]
        hallEarly := s.hallEarly ++ [Call.setPreDelay v]
        hallLate := s.hallLate ++ [Call.setPreDelay v]
        plateReverb := s.plateReverb ++ [Call.setPreDelay v]
        earlyOnly := s.earlyOnly ++ [Call.setPreDelay v] } := by
  simp [StudioReverbDSP.setParameterValue, paramPredelay, paramWidth, paramSize, paramLate,
    paramEarly, paramDry, paramReverbType, paramCount]

theorem setParameterValue_lowcut (s : StudioReverbDSP) (v : ℚ) :
    StudioReverbDSP.setParameterValue s paramLowCut v =
      { s with
        params := Function.update s.params paramLowCut v
        roomEarly := s.roomEarly ++ [Call.setoutputhpf v]
        roomLate := s.roomLate ++ [Call.setdccutfreq v]
        hallEarly := s.hallEarly ++ [Call.setoutputhpf v]
        hallLate := s.hallLate ++ [Call.setdccutfreq v]
        plateReverb := s.plateReverb ++ [Call.setdccutfreq v]
        earlyOnly := s.earlyOnly ++ [Call.setoutputhpf v] } := by
  simp [StudioReverbDSP.setParameterValue, paramLowCut, paramModulation, paramDamping,
    paramDiffuse, paramDecay, paramPredelay, paramWidth, paramSize, paramLate, paramEarly,
    paramDry, paramReverbType, paramCount]

theorem setParameterValue_dryLevel (s : StudioReverbDSP) (index : Nat) (v : ℚ) :
    (StudioReverbDSP.setParameterValue s index v).dryLevel =
      if index = paramDry then v / 100 else s.dryLevel := by
  unfold StudioReverbDSP.setParameterValue
  by_cases h : index ≥ paramCount
  · have : index ≠ paramDry := by unfold paramCount at h; unfold paramDry; omega
    rw [if_pos h, if_neg this]
  · rw [if_neg h]
    simp only [apply_ite StudioReverbDSP.dryLevel, StudioReverbDSP.muteAll]
    by_cases hd : index = paramDry
    · subst hd
      simp [paramDry, paramReverbType]
    · simp only [if_neg hd, ite_self]

theorem setParameterValue_earlyLevel (s : StudioReverbDSP) (index : Nat) (v : ℚ) :
    (StudioReverbDSP.setParameterValue s index v).earlyLevel =
      if index = paramEarly then v / 100 else s.earlyLevel := by
  unfold StudioReverbDSP.setParameterValue
  by_cases h : index ≥ paramCount
  · have : index ≠ paramEarly := by unfold paramCount at h; unfold paramEarly; omega
    rw [if_pos h, if_neg this]
  · rw [if_neg h]
    simp only [apply_ite StudioReverbDSP.earlyLevel, StudioReverbDSP.muteAll]
    by_cases hd : index = paramEarly
    · subst hd
      simp [paramEarly, paramDry, paramReverbType]
    · simp only [if_neg hd, ite_self]

theorem setParameterValue_lateLevel (s : StudioReverbDSP) (index : Nat) (v : ℚ) :
    (StudioReverbDSP.setParameterValue s index v).lateLevel =
      if index = paramLate then v / 100 else s.lateLevel := by
  unfold StudioReverbDSP.setParameterValue
  by_cases h : index ≥ paramCount
  · have : index ≠ paramLate := by unfold paramCount at h; unfold paramLate; omega
    rw [if_pos h, if_neg this]
  · rw [if_neg h]
    simp only [apply_ite StudioReverbDSP.lateLevel, StudioReverbDSP.muteAll]
    by_cases hd : index = paramLate
    · subst hd
      simp [paramLate, paramEarly, paramDry, paramReverbType]
    · simp only [if_neg hd, ite_self]

theorem setParameterValue_currentReverbType (s : StudioReverbDSP) (index : Nat) (v : ℚ) :
    (StudioReverbDSP.setParameterValue s index v).currentReverbType =
      if index = paramReverbType then static_cast_int (f32add v 0.5)
      else s.currentReverbType := by
  by_cases hd : index = paramReverbType
  · subst hd
    rw [setParameterValue_type, if_pos rfl]
    rfl
  · rw [setParameterValue_variant s index v hd, if_neg hd]

theorem setParameterValue_params_all (s : StudioReverbDSP) (index : Nat) (v : ℚ) :
    (StudioReverbDSP.setParameterValue s index v).params =
      if index < paramCount then Function.update s.params index v else s.params := by
  by_cases h : index < paramCount
  · rw [if_pos h, setParameterValue_params s index v h]
  · rw [if_neg h, setParameterValue_invalid s index v (by omega)]

theorem reapply_loop_params (s : StudioReverbDSP) (n : Nat) :
    (forLoop n (fun i (t : StudioReverbDSP) => t.setParameterValue i (t.params i)) s).params =
      s.params := by
  induction n with
  | zero => rw [forLoop_zero]
  | succ n ih =>
    rw [forLoop_succ]
    simp only [setParameterValue_params_all]
    split_ifs
    · rw [Function.update_eq_self, ih]
    · exact ih

theorem reapply_loop_eq (s : StudioReverbDSP) (n : Nat) :
    forLoop n (fun i (t : StudioReverbDSP) => t.setParameterValue i (t.params i)) s =
      forLoop n (fun i (t : StudioReverbDSP) => t.setParameterValue i (s.params i)) s := by
  induction n with
  | zero => rw [forLoop_zero, forLoop_zero]
  | succ n ih =>
    rw [forLoop_succ, forLoop_succ, ← ih]
    simp only [reapply_loop_params]

theorem reapplyParameters_params (s : StudioReverbDSP) :
    (reapplyParameters s).params = s.params :=
  reapply_loop_params s paramCount

theorem reapplyParameters_eq (s : StudioReverbDSP) :
    reapplyParameters s =
      ((((((((((((s.setParameterValue paramReverbType (s.params paramReverbType)
        ).setParameterValue paramDry (s.params paramDry)
        ).setParameterValue paramEarly (s.params paramEarly)
        ).setParameterValue paramLate (s.params paramLate)
        ).setParameterValue paramSize (s.params paramSize)
        ).setParameterValue paramWidth (s.params paramWidth)
        ).setParameterValue paramPredelay (s.params paramPredelay)
        ).setParameterValue paramDecay (s.params paramDecay)
        ).setParameterValue paramDiffuse (s.params paramDiffuse)
        ).setParameterValue paramDamping (s.params paramDamping)
        ).setParameterValue paramModulation (s.params paramModulation)
        ).setParameterValue paramLowCut (s.params paramLowCut)
        ).setParameterValue paramHighCut (s.params paramHighCut) := by
  unfold reapplyParameters
  rw [reapply_loop_eq]
  simp only [paramCount, forLoop, List.range_succ, List.range_zero, List.nil_append,
    List.cons_append, List.foldl_cons, List.foldl_nil]
  rfl

theorem reapplyParameters_coherent (s : StudioReverbDSP) : Coherent (reapplyParameters s) := by
  unfold Coherent
  rw [reapplyParameters_params, reapplyParameters_eq]
  simp only [setParameterValue_dryLevel, setParameterValue_earlyLevel,
    setParameterValue_lateLevel, setParameterValue_currentReverbType]
  simp [paramReverbType, paramDry, paramEarly, paramLate, paramSize, paramWidth, paramPredelay,
    paramDecay, paramDiffuse, paramDamping, paramModulation, paramLowCut, paramHighCut]

/-! ## Sample-rate change -/

/-- C21, as stated, fails: on the sample engine (no call made on any processor yet)
`sampleRateChanged(44100)` leaves on each of the six processors exactly one call,
`setSampleRate(44100)`, and no `mute`, whereas `mute()` records a `mute` on each. -/
theorem sampleRateChanged_does_not_flush :
    ((demoDSP.sampleRateChanged 44100).roomEarly = [Call.setSampleRate 44100] ∧
     (demoDSP.sampleRateChanged 44100).roomLate = [Call.setSampleRate 44100] ∧
     (demoDSP.sampleRateChanged 44100).hallEarly = [Call.setSampleRate 44100] ∧
     (demoDSP.sampleRateChanged 44100).hallLate = [Call.setSampleRate 44100] ∧
     (demoDSP.sampleRateChanged 44100).plateReverb = [Call.setSampleRate 44100] ∧
     (demoDSP.sampleRateChanged 44100).earlyOnly = [Call.setSampleRate 44100]) ∧
    (Call.mute ∉ (demoDSP.sampleRateChanged 44100).roomEarly ∧
     Call.mute ∉ (demoDSP.sampleRateChanged 44100).roomLate ∧
     Call.mute ∉ (demoDSP.sampleRateChanged 44100).hallEarly ∧
     Call.mute ∉ (demoDSP.sampleRateChanged 44100).hallLate ∧
     Call.mute ∉ (demoDSP.sampleRateChanged 44100).plateReverb ∧
     Call.mute ∉ (demoDSP.sampleRateChanged 44100).earlyOnly) ∧
    Call.mute ∈ demoDSP.mute.roomEarly := by
  simp [StudioReverbDSP.sampleRateChanged, StudioReverbDSP.mute, StudioReverbDSP.muteAll,
    demoDSP]

/-- C21, amended. A sample-rate change propagates the new rate to all six processors
synchronously but, unlike a type change and a deactivation, does not flush them:
`sampleRateChanged(rate)` stores the rate and records exactly one call,
`setSampleRate(rate)`, on each of Room-Early, Room-Late, Hall-Early, Hall-Late, Plate
and EarlyOnly, so the number of `mute` calls in each history is unchanged. -/
theorem sampleRateChanged_sets_rate_only (s : StudioReverbDSP) (rate : ℚ) :
    (s.sampleRateChanged rate).sampleRate = rate ∧
    ((s.sampleRateChanged rate).roomEarly = s.roomEarly ++ [Call.setSampleRate rate] ∧
     (s.sampleRateChanged rate).roomLate = s.roomLate ++ [Call.setSampleRate rate] ∧
     (s.sampleRateChanged rate).hallEarly = s.hallEarly ++ [Call.setSampleRate rate] ∧
     (s.sampleRateChanged rate).hallLate = s.hallLate ++ [Call.setSampleRate rate] ∧
     (s.sampleRateChanged rate).plateReverb = s.plateReverb ++ [Call.setSampleRate rate] ∧
     (s.sampleRateChanged rate).earlyOnly = s.earlyOnly ++ [Call.setSampleRate rate]) ∧
    ((s.sampleRateChanged rate).roomEarly.count Call.mute = s.roomEarly.count Call.mute ∧
     (s.sampleRateChanged rate).roomLate.count Call.mute = s.roomLate.count Call.mute ∧
     (s.sampleRateChanged rate).hallEarly.count Call.mute = s.hallEarly.count Call.mute ∧
     (s.sampleRateChanged rate).hallLate.count Call.mute = s.hallLate.count Call.mute ∧
     (s.sampleRateChanged rate).plateReverb.count Call.mute = s.plateReverb.count Call.mute ∧
     (s.sampleRateChanged rate).earlyOnly.count Call.mute = s.earlyOnly.count Call.mute) := by
  refine ⟨rfl, ⟨rfl, rfl, rfl, rfl, rfl, rfl⟩, ?_⟩
  simp [StudioReverbDSP.sampleRateChanged, List.count_append, List.count_singleton]

theorem specSampleRateChanged_demo_roomLate :
    (specSampleRateChanged demoDSP 44100).roomLate =
      [Call.setSampleRate 44100, Call.mute, Call.setRSFactor 1, Call.setwidth 1,
       Call.setPreDelay 10, Call.setrt60 2, Call.setidiffusion1 (7 / 10),
       Call.setodiffusion1 (7 / 10), Call.setdamp 10000, Call.setoutputdamp 10000,
       Call.setdccutfreq 20] := by
  unfold specSampleRateChanged
  rw [reapplyParameters_eq]
  simp only [setParameterValue_highcut, setParameterValue_lowcut,
    setParameterValue_modulation, setParameterValue_damping, setParameterValue_diffuse,
    setParameterValue_decay, setParameterValue_predelay, setParameterValue_width,
    setParameterValue_size, setParameterValue_late, setParameterValue_early,
    setParameterValue_dry, setParameterValue_type]
  simp [StudioReverbDSP.sampleRateChanged, StudioReverbDSP.muteAll, demoDSP, paramSize,
    paramWidth, paramPredelay, paramDecay, paramDiffuse, paramDamping, paramLowCut,
    sizeFactor, diffusion, dampFreq]
  norm_num

/-- C22, as stated, fails: on the wrapper around the sample engine,
`sampleRateChanged(44100)` leaves on Room-Late the single call `setSampleRate(44100)`;
the re-application of the stored parameters that the claim describes would also have
recorded `setrt60(2)` and nine more calls there, and neither the engine nor the wrapper
makes them. -/
theorem sampleRateChanged_does_not_reapply :
    (StudioReverbPlugin.sampleRateChanged { dsp := demoDSP } 44100).dsp.roomLate =
      [Call.setSampleRate 44100] ∧
    Call.setrt60 2 ∈ (specSampleRateChanged demoDSP 44100).roomLate ∧
    Call.setrt60 2 ∉ (StudioReverbPlugin.sampleRateChanged { dsp := demoDSP } 44100).dsp.roomLate ∧
    (StudioReverbPlugin.sampleRateChanged { dsp := demoDSP } 44100).dsp ≠
      specSampleRateChanged demoDSP 44100 := by
  have h1 : (StudioReverbPlugin.sampleRateChanged { dsp := demoDSP } 44100).dsp.roomLate =
      [Call.setSampleRate 44100] := by
    simp [StudioReverbPlugin.sampleRateChanged, StudioReverbDSP.sampleRateChanged, demoDSP]
  refine ⟨h1, ?_, ?_, ?_⟩
  · rw [specSampleRateChanged_demo_roomLate]
    simp
  · rw [h1]
    simp
  · intro h
    have h2 := congrArg StudioReverbDSP.roomLate h
    rw [h1, specSampleRateChanged_demo_roomLate] at h2
    simp at h2

/-- C22, amended. When the host wrapper delivers a sample-rate change
(`Plugin::sampleRateChanged`), the engine stores the new rate and the rate is
propagated to all six processors, one `setSampleRate` call each; nothing else is
invoked: no parameter value is re-applied, by the engine or by the wrapper, so no
coefficient setter is called. The stored parameter values, the mix gains and the
active variant are unchanged. -/
theorem plugin_sampleRateChanged_propagates_only (p : StudioReverbPlugin) (rate : ℚ) :
    (p.sampleRateChanged rate).dsp = p.dsp.sampleRateChanged rate ∧
    (p.sampleRateChanged rate).dsp.sampleRate = rate ∧
    ((p.sampleRateChanged rate).dsp.roomEarly = p.dsp.roomEarly ++ [Call.setSampleRate rate] ∧
     (p.sampleRateChanged rate).dsp.roomLate = p.dsp.roomLate ++ [Call.setSampleRate rate] ∧
     (p.sampleRateChanged rate).dsp.hallEarly = p.dsp.hallEarly ++ [Call.setSampleRate rate] ∧
     (p.sampleRateChanged rate).dsp.hallLate = p.dsp.hallLate ++ [Call.setSampleRate rate] ∧
     (p.sampleRateChanged rate).dsp.plateReverb =
       p.dsp.plateReverb ++ [Call.setSampleRate rate] ∧
     (p.sampleRateChanged rate).dsp.earlyOnly = p.dsp.earlyOnly ++ [Call.setSampleRate rate]) ∧
    ((p.sampleRateChanged rate).dsp.params = p.dsp.params ∧
     (∀ index, (p.sampleRateChanged rate).getParameterValue index =
       p.getParameterValue index) ∧
     (p.sampleRateChanged rate).dsp.dryLevel = p.dsp.dryLevel ∧
     (p.sampleRateChanged rate).dsp.earlyLevel = p.dsp.earlyLevel ∧
     (p.sampleRateChanged rate).dsp.lateLevel = p.dsp.lateLevel ∧
     (p.sampleRateChanged rate).dsp.currentReverbType = p.dsp.currentReverbType) :=
  ⟨rfl, rfl, ⟨rfl, rfl, rfl, rfl, rfl, rfl⟩, rfl, fun _ => rfl, rfl, rfl, rfl, rfl⟩

/-! ## The derived state agrees with the store -/

theorem construct_eq_reapply (sampleRate : ℚ) (mem : StudioReverbDSP) :
    ∃ s0 : StudioReverbDSP,
      StudioReverbDSP.construct sampleRate mem = reapplyParameters s0 ∧
      s0.params paramReverbType = 0 ∧ s0.params paramDry = 100 ∧ s0.params paramEarly = 75 ∧
      s0.params paramLate = 75 ∧ s0.params paramSize = 50 ∧ s0.params paramWidth = 100 ∧
      s0.params paramPredelay = 10 ∧ s0.params paramDecay = 2 ∧ s0.params paramDiffuse = 70 ∧
      s0.params paramDamping = 50 ∧ s0.params paramModulation = 20 ∧
      s0.params paramLowCut = 20 ∧ s0.params paramHighCut = 16000 := by
  refine ⟨_, rfl, ?_⟩
  simp [StudioReverbDSP.initializeEarlyReflections, StudioReverbDSP.initializePlateReverb,
    StudioReverbDSP.initializeHallReverb, StudioReverbDSP.initializeRoomReverb,
    paramReverbType, paramDry, paramEarly, paramLate, paramSize, paramWidth, paramPredelay,
    paramDecay, paramDiffuse, paramDamping, paramModulation, paramLowCut, paramHighCut,
    REVERB_ROOM, Function.update]

theorem dispatch_params (fv : Freeverb) (s : StudioReverbDSP) (inputs : Stereo)
    (n offset : Nat) :
    (StudioReverbDSP.dispatch fv (StudioReverbDSP.clearBuffers s n) inputs n offset).params =
      s.params := by
  by_cases r0 : s.currentReverbType = REVERB_ROOM
  · rw [dispatch_room fv s inputs n offset r0]
  by_cases r1 : s.currentReverbType = REVERB_HALL
  · exact (dispatch_hall_same fv s inputs n offset r1).2.1
  by_cases r2 : s.currentReverbType = REVERB_PLATE
  · rw [dispatch_plate fv s inputs n offset r2]
  by_cases r3 : s.currentReverbType = REVERB_EARLY_REFLECTIONS
  · rw [dispatch_early fv s inputs n offset r3]
  · rw [dispatch_other fv s inputs n offset r0 r1 r2 r3]
    rfl

theorem foldl_chunk_params (fv : Freeverb) (inputs : Stereo) (l : List (Nat × Nat)) :
    ∀ (st : StudioReverbDSP × Stereo),
    (l.foldl (fun st ch => StudioReverbDSP.chunk fv inputs ch.2 ch.1 st) st).1.params =
      st.1.params := by
  induction l with
  | nil => intro st; rfl
  | cons ch l ih =>
    intro st
    rw [List.foldl_cons, ih]
    exact dispatch_params fv st.1 inputs ch.2 ch.1

theorem run_params (fv : Freeverb) (s : StudioReverbDSP) (inputs outputs : Stereo)
    (frames : Nat) (hf : frames < U32) :
    (StudioReverbDSP.run fv s inputs outputs frames hf).1.params = s.params := by
  rw [run_eq_foldl]
  exact foldl_chunk_params fv inputs _ (s, outputs)

theorem run_levels (fv : Freeverb) (s : StudioReverbDSP) (inputs outputs : Stereo)
    (frames : Nat) (hf : frames < U32) :
    (StudioReverbDSP.run fv s inputs outputs frames hf).1.dryLevel = s.dryLevel ∧
    (StudioReverbDSP.run fv s inputs outputs frames hf).1.earlyLevel = s.earlyLevel ∧
    (StudioReverbDSP.run fv s inputs outputs frames hf).1.lateLevel = s.lateLevel := by
  rw [run_eq_foldl]
  obtain ⟨a, b, c, -⟩ := foldl_chunk_levels fv inputs (chunks frames hf) (s, outputs)
  exact ⟨a, b, c⟩

theorem setParameterValue_coherent (s : StudioReverbDSP) (index : Nat) (v : ℚ)
    (h : Coherent s) : Coherent (s.setParameterValue index v) := by
  obtain ⟨h1, h2, h3, h4⟩ := h
  unfold Coherent
  rw [setParameterValue_dryLevel, setParameterValue_earlyLevel, setParameterValue_lateLevel,
    setParameterValue_currentReverbType, setParameterValue_params_all]
  by_cases hv : index < paramCount
  · simp only [if_pos hv]
    refine ⟨?_, ?_, ?_, ?_⟩
    · by_cases e : index = paramDry
      · subst e; simp
      · simp [e, Function.update_noteq (Ne.symm e), h1]
    · by_cases e : index = paramEarly
      · subst e; simp
      · simp [e, Function.update_noteq (Ne.symm e), h2]
    · by_cases e : index = paramLate
      · subst e; simp
      · simp [e, Function.update_noteq (Ne.symm e), h3]
    · by_cases e : index = paramReverbType
      · subst e; simp
      · simp [e, Function.update_noteq (Ne.symm e), h4]
  · have e0 : index ≠ paramReverbType := by
      unfold paramCount at hv; unfold paramReverbType; omega
    have e1 : index ≠ paramDry := by unfold paramCount at hv; unfold paramDry; omega
    have e2 : index ≠ paramEarly := by unfold paramCount at hv; unfold paramEarly; omega
    have e3 : index ≠ paramLate := by unfold paramCount at hv; unfold paramLate; omega
    simp only [if_neg hv, if_neg e0, if_neg e1, if_neg e2, if_neg e3]
    exact ⟨h1, h2, h3, h4⟩

theorem reachable_coherent (fv : Freeverb) (s : StudioReverbDSP) (h : Reachable fv s) :
    Coherent s := by
  induction h with
  | construct sampleRate mem =>
    obtain ⟨s0, e, -⟩ := construct_eq_reapply sampleRate mem
    rw [e]
    exact reapplyParameters_coherent s0
  | setParameterValue s index value _ ih => exact setParameterValue_coherent s index value ih
  | run s inputs outputs frames hf _ ih =>
    obtain ⟨h1, h2, h3, h4⟩ := ih
    obtain ⟨l1, l2, l3⟩ := run_levels fv s inputs outputs frames hf
    unfold Coherent
    rw [l1, l2, l3, run_variant, run_params]
    exact ⟨h1, h2, h3, h4⟩
  | mute s _ ih => exact ih
  | sampleRateChanged s rate _ ih => exact ih

/-- C23. In every state reachable from construction (at any sample rate) by any
sequence of `setParameterValue`, `run`, `mute` and `sampleRateChanged` calls, the derived
state agrees with the store: `dryLevel = params[dry] / 100`,
`earlyLevel = params[early] / 100`, `lateLevel = params[late] / 100` and the active
variant is `trunc(params[type] + 0.5)`, the sum being the `float` sum of the source.
Immediately after construction these are 1, 0.75, 0.75 and Room, and
`getParameterValue` returns the defaults 0, 100, 75, 75, 50, 100, 10, 2, 70, 50, 20, 20,
16000 for the ids 0..12. -/
theorem derived_state_agrees_with_store (fv : Freeverb) (s : StudioReverbDSP)
    (h : Reachable fv s) (sampleRate : ℚ) (mem : StudioReverbDSP) :
    (s.dryLevel = s.params paramDry / 100 ∧
     s.earlyLevel = s.params paramEarly / 100 ∧
     s.lateLevel = s.params paramLate / 100 ∧
     s.currentReverbType = static_cast_int (f32add (s.params paramReverbType) 0.5)) ∧
    ((StudioReverbDSP.construct sampleRate mem).dryLevel = 1 ∧
     (StudioReverbDSP.construct sampleRate mem).earlyLevel = 0.75 ∧
     (StudioReverbDSP.construct sampleRate mem).lateLevel = 0.75 ∧
     (StudioReverbDSP.construct sampleRate mem).currentReverbType = REVERB_ROOM) ∧
    ((StudioReverbDSP.construct sampleRate mem).getParameterValue 0 = 0 ∧
     (StudioReverbDSP.construct sampleRate mem).getParameterValue 1 = 100 ∧
     (StudioReverbDSP.construct sampleRate mem).getParameterValue 2 = 75 ∧
     (StudioReverbDSP.construct sampleRate mem).getParameterValue 3 = 75 ∧
     (StudioReverbDSP.construct sampleRate mem).getParameterValue 4 = 50 ∧
     (StudioReverbDSP.construct sampleRate mem).getParameterValue 5 = 100 ∧
     (StudioReverbDSP.construct sampleRate mem).getParameterValue 6 = 10 ∧
     (StudioReverbDSP.construct sampleRate mem).getParameterValue 7 = 2 ∧
     (StudioReverbDSP.construct sampleRate mem).getParameterValue 8 = 70 ∧
     (StudioReverbDSP.construct sampleRate mem).getParameterValue 9 = 50 ∧
     (StudioReverbDSP.construct sampleRate mem).getParameterValue 10 = 20 ∧
     (StudioReverbDSP.construct sampleRate mem).getParameterValue 11 = 20 ∧
     (StudioReverbDSP.construct sampleRate mem).getParameterValue 12 = 16000) := by
  obtain ⟨s0, e, p0, p1, p2, p3, p4, p5, p6, p7, p8, p9, p10, p11, p12⟩ :=
    construct_eq_reapply sampleRate mem
  obtain ⟨c1, c2, c3, c4⟩ := reapplyParameters_coherent s0
  have hp := reapplyParameters_params s0
  have hz : static_cast_int (f32add (0 : ℚ) 0.5) = REVERB_ROOM := by
    rw [f32add_0, static_cast_int_nonneg _ (by norm_num), Int.floor_eq_iff]
    norm_num [REVERB_ROOM]
  refine ⟨reachable_coherent fv s h, ?_, ?_⟩
  · rw [e, c1, c2, c3, c4, hp, p0, p1, p2, p3, hz]
    norm_num
  · simp only [StudioReverbDSP.getParameterValue, e, hp]
    simp only [paramReverbType, paramDry, paramEarly, paramLate, paramSize, paramWidth,
      paramPredelay, paramDecay, paramDiffuse, paramDamping, paramModulation, paramLowCut,
      paramHighCut] at p0 p1 p2 p3 p4 p5 p6 p7 p8 p9 p10 p11 p12
    simp [paramCount, p0, p1, p2, p3, p4, p5, p6, p7, p8, p9, p10, p11, p12]

/-- C23 at a concrete reachable state: the engine constructed at 48000 Hz over the
sample memory, then written with dry = 40, then muted; its dry gain is 2/5. -/
theorem derived_state_agrees_with_store_witness :
    Reachable demoFreeverb
      ((StudioReverbDSP.construct 48000 demoDSP).setParameterValue paramDry 40).mute ∧
    ((StudioReverbDSP.construct 48000 demoDSP).setParameterValue paramDry 40).mute.dryLevel =
      2 / 5 := by
  have hr : Reachable demoFreeverb
      ((StudioReverbDSP.construct 48000 demoDSP).setParameterValue paramDry 40).mute :=
    Reachable.mute _ (Reachable.setParameterValue _ _ _ (Reachable.construct 48000 demoDSP))
  refine ⟨hr, ?_⟩
  rw [(derived_state_agrees_with_store demoFreeverb _ hr 48000 demoDSP).1.1]
  simp only [StudioReverbDSP.mute, StudioReverbDSP.muteAll, setParameterValue_dry]
  norm_num

/-! ## The late gain outside Room mode -/

theorem hallLoop_withLate (n : Nat) (s : StudioReverbDSP) (x : ℚ) (p : Nat → ℚ) :
    forLoop n StudioReverbDSP.hallMixStep { s with lateLevel := x, params := p } =
      { forLoop n StudioReverbDSP.hallMixStep s with lateLevel := x, params := p } := by
  induction n with
  | zero => rw [forLoop_zero, forLoop_zero]
  | succ n ih =>
    rw [forLoop_succ, forLoop_succ, ih]
    rfl

theorem dispatch_withLate (fv : Freeverb) (s : StudioReverbDSP) (inputs : Stereo)
    (n offset : Nat) (x : ℚ) (p : Nat → ℚ) :
    StudioReverbDSP.dispatch fv
        (StudioReverbDSP.clearBuffers { s with lateLevel := x, params := p } n) inputs n offset =
      { StudioReverbDSP.dispatch fv (StudioReverbDSP.clearBuffers s n) inputs n offset with
        lateLevel := x, params := p } := by
  by_cases r0 : s.currentReverbType = REVERB_ROOM
  · rw [dispatch_room fv s inputs n offset r0,
      dispatch_room fv { s with lateLevel := x, params := p } inputs n offset r0]
  by_cases r1 : s.currentReverbType = REVERB_HALL
  · rw [dispatch_hall_loop fv s inputs n offset r1,
      dispatch_hall_loop fv { s with lateLevel := x, params := p } inputs n offset r1]
    exact hallLoop_withLate n
      { s with
        hallEarly := s.hallEarly ++ [procCall inputs offset n]
        hallLate := s.hallLate ++ [procCall inputs offset n]
        early_out_buffer :=
          ![fun i => if i < n then procOut fv.earlyref_f s.hallEarly inputs offset n 0 i
                     else s.early_out_buffer 0 i,
            fun i => if i < n then procOut fv.earlyref_f s.hallEarly inputs offset n 1 i
                     else s.early_out_buffer 1 i]
        late_out_buffer :=
          ![fun i => if i < n then procOut fv.progenitor2_f s.hallLate inputs offset n 0 i
                     else s.late_out_buffer 0 i,
            fun i => if i < n then procOut fv.progenitor2_f s.hallLate inputs offset n 1 i
                     else s.late_out_buffer 1 i] } x p
  by_cases r2 : s.currentReverbType = REVERB_PLATE
  · rw [dispatch_plate fv s inputs n offset r2,
      dispatch_plate fv { s with lateLevel := x, params := p } inputs n offset r2]
  by_cases r3 : s.currentReverbType = REVERB_EARLY_REFLECTIONS
  · rw [dispatch_early fv s inputs n offset r3,
      dispatch_early fv { s with lateLevel := x, params := p } inputs n offset r3]
  · rw [dispatch_other fv s inputs n offset r0 r1 r2 r3,
      dispatch_other fv { s with lateLevel := x, params := p } inputs n offset r0 r1 r2 r3]
    rfl

theorem dispatch_late_zero (fv : Freeverb) (s : StudioReverbDSP) (inputs : Stereo)
    (n offset : Nat)
    (h : s.currentReverbType ≠ REVERB_ROOM) (c : Fin 2) (i : Nat) (hi : i < n) :
    (StudioReverbDSP.dispatch fv (StudioReverbDSP.clearBuffers s n) inputs n offset
        ).late_out_buffer c i = 0 := by
  by_cases r1 : s.currentReverbType = REVERB_HALL
  · exact (dispatch_hall_buffers fv s inputs n offset r1 c i hi).2
  by_cases r2 : s.currentReverbType = REVERB_PLATE
  · rw [dispatch_plate fv s inputs n offset r2]
    fin_cases c <;> simp [memset0, hi]
  by_cases r3 : s.currentReverbType = REVERB_EARLY_REFLECTIONS
  · rw [dispatch_early fv s inputs n offset r3]
    fin_cases c <;> simp [memset0, hi]
  · rw [dispatch_other fv s inputs n offset h r1 r2 r3]
    fin_cases c <;> simp [StudioReverbDSP.clearBuffers, memset0, hi]

theorem chunk_withLate (fv : Freeverb) (inputs : Stereo) (n offset : Nat)
    (s : StudioReverbDSP) (o : Stereo) (x : ℚ) (p : Nat → ℚ)
    (h : s.currentReverbType ≠ REVERB_ROOM) :
    StudioReverbDSP.chunk fv inputs n offset ({ s with lateLevel := x, params := p }, o) =
      ({ (StudioReverbDSP.chunk fv inputs n offset (s, o)).1 with lateLevel := x, params := p },
        (StudioReverbDSP.chunk fv inputs n offset (s, o)).2) := by
  unfold StudioReverbDSP.chunk
  simp only [dispatch_withLate]
  congr 1
  apply forLoop_congr
  intro i hi out
  funext c j
  rw [mixStep_apply, mixStep_apply]
  simp only [dispatch_late_zero fv s inputs n offset h c i hi, mul_zero]

theorem foldl_chunk_withLate (fv : Freeverb) (inputs : Stereo) (l : List (Nat × Nat))
    (x : ℚ) (p : Nat → ℚ) :
    ∀ (s : StudioReverbDSP) (o : Stereo), s.currentReverbType ≠ REVERB_ROOM →
    l.foldl (fun st ch => StudioReverbDSP.chunk fv inputs ch.2 ch.1 st)
        ({ s with lateLevel := x, params := p }, o) =
      ({ (l.foldl (fun st ch => StudioReverbDSP.chunk fv inputs ch.2 ch.1 st) (s, o)).1 with
          lateLevel := x, params := p },
        (l.foldl (fun st ch => StudioReverbDSP.chunk fv inputs ch.2 ch.1 st) (s, o)).2) := by
  induction l with
  | nil => intro s o _; rfl
  | cons ch l ih =>
    intro s o h
    rw [List.foldl_cons, List.foldl_cons, chunk_withLate fv inputs ch.2 ch.1 s o x p h]
    have ht : (StudioReverbDSP.chunk fv inputs ch.2 ch.1 (s, o)).1.currentReverbType ≠
        REVERB_ROOM := by
      unfold StudioReverbDSP.chunk
      rw [(dispatch_levels fv s inputs ch.2 ch.1).2.2.2]
      exact h
    exact ih _ _ ht

theorem run_withLate (fv : Freeverb) (s : StudioReverbDSP) (inputs outputs : Stereo)
    (frames : Nat) (hf : frames < U32) (x : ℚ) (p : Nat → ℚ)
    (h : s.currentReverbType ≠ REVERB_ROOM) :
    (StudioReverbDSP.run fv { s with lateLevel := x, params := p } inputs outputs frames hf).2 =
      (StudioReverbDSP.run fv s inputs outputs frames hf).2 := by
  rw [run_eq_foldl, run_eq_foldl, foldl_chunk_withLate fv inputs _ x p s outputs h]

theorem run_hall_output (fv : Freeverb) (s : StudioReverbDSP) (inputs outputs : Stereo)
    (n : Nat) (hf : n < U32) (c : Fin 2) (j : Nat) (hj : j < n)
    (hr : s.currentReverbType = REVERB_HALL) :
    (StudioReverbDSP.run fv s inputs outputs n hf).2 c j =
      s.dryLevel * inputs c j +
      s.earlyLevel *
        (0.3 * procOut fv.earlyref_f (headState fv s inputs outputs n hf (j / 256)).1.hallEarly
            inputs (256 * (j / 256)) (min 256 (n - 256 * (j / 256))) c (j % 256) +
         0.7 * procOut fv.progenitor2_f
            (headState fv s inputs outputs n hf (j / 256)).1.hallLate
            inputs (256 * (j / 256)) (min 256 (n - 256 * (j / 256))) c (j % 256)) := by
  rw [run_eq_headState,
    headState_outputs fv s inputs outputs n hf c j hj _ (le_refl _) (by omega)]
  have ht := (headState_levels fv s inputs outputs n hf (j / 256)).2.2.2
  have hlt : j % 256 < min 256 (n - 256 * (j / 256)) := by omega
  obtain ⟨b1, b2⟩ := dispatch_hall_buffers fv _ inputs _ (256 * (j / 256)) (ht.trans hr) c
    (j % 256) hlt
  rw [b1, b2]
  ring

/-- C24. When the active variant is Hall, Plate or EarlyReflections, the output of `run`
does not depend on the late gain: two engines in the same state except for the value
written to the late parameter produce identical outputs for the same input and output
block, and so does the engine with any other `lateLevel`. In Hall mode each output
sample `j < n` equals `dryLevel * input + earlyLevel * (0.3 * e + 0.7 * l)` with `e`
and `l` the Hall-Early and Hall-Late output samples of the chunk. -/
theorem late_gain_irrelevant (fv : Freeverb) (s : StudioReverbDSP) (inputs outputs : Stereo)
    (n : Nat) (hf : n < U32) (v1 v2 : ℚ)
    (h : s.currentReverbType = REVERB_HALL ∨ s.currentReverbType = REVERB_PLATE ∨
      s.currentReverbType = REVERB_EARLY_REFLECTIONS) :
    (StudioReverbDSP.run fv (s.setParameterValue paramLate v1) inputs outputs n hf).2 =
      (StudioReverbDSP.run fv (s.setParameterValue paramLate v2) inputs outputs n hf).2 ∧
    (∀ x : ℚ, (StudioReverbDSP.run fv { s with lateLevel := x } inputs outputs n hf).2 =
      (StudioReverbDSP.run fv s inputs outputs n hf).2) ∧
    (s.currentReverbType = REVERB_HALL → ∀ (c : Fin 2) (j : Nat), j < n →
      (StudioReverbDSP.run fv s inputs outputs n hf).2 c j =
        s.dryLevel * inputs c j +
        s.earlyLevel *
          (0.3 * fv.earlyref_f (headState fv s inputs outputs n hf (j / 256)).1.hallEarly
              (slice (inputs 0) (256 * (j / 256)) (min 256 (n - 256 * (j / 256))))
              (slice (inputs 1) (256 * (j / 256)) (min 256 (n - 256 * (j / 256))))
              (zeros (min 256 (n - 256 * (j / 256)))) (zeros (min 256 (n - 256 * (j / 256))))
              (min 256 (n - 256 * (j / 256))) c (j % 256) +
           0.7 * fv.progenitor2_f (headState fv s inputs outputs n hf (j / 256)).1.hallLate
              (slice (inputs 0) (256 * (j / 256)) (min 256 (n - 256 * (j / 256))))
              (slice (inputs 1) (256 * (j / 256)) (min 256 (n - 256 * (j / 256))))
              (zeros (min 256 (n - 256 * (j / 256)))) (zeros (min 256 (n - 256 * (j / 256))))
              (min 256 (n - 256 * (j / 256))) c (j % 256))) := by
  have hnr : s.currentReverbType ≠ REVERB_ROOM := by
    rcases h with h | h | h <;> rw [h] <;> decide
  refine ⟨?_, ?_, ?_⟩
  · rw [setParameterValue_late, setParameterValue_late]
    exact (run_withLate fv s inputs outputs n hf _ _ hnr).trans
      (run_withLate fv s inputs outputs n hf _ _ hnr).symm
  · intro x
    exact run_withLate fv s inputs outputs n hf x s.params hnr
  · intro hh c j hj
    exact run_hall_output fv s inputs outputs n hf c j hj hh

/-- C24 at a concrete input: the sample engine in Plate mode writes the same 300
output frames whether the late parameter was written with 0 or with 100. -/
theorem late_gain_irrelevant_witness :
    (300 < U32 ∧
      ({ demoDSP with currentReverbType := REVERB_PLATE } : StudioReverbDSP).currentReverbType =
        REVERB_PLATE) ∧
    (StudioReverbDSP.run demoFreeverb
      (StudioReverbDSP.setParameterValue { demoDSP with currentReverbType := REVERB_PLATE }
        paramLate 0) demoInputs demoOutputs 300 (by decide)).2 =
    (StudioReverbDSP.run demoFreeverb
      (StudioReverbDSP.setParameterValue { demoDSP with currentReverbType := REVERB_PLATE }
        paramLate 100) demoInputs demoOutputs 300 (by decide)).2 :=
  ⟨⟨by decide, rfl⟩,
    (late_gain_irrelevant demoFreeverb { demoDSP with currentReverbType := REVERB_PLATE }
      demoInputs demoOutputs 300 (by decide) 0 100 (Or.inr (Or.inl rfl))).1⟩

/-! ## A type value outside the four variants -/

theorem clearBuffers_same (s : StudioReverbDSP) (n : Nat) :
    SameButScratch (StudioReverbDSP.clearBuffers s n) s := by
  simp [SameButScratch, StudioReverbDSP.clearBuffers]

theorem foldl_chunk_other (fv : Freeverb) (inputs : Stereo) (l : List (Nat × Nat)) :
    ∀ (st : StudioReverbDSP × Stereo),
    st.1.currentReverbType ≠ REVERB_ROOM → st.1.currentReverbType ≠ REVERB_HALL →
    st.1.currentReverbType ≠ REVERB_PLATE →
    st.1.currentReverbType ≠ REVERB_EARLY_REFLECTIONS →
    SameButScratch
      (l.foldl (fun st ch => StudioReverbDSP.chunk fv inputs ch.2 ch.1 st) st).1 st.1 := by
  induction l with
  | nil => intro st _ _ _ _; exact SameButScratch.refl _
  | cons ch l ih =>
    intro st h0 h1 h2 h3
    rw [List.foldl_cons]
    have e : (StudioReverbDSP.chunk fv inputs ch.2 ch.1 st).1 =
        StudioReverbDSP.clearBuffers st.1 ch.2 := by
      unfold StudioReverbDSP.chunk
      exact dispatch_other fv st.1 inputs ch.2 ch.1 h0 h1 h2 h3
    have hs := clearBuffers_same st.1 ch.2
    have ht : (StudioReverbDSP.chunk fv inputs ch.2 ch.1 st).1.currentReverbType =
        st.1.currentReverbType := by rw [e]; rfl
    refine SameButScratch.trans (ih _ (ht ▸ h0) (ht ▸ h1) (ht ▸ h2) (ht ▸ h3)) ?_
    rw [e]
    exact hs

theorem run_other_same (fv : Freeverb) (s : StudioReverbDSP) (inputs outputs : Stereo)
    (n : Nat) (hf : n < U32)
    (h0 : s.currentReverbType ≠ REVERB_ROOM) (h1 : s.currentReverbType ≠ REVERB_HALL)
    (h2 : s.currentReverbType ≠ REVERB_PLATE)
    (h3 : s.currentReverbType ≠ REVERB_EARLY_REFLECTIONS) :
    SameButScratch (StudioReverbDSP.run fv s inputs outputs n hf).1 s := by
  rw [run_eq_foldl]
  exact foldl_chunk_other fv inputs _ (s, outputs) h0 h1 h2 h3

theorem dispatch_other_zero (fv : Freeverb) (s : StudioReverbDSP) (inputs : Stereo)
    (n offset : Nat)
    (h0 : s.currentReverbType ≠ REVERB_ROOM) (h1 : s.currentReverbType ≠ REVERB_HALL)
    (h2 : s.currentReverbType ≠ REVERB_PLATE)
    (h3 : s.currentReverbType ≠ REVERB_EARLY_REFLECTIONS) (c : Fin 2) (i : Nat) (hi : i < n) :
    (StudioReverbDSP.dispatch fv (StudioReverbDSP.clearBuffers s n) inputs n offset
        ).early_out_buffer c i = 0 ∧
    (StudioReverbDSP.dispatch fv (StudioReverbDSP.clearBuffers s n) inputs n offset
        ).late_out_buffer c i = 0 := by
  rw [dispatch_other fv s inputs n offset h0 h1 h2 h3]
  fin_cases c <;> simp [StudioReverbDSP.clearBuffers, memset0, hi]

theorem run_other_output (fv : Freeverb) (s : StudioReverbDSP) (inputs outputs : Stereo)
    (n : Nat) (hf : n < U32) (c : Fin 2) (j : Nat) (hj : j < n)
    (h0 : s.currentReverbType ≠ REVERB_ROOM) (h1 : s.currentReverbType ≠ REVERB_HALL)
    (h2 : s.currentReverbType ≠ REVERB_PLATE)
    (h3 : s.currentReverbType ≠ REVERB_EARLY_REFLECTIONS) :
    (StudioReverbDSP.run fv s inputs outputs n hf).2 c j = s.dryLevel * inputs c j := by
  rw [run_eq_headState,
    headState_outputs fv s inputs outputs n hf c j hj _ (le_refl _) (by omega)]
  have ht := (headState_levels fv s inputs outputs n hf (j / 256)).2.2.2
  have hlt : j % 256 < min 256 (n - 256 * (j / 256)) := by omega
  obtain ⟨b1, b2⟩ := dispatch_other_zero fv _ inputs _ (256 * (j / 256)) (ht ▸ h0) (ht ▸ h1)
    (ht ▸ h2) (ht ▸ h3) c (j % 256) hlt
  rw [b1, b2]
  ring

theorem static_cast_int_room_below (w : ℚ) (hw : IsF32 w) (h1 : -1.5 < w) (h2 : w < 0) :
    static_cast_int (f32add w 0.5) = REVERB_ROOM := by
  unfold REVERB_ROOM
  have e1 : (-1.5 : ℚ) = -3 / 2 := by norm_num
  have e2 : (0.5 : ℚ) = 1 / 2 := by norm_num
  rw [e1] at h1
  unfold f32add
  rw [e2]
  by_cases hc : w ≤ -1
  · have habs : |w| = -w := abs_of_neg h2
    have hu : f32ulp w = (2 : ℚ) ^ ((0 : ℤ) - 23) :=
      f32ulp_eq w 0 (by norm_num) (by rw [habs]; norm_num; linarith)
        (by rw [habs]; norm_num; linarith)
    have hg : w = ((roundHalfEven (w / f32ulp w) : ℤ) : ℚ) * (2 : ℚ) ^ ((0 : ℤ) - 23) := by
      have := hw
      unfold IsF32 f32round at this
      rw [hu] at this ⊢
      exact this.symm
    have hx : |w + 1 / 2| = -(w + 1 / 2) := abs_of_neg (by linarith)
    have hr : f32round (w + 1 / 2) = w + 1 / 2 := by
      apply f32round_grid _ (-1) (2 * roundHalfEven (w / f32ulp w) + 8388608) (by norm_num)
      · rw [hx]; norm_num; linarith
      · rw [hx]; norm_num; linarith
      · generalize roundHalfEven (w / f32ulp w) = m at hg
        have h23 : (2 : ℚ) ^ ((0 : ℤ) - 23) = 1 / 8388608 := by norm_num
        have h24 : (2 : ℚ) ^ ((-1 : ℤ) - 23) = 1 / 16777216 := by norm_num
        rw [h23] at hg
        rw [h24]
        push_cast
        linarith
    rw [hr]
    unfold static_cast_int
    rw [if_neg (by linarith), Int.ceil_eq_iff]
    constructor
    · push_cast; linarith
    · push_cast; linarith
  · push_neg at hc
    have hlt : |w + 1 / 2| < 1 := by
      rw [abs_lt]
      constructor <;> linarith
    have herr := f32round_error (w + 1 / 2)
    have hul := f32ulp_le_of_lt_one (w + 1 / 2) hlt
    have hsmall : (2 : ℚ) ^ (-23 : ℤ) ≤ 1 / 4 := by norm_num
    rw [abs_le] at herr
    apply static_cast_int_small
    · linarith [herr.1]
    · linarith [herr.2]

theorem static_cast_int_4 : static_cast_int (f32add (4 : ℚ) 0.5) = 4 := by
  rw [f32add_4, static_cast_int_nonneg _ (by norm_num), Int.floor_eq_iff]
  norm_num

theorem static_cast_int_7 : static_cast_int (f32add (7 : ℚ) 0.5) = 7 := by
  rw [f32add_7, static_cast_int_nonneg _ (by norm_num), Int.floor_eq_iff]
  norm_num

/-- C25. If the type parameter is written with a value `v` whose `trunc(v + 0.5)`
(of the `float` sum) is none of 0, 1, 2, 3 (for example `v = 4` or `v = 7`), then the
active variant is none of
the four; `run` leaves the call history of each of the six processors unchanged (no
process call is made); at the head of every chunk, after the buffers are cleared and
the switch is passed, both scratch buffers hold zero below the chunk length; and every
output sample `j < n` equals `dryLevel * input sample`. A `float` value `w` in
`(-1.5, 0)`, outside the documented range, selects Room. -/
theorem invalid_type_passes_dry_only (fv : Freeverb) (s : StudioReverbDSP) (v : ℚ)
    (inputs outputs : Stereo) (n : Nat) (hf : n < U32)
    (h0 : static_cast_int (f32add v 0.5) ≠ REVERB_ROOM)
    (h1 : static_cast_int (f32add v 0.5) ≠ REVERB_HALL)
    (h2 : static_cast_int (f32add v 0.5) ≠ REVERB_PLATE)
    (h3 : static_cast_int (f32add v 0.5) ≠ REVERB_EARLY_REFLECTIONS) :
    ((s.setParameterValue paramReverbType v).currentReverbType ≠ REVERB_ROOM ∧
     (s.setParameterValue paramReverbType v).currentReverbType ≠ REVERB_HALL ∧
     (s.setParameterValue paramReverbType v).currentReverbType ≠ REVERB_PLATE ∧
     (s.setParameterValue paramReverbType v).currentReverbType ≠ REVERB_EARLY_REFLECTIONS) ∧
    ((StudioReverbDSP.run fv (s.setParameterValue paramReverbType v) inputs outputs n hf
        ).1.roomEarly = (s.setParameterValue paramReverbType v).roomEarly ∧
     (StudioReverbDSP.run fv (s.setParameterValue paramReverbType v) inputs outputs n hf
        ).1.roomLate = (s.setParameterValue paramReverbType v).roomLate ∧
     (StudioReverbDSP.run fv (s.setParameterValue paramReverbType v) inputs outputs n hf
        ).1.hallEarly = (s.setParameterValue paramReverbType v).hallEarly ∧
     (StudioReverbDSP.run fv (s.setParameterValue paramReverbType v) inputs outputs n hf
        ).1.hallLate = (s.setParameterValue paramReverbType v).hallLate ∧
     (StudioReverbDSP.run fv (s.setParameterValue paramReverbType v) inputs outputs n hf
        ).1.plateReverb = (s.setParameterValue paramReverbType v).plateReverb ∧
     (StudioReverbDSP.run fv (s.setParameterValue paramReverbType v) inputs outputs n hf
        ).1.earlyOnly = (s.setParameterValue paramReverbType v).earlyOnly) ∧
    (∀ (k bf offset : Nat) (c : Fin 2) (i : Nat), i < bf →
      (StudioReverbDSP.dispatch fv
        (StudioReverbDSP.clearBuffers
          (headState fv (s.setParameterValue paramReverbType v) inputs outputs n hf k).1 bf)
        inputs bf offset).early_out_buffer c i = 0 ∧
      (StudioReverbDSP.dispatch fv
        (StudioReverbDSP.clearBuffers
          (headState fv (s.setParameterValue paramReverbType v) inputs outputs n hf k).1 bf)
        inputs bf offset).late_out_buffer c i = 0) ∧
    (∀ (c : Fin 2) (j : Nat), j < n →
      (StudioReverbDSP.run fv (s.setParameterValue paramReverbType v) inputs outputs n hf).2 c j =
        (s.setParameterValue paramReverbType v).dryLevel * inputs c j) ∧
    (static_cast_int (f32add (4 : ℚ) 0.5) = 4 ∧ static_cast_int (f32add (7 : ℚ) 0.5) = 7) ∧
    (∀ w : ℚ, IsF32 w → -1.5 < w → w < 0 →
      (s.setParameterValue paramReverbType w).currentReverbType = REVERB_ROOM) := by
  have ht : (s.setParameterValue paramReverbType v).currentReverbType =
      static_cast_int (f32add v 0.5) := by
    rw [setParameterValue_currentReverbType, if_pos rfl]
  have t0 := ht ▸ h0
  have t1 := ht ▸ h1
  have t2 := ht ▸ h2
  have t3 := ht ▸ h3
  obtain ⟨-, -, -, -, -, -, l1, l2, l3, l4, l5, l6⟩ :=
    run_other_same fv (s.setParameterValue paramReverbType v) inputs outputs n hf t0 t1 t2 t3
  refine ⟨⟨t0, t1, t2, t3⟩, ⟨l1, l2, l3, l4, l5, l6⟩, ?_, ?_,
    ⟨static_cast_int_4, static_cast_int_7⟩, ?_⟩
  · intro k bf offset c i hi
    have hk := (headState_levels fv (s.setParameterValue paramReverbType v) inputs outputs n hf
      k).2.2.2
    exact dispatch_other_zero fv _ inputs bf offset (hk ▸ t0) (hk ▸ t1) (hk ▸ t2) (hk ▸ t3)
      c i hi
  · intro c j hj
    exact run_other_output fv _ inputs outputs n hf c j hj t0 t1 t2 t3
  · intro w hw hw1 hw2
    rw [setParameterValue_currentReverbType, if_pos rfl]
    exact static_cast_int_room_below w hw hw1 hw2

/-- C25 at a concrete input: after a type write of 7 on the sample engine, frame 260 of
a 300-frame run on the right channel is the input sample `-261` times the dry gain 1,
and Room-Early has received the `mute` of the type write and nothing else. -/
theorem invalid_type_passes_dry_only_witness :
    (300 < U32 ∧ static_cast_int (f32add (7 : ℚ) 0.5) ≠ REVERB_ROOM ∧
      static_cast_int (f32add (7 : ℚ) 0.5) ≠ REVERB_HALL ∧
      static_cast_int (f32add (7 : ℚ) 0.5) ≠ REVERB_PLATE ∧
      static_cast_int (f32add (7 : ℚ) 0.5) ≠ REVERB_EARLY_REFLECTIONS) ∧
    (StudioReverbDSP.run demoFreeverb (demoDSP.setParameterValue paramReverbType 7)
      demoInputs demoOutputs 300 (by decide)).2 1 260 = -261 ∧
    (StudioReverbDSP.run demoFreeverb (demoDSP.setParameterValue paramReverbType 7)
      demoInputs demoOutputs 300 (by decide)).1.roomEarly = [Call.mute] := by
  have e0 : static_cast_int (f32add (7 : ℚ) 0.5) ≠ REVERB_ROOM := by
    rw [static_cast_int_7]; decide
  have e1 : static_cast_int (f32add (7 : ℚ) 0.5) ≠ REVERB_HALL := by
    rw [static_cast_int_7]; decide
  have e2 : static_cast_int (f32add (7 : ℚ) 0.5) ≠ REVERB_PLATE := by
    rw [static_cast_int_7]; decide
  have e3 : static_cast_int (f32add (7 : ℚ) 0.5) ≠ REVERB_EARLY_REFLECTIONS := by
    rw [static_cast_int_7]; decide
  obtain ⟨-, ⟨l1, -⟩, -, ho, -⟩ := invalid_type_passes_dry_only demoFreeverb demoDSP 7
    demoInputs demoOutputs 300 (by decide) e0 e1 e2 e3
  refine ⟨⟨by decide, e0, e1, e2, e3⟩, ?_, ?_⟩
  · rw [ho 1 260 (by decide), setParameterValue_type]
    simp [StudioReverbDSP.muteAll, demoDSP, demoInputs]
    norm_num
  · rw [l1, setParameterValue_type]
    simp [StudioReverbDSP.muteAll, demoDSP]

/-! ## Composition at block boundaries -/

theorem dispatch_shift (fv : Freeverb) (s : StudioReverbDSP) (inputs : Stereo)
    (d n offset : Nat) :
    StudioReverbDSP.dispatch fv s (shift inputs d) n offset =
      StudioReverbDSP.dispatch fv s inputs n (d + offset) := by
  simp only [StudioReverbDSP.dispatch, StudioReverbDSP.processRoomReverb,
    StudioReverbDSP.processHallReverb, StudioReverbDSP.processPlateReverb,
    StudioReverbDSP.processEarlyReflections, shift, Nat.add_assoc]

theorem chunk_shift (fv : Freeverb) (inputs : Stereo) (d bf offset : Nat)
    (t : StudioReverbDSP) (o : Stereo) (hno : d + offset + bf ≤ U32) :
    (StudioReverbDSP.chunk fv inputs bf (d + offset) (t, o)).1 =
      (StudioReverbDSP.chunk fv (shift inputs d) bf offset (t, shift o d)).1 ∧
    shift (StudioReverbDSP.chunk fv inputs bf (d + offset) (t, o)).2 d =
      (StudioReverbDSP.chunk fv (shift inputs d) bf offset (t, shift o d)).2 ∧
    ∀ (c : Fin 2) (j : Nat), j < d →
      (StudioReverbDSP.chunk fv inputs bf (d + offset) (t, o)).2 c j = o c j := by
  unfold StudioReverbDSP.chunk
  simp only [dispatch_shift]
  refine ⟨trivial, ?_, ?_⟩
  · funext c i
    simp only [shift]
    rw [mixLoop_apply _ _ _ _ hno, mixLoop_apply _ _ _ _ (by omega)]
    by_cases hc : offset ≤ i ∧ i < offset + bf
    · have hc2 : d + offset ≤ d + i ∧ d + i < d + offset + bf := by omega
      have e : d + i - (d + offset) = i - offset := by omega
      rw [if_pos hc, if_pos hc2, e]
      rfl
    · have hc2 : ¬ (d + offset ≤ d + i ∧ d + i < d + offset + bf) := by omega
      rw [if_neg hc, if_neg hc2]
      rfl
  · intro c j hj
    rw [mixLoop_apply _ _ _ _ hno]
    have hc2 : ¬ (d + offset ≤ j ∧ j < d + offset + bf) := by omega
    rw [if_neg hc2]

theorem foldl_chunk_shift (fv : Freeverb) (inputs : Stereo) (d : Nat)
    (l : List (Nat × Nat)) :
    (∀ ch ∈ l, d + ch.1 + ch.2 ≤ U32) →
    ∀ (t : StudioReverbDSP) (o : Stereo),
    ((l.map (fun ch => (d + ch.1, ch.2))).foldl
        (fun st ch => StudioReverbDSP.chunk fv inputs ch.2 ch.1 st) (t, o)).1 =
      (l.foldl (fun st ch => StudioReverbDSP.chunk fv (shift inputs d) ch.2 ch.1 st)
        (t, shift o d)).1 ∧
    shift ((l.map (fun ch => (d + ch.1, ch.2))).foldl
        (fun st ch => StudioReverbDSP.chunk fv inputs ch.2 ch.1 st) (t, o)).2 d =
      (l.foldl (fun st ch => StudioReverbDSP.chunk fv (shift inputs d) ch.2 ch.1 st)
        (t, shift o d)).2 ∧
    ∀ (c : Fin 2) (j : Nat), j < d →
      ((l.map (fun ch => (d + ch.1, ch.2))).foldl
        (fun st ch => StudioReverbDSP.chunk fv inputs ch.2 ch.1 st) (t, o)).2 c j = o c j := by
  induction l with
  | nil =>
    intro _ t o
    exact ⟨rfl, rfl, fun _ _ _ => rfl⟩
  | cons ch l ih =>
    intro hall t o
    obtain ⟨c1, c2, c3⟩ := chunk_shift fv inputs d ch.2 ch.1 t o
      (hall ch (List.mem_cons_self _ _))
    have ih2 := ih (fun x hx => hall x (List.mem_cons_of_mem _ hx))
      (StudioReverbDSP.chunk fv inputs ch.2 (d + ch.1) (t, o)).1
      (StudioReverbDSP.chunk fv inputs ch.2 (d + ch.1) (t, o)).2
    simp only [List.map_cons, List.foldl_cons]
    have e : StudioReverbDSP.chunk fv (shift inputs d) ch.2 ch.1 (t, shift o d) =
        ((StudioReverbDSP.chunk fv inputs ch.2 (d + ch.1) (t, o)).1,
          shift (StudioReverbDSP.chunk fv inputs ch.2 (d + ch.1) (t, o)).2 d) := by
      rw [c1, c2]
    rw [e]
    obtain ⟨i1, i2, i3⟩ := ih2
    refine ⟨i1, i2, ?_⟩
    intro c j hj
    rw [i3 c j hj, c3 c j hj]

theorem chunks_split (k m : Nat) (hf : 256 * k + m < U32) (hk : 256 * k < U32)
    (hm : m < U32) :
    chunks (256 * k + m) hf =
      chunks (256 * k) hk ++ (chunks m hm).map (fun ch => (256 * k + ch.1, ch.2)) := by
  rw [chunks_eq_map, chunks_eq_map, chunks_eq_map]
  have e1 : (256 * k + m + 255) / 256 = k + (m + 255) / 256 := by omega
  have e2 : (256 * k + 255) / 256 = k := by omega
  rw [e1, e2, List.range_add, List.map_append, List.map_map, List.map_map]
  congr 1
  · apply List.map_congr_left
    intro i hi
    simp only [List.mem_range] at hi
    simp only [Prod.mk.injEq, true_and]
    omega
  · apply List.map_congr_left
    intro i _
    simp only [Function.comp, Prod.mk.injEq]
    constructor
    · ring
    · omega

/-- C26. Chunked processing composes at block-size boundaries: for every `k` and `m`,
`run` on `256 * k + m` frames leaves the same engine state (in particular the same call
history, hence the same sequence of process calls with the same input slices and block
lengths, on each of the six processors) and the same output samples as `run` on the
first `256 * k` frames followed by `run` on the remaining `m` frames of the same
buffers advanced by `256 * k`. -/
theorem run_composes_at_block_boundary (fv : Freeverb) (s : StudioReverbDSP)
    (inputs outputs : Stereo) (k m : Nat) (hf : 256 * k + m < U32) (hk : 256 * k < U32)
    (hm : m < U32) :
    (StudioReverbDSP.run fv s inputs outputs (256 * k + m) hf).1 =
      (StudioReverbDSP.run fv (StudioReverbDSP.run fv s inputs outputs (256 * k) hk).1
        (shift inputs (256 * k))
        (shift (StudioReverbDSP.run fv s inputs outputs (256 * k) hk).2 (256 * k)) m hm).1 ∧
    (∀ (c : Fin 2) (j : Nat), j < 256 * k →
      (StudioReverbDSP.run fv s inputs outputs (256 * k + m) hf).2 c j =
        (StudioReverbDSP.run fv s inputs outputs (256 * k) hk).2 c j) ∧
    (∀ (c : Fin 2) (i : Nat),
      (StudioReverbDSP.run fv s inputs outputs (256 * k + m) hf).2 c (256 * k + i) =
        (StudioReverbDSP.run fv (StudioReverbDSP.run fv s inputs outputs (256 * k) hk).1
          (shift inputs (256 * k))
          (shift (StudioReverbDSP.run fv s inputs outputs (256 * k) hk).2 (256 * k)) m hm
          ).2 c i) := by
  have hall : ∀ ch ∈ chunks m hm, 256 * k + ch.1 + ch.2 ≤ U32 := by
    intro ch hch
    rw [chunks_eq_map] at hch
    simp only [List.mem_map, List.mem_range] at hch
    obtain ⟨i, hi, rfl⟩ := hch
    simp only
    unfold U32 at *
    omega
  obtain ⟨f1, f2, f3⟩ := foldl_chunk_shift fv inputs (256 * k) (chunks m hm) hall
    (StudioReverbDSP.run fv s inputs outputs (256 * k) hk).1
    (StudioReverbDSP.run fv s inputs outputs (256 * k) hk).2
  have e : StudioReverbDSP.run fv s inputs outputs (256 * k + m) hf =
      ((chunks m hm).map (fun ch => (256 * k + ch.1, ch.2))).foldl
        (fun st ch => StudioReverbDSP.chunk fv inputs ch.2 ch.1 st)
        ((StudioReverbDSP.run fv s inputs outputs (256 * k) hk).1,
          (StudioReverbDSP.run fv s inputs outputs (256 * k) hk).2) := by
    rw [run_eq_foldl, chunks_split k m hf hk hm, List.foldl_append, ← run_eq_foldl]
  rw [e, run_eq_foldl fv _ (shift inputs (256 * k)) _ m hm]
  refine ⟨f1, f3, ?_⟩
  intro c i
  rw [← f2]
  rfl

/-- C26 at a concrete input: on the sample engine, 300 frames processed at once and
processed as 256 frames followed by the remaining 44 leave the same engine state. -/
theorem run_composes_at_block_boundary_witness :
    (256 * 1 + 44 < U32 ∧ 256 * 1 < U32 ∧ 44 < U32) ∧
    (StudioReverbDSP.run demoFreeverb demoDSP demoInputs demoOutputs (256 * 1 + 44)
      (by decide)).1 =
      (StudioReverbDSP.run demoFreeverb
        (StudioReverbDSP.run demoFreeverb demoDSP demoInputs demoOutputs (256 * 1)
          (by decide)).1
        (shift demoInputs (256 * 1))
        (shift (StudioReverbDSP.run demoFreeverb demoDSP demoInputs demoOutputs (256 * 1)
          (by decide)).2 (256 * 1)) 44 (by decide)).1 :=
  ⟨⟨by decide, by decide, by decide⟩,
    (run_composes_at_block_boundary demoFreeverb demoDSP demoInputs demoOutputs 1 44
      (by decide) (by decide) (by decide)).1⟩

/-! ## Index safety of `run` -/

theorem mem_chunks (frames : Nat) (hf : frames < U32) (ch : Nat × Nat)
    (h : ch ∈ chunks frames hf) :
    ∃ k, k < (frames + 255) / 256 ∧ ch = (256 * k, min 256 (frames - 256 * k)) := by
  rw [chunks_eq_map] at h
  simp only [List.mem_map, List.mem_range] at h
  obtain ⟨k, hk, rfl⟩ := h
  exact ⟨k, hk, rfl⟩

theorem dispatch_scratch_beyond (fv : Freeverb) (s : StudioReverbDSP) (inputs : Stereo)
    (n offset : Nat) (c : Fin 2) (i : Nat) (hi : n ≤ i) :
    (StudioReverbDSP.dispatch fv (StudioReverbDSP.clearBuffers s n) inputs n offset
        ).early_out_buffer c i = s.early_out_buffer c i ∧
    (StudioReverbDSP.dispatch fv (StudioReverbDSP.clearBuffers s n) inputs n offset
        ).late_out_buffer c i = s.late_out_buffer c i := by
  have hn : ¬ i < n := by omega
  by_cases r0 : s.currentReverbType = REVERB_ROOM
  · rw [dispatch_room fv s inputs n offset r0]
    fin_cases c <;> simp [hn]
  by_cases r1 : s.currentReverbType = REVERB_HALL
  · rw [dispatch_hall_loop fv s inputs n offset r1]
    obtain ⟨b1, b2⟩ := hallLoop_buffers n
      { s with
        hallEarly := s.hallEarly ++ [procCall inputs offset n]
        hallLate := s.hallLate ++ [procCall inputs offset n]
        early_out_buffer :=
          ![fun i => if i < n then procOut fv.earlyref_f s.hallEarly inputs offset n 0 i
                     else s.early_out_buffer 0 i,
            fun i => if i < n then procOut fv.earlyref_f s.hallEarly inputs offset n 1 i
                     else s.early_out_buffer 1 i]
        late_out_buffer :=
          ![fun i => if i < n then procOut fv.progenitor2_f s.hallLate inputs offset n 0 i
                     else s.late_out_buffer 0 i,
            fun i => if i < n then procOut fv.progenitor2_f s.hallLate inputs offset n 1 i
                     else s.late_out_buffer 1 i] } c i
    rw [b1, b2]
    fin_cases c <;> simp [hn]
  by_cases r2 : s.currentReverbType = REVERB_PLATE
  · rw [dispatch_plate fv s inputs n offset r2]
    fin_cases c <;> simp [hn, memset0]
  by_cases r3 : s.currentReverbType = REVERB_EARLY_REFLECTIONS
  · rw [dispatch_early fv s inputs n offset r3]
    fin_cases c <;> simp [hn, memset0]
  · rw [dispatch_other fv s inputs n offset r0 r1 r2 r3]
    fin_cases c <;> simp [hn, memset0, StudioReverbDSP.clearBuffers]

theorem foldl_chunk_beyond (fv : Freeverb) (inputs : Stereo) (frames : Nat)
    (l : List (Nat × Nat)) :
    (∀ ch ∈ l, ch.2 ≤ 256 ∧ ch.1 + ch.2 ≤ frames) → frames < U32 →
    ∀ (st : StudioReverbDSP × Stereo),
    (∀ (c : Fin 2) (i : Nat), 256 ≤ i →
      (l.foldl (fun st ch => StudioReverbDSP.chunk fv inputs ch.2 ch.1 st) st
        ).1.early_out_buffer c i = st.1.early_out_buffer c i ∧
      (l.foldl (fun st ch => StudioReverbDSP.chunk fv inputs ch.2 ch.1 st) st
        ).1.late_out_buffer c i = st.1.late_out_buffer c i) ∧
    (∀ (c : Fin 2) (j : Nat), frames ≤ j →
      (l.foldl (fun st ch => StudioReverbDSP.chunk fv inputs ch.2 ch.1 st) st).2 c j =
        st.2 c j) := by
  induction l with
  | nil => intro _ _ st; exact ⟨fun _ _ _ => ⟨rfl, rfl⟩, fun _ _ _ => rfl⟩
  | cons ch l ih =>
    intro hall hf st
    obtain ⟨hb, hs⟩ := hall ch (List.mem_cons_self _ _)
    obtain ⟨i1, i2⟩ := ih (fun x hx => hall x (List.mem_cons_of_mem _ hx)) hf
      (StudioReverbDSP.chunk fv inputs ch.2 ch.1 st)
    rw [List.foldl_cons]
    constructor
    · intro c i hi
      obtain ⟨a, b⟩ := i1 c i hi
      obtain ⟨d1, d2⟩ := dispatch_scratch_beyond fv st.1 inputs ch.2 ch.1 c i (by omega)
      rw [a, b]
      exact ⟨d1, d2⟩
    · intro c j hj
      rw [i2 c j hj]
      unfold StudioReverbDSP.chunk
      simp only
      rw [mixLoop_apply _ _ _ _ (by unfold U32 at *; omega)]
      have : ¬ (ch.1 ≤ j ∧ j < ch.1 + ch.2) := by omega
      rw [if_neg this]

/-- C27. In `run`, for every 32-bit unsigned frame count, at every iteration of the
loop (every chunk `(offset, buffer_frames)`): `offset < frames`, so `frames - offset`
does not wrap around; `buffer_frames` is between 1 and `BUFFER_SIZE = 256`;
`offset + buffer_frames` does not exceed `frames` and does not overflow, so
`offset <= frames` again at the next loop head; `offset` strictly increases; and for
every `i < buffer_frames` the scratch index `i` is below 256 and the input/output index
`offset + i` does not overflow and is below `frames`. Accordingly `run` leaves the
scratch buffers unchanged at every index from 256 on and the output block unchanged
at every index from `frames` on, and the loop body runs `ceil(frames / 256)` times. -/
theorem run_index_safety (fv : Freeverb) (s : StudioReverbDSP) (inputs outputs : Stereo)
    (frames : Nat) (hf : frames < U32) :
    (∀ ch ∈ chunks frames hf,
      ch.1 < frames ∧
      u32sub frames ch.1 = frames - ch.1 ∧
      ch.2 = min BUFFER_SIZE (u32sub frames ch.1) ∧
      1 ≤ ch.2 ∧ ch.2 ≤ BUFFER_SIZE ∧
      ch.1 + ch.2 ≤ frames ∧
      u32add ch.1 ch.2 = ch.1 + ch.2 ∧
      u32add ch.1 ch.2 ≤ frames ∧
      ch.1 < u32add ch.1 ch.2 ∧
      ∀ i, i < ch.2 → i < BUFFER_SIZE ∧ u32add ch.1 i = ch.1 + i ∧ ch.1 + i < frames) ∧
    (∀ (c : Fin 2) (i : Nat), BUFFER_SIZE ≤ i →
      (StudioReverbDSP.run fv s inputs outputs frames hf).1.early_out_buffer c i =
        s.early_out_buffer c i ∧
      (StudioReverbDSP.run fv s inputs outputs frames hf).1.late_out_buffer c i =
        s.late_out_buffer c i) ∧
    (∀ (c : Fin 2) (j : Nat), frames ≤ j →
      (StudioReverbDSP.run fv s inputs outputs frames hf).2 c j = outputs c j) ∧
    (chunks frames hf).length = (frames + 255) / 256 := by
  have hall : ∀ ch ∈ chunks frames hf, ch.2 ≤ 256 ∧ ch.1 + ch.2 ≤ frames := by
    intro ch hch
    obtain ⟨k, hk, rfl⟩ := mem_chunks frames hf ch hch
    simp only
    omega
  obtain ⟨b1, b2⟩ := foldl_chunk_beyond fv inputs frames (chunks frames hf) hall hf (s, outputs)
  refine ⟨?_, ?_, ?_, chunks_length frames hf⟩
  · intro ch hch
    obtain ⟨k, hk, rfl⟩ := mem_chunks frames hf ch hch
    simp only [u32sub, u32add, BUFFER_SIZE]
    unfold U32 at *
    refine ⟨by omega, by omega, by omega, by omega, by omega, by omega, by omega, by omega,
      by omega, ?_⟩
    intro i hi
    refine ⟨by omega, by omega, by omega⟩
  · intro c i hi
    rw [run_eq_foldl]
    exact b1 c i hi
  · intro c j hj
    rw [run_eq_foldl]
    exact b2 c j hj

/-- C27 at a concrete input: for 600 frames the last chunk `(512, 88)` stays within the
block, and the sample engine's scratch sample 256 and output sample 600 are untouched
by `run`. -/
theorem run_index_safety_witness :
    600 < U32 ∧
    (512 + 88 ≤ 600 ∧ u32add 512 88 = 600 ∧ u32sub 600 512 = 88) ∧
    (StudioReverbDSP.run demoFreeverb demoDSP demoInputs demoOutputs 600
      (by decide)).1.early_out_buffer 0 256 = 9 ∧
    (StudioReverbDSP.run demoFreeverb demoDSP demoInputs demoOutputs 600 (by decide)).2 1 600 =
      5 := by
  obtain ⟨h1, h2, h3, -⟩ :=
    run_index_safety demoFreeverb demoDSP demoInputs demoOutputs 600 (by decide)
  have hm : ((512, 88) : Nat × Nat) ∈ chunks 600 (by decide) := by
    rw [chunks_eq_map]
    simp only [List.mem_map, List.mem_range]
    exact ⟨2, by decide, by decide⟩
  obtain ⟨-, a2, -, -, -, a6, a7, -⟩ := h1 (512, 88) hm
  refine ⟨by decide, ⟨a6, a7, a2⟩, ?_, ?_⟩
  · rw [(h2 0 256 (by decide)).1]
    rfl
  · rw [h3 1 600 (by decide)]
    rfl

/-! ## The UI clamps, the core does not -/

theorem getParameterMin_le_max (param : Nat) :
    StudioReverbUI.getParameterMin param ≤ StudioReverbUI.getParameterMax param := by
  unfold StudioReverbUI.getParameterMin StudioReverbUI.getParameterMax
  split_ifs <;> norm_num [REVERB_TYPE_COUNT]

theorem std_clamp_bounds (lo hi x : ℚ) (h : lo ≤ hi) :
    lo ≤ std_max lo (std_min hi x) ∧ std_max lo (std_min hi x) ≤ hi := by
  unfold std_max std_min
  split_ifs <;> constructor <;> linarith

theorem ui_parameter_ranges :
    (StudioReverbUI.getParameterMin paramReverbType = 0 ∧
      StudioReverbUI.getParameterMax paramReverbType = 3) ∧
    (StudioReverbUI.getParameterMin paramDry = 0 ∧
      StudioReverbUI.getParameterMax paramDry = 100) ∧
    (StudioReverbUI.getParameterMin paramEarly = 0 ∧
      StudioReverbUI.getParameterMax paramEarly = 100) ∧
    (StudioReverbUI.getParameterMin paramLate = 0 ∧
      StudioReverbUI.getParameterMax paramLate = 100) ∧
    (StudioReverbUI.getParameterMin paramSize = 0 ∧
      StudioReverbUI.getParameterMax paramSize = 100) ∧
    (StudioReverbUI.getParameterMin paramWidth = 0 ∧
      StudioReverbUI.getParameterMax paramWidth = 100) ∧
    (StudioReverbUI.getParameterMin paramPredelay = 0 ∧
      StudioReverbUI.getParameterMax paramPredelay = 200) ∧
    (StudioReverbUI.getParameterMin paramDecay = 0.1 ∧
      StudioReverbUI.getParameterMax paramDecay = 10) ∧
    (StudioReverbUI.getParameterMin paramDiffuse = 0 ∧
      StudioReverbUI.getParameterMax paramDiffuse = 100) ∧
    (StudioReverbUI.getParameterMin paramDamping = 0 ∧
      StudioReverbUI.getParameterMax paramDamping = 100) ∧
    (StudioReverbUI.getParameterMin paramModulation = 0 ∧
      StudioReverbUI.getParameterMax paramModulation = 100) ∧
    (StudioReverbUI.getParameterMin paramLowCut = 20 ∧
      StudioReverbUI.getParameterMax paramLowCut = 500) ∧
    (StudioReverbUI.getParameterMin paramHighCut = 1000 ∧
      StudioReverbUI.getParameterMax paramHighCut = 20000) := by
  simp [StudioReverbUI.getParameterMin, StudioReverbUI.getParameterMax, paramReverbType,
    paramDry, paramEarly, paramLate, paramSize, paramWidth, paramPredelay, paramDecay,
    paramDiffuse, paramDamping, paramModulation, paramLowCut, paramHighCut, REVERB_TYPE_COUNT]

theorem onMotion_dragging (ui : StudioReverbUI) (y : ℚ) (knob : Knob)
    (h : ui.fDraggingKnob = some knob) :
    ui.onMotion y =
      { handled := true
        sent := some (knob.param,
          std_max (StudioReverbUI.getParameterMin knob.param)
            (std_min (StudioReverbUI.getParameterMax knob.param)
              (ui.fDragStartValue + (ui.fDragStartY - y) / 100 *
                (StudioReverbUI.getParameterMax knob.param -
                  StudioReverbUI.getParameterMin knob.param)))) } := by
  unfold StudioReverbUI.onMotion
  rw [h]

/-- C28. The UI clamps while the core does not. For every knob, every drag start
value and start height and every mouse position `y`, `onMotion` during a drag passes
to `setParameterValue` the knob's parameter id and the value
`max(min_p, min(max_p, start + (startY - y) / 100 * (max_p - min_p)))`, which lies
within `[getParameterMin(param), getParameterMax(param)]`; these bounds are the
documented ranges of the 13 parameters. The core's `setParameterValue` stores any
value it is given for a valid id unchanged. -/
theorem ui_clamps_core_does_not (ui : StudioReverbUI) (y : ℚ) (knob : Knob)
    (h : ui.fDraggingKnob = some knob) (s : StudioReverbDSP) (index : Nat) (v : ℚ)
    (hi : index < paramCount) :
    (ui.onMotion y).handled = true ∧
    (∃ value : ℚ,
      (ui.onMotion y).sent = some (knob.param, value) ∧
      value = std_max (StudioReverbUI.getParameterMin knob.param)
        (std_min (StudioReverbUI.getParameterMax knob.param)
          (ui.fDragStartValue + (ui.fDragStartY - y) / 100 *
            (StudioReverbUI.getParameterMax knob.param -
              StudioReverbUI.getParameterMin knob.param))) ∧
      StudioReverbUI.getParameterMin knob.param ≤ value ∧
      value ≤ StudioReverbUI.getParameterMax knob.param) ∧
    ((StudioReverbUI.getParameterMin paramReverbType = 0 ∧
        StudioReverbUI.getParameterMax paramReverbType = 3) ∧
      (StudioReverbUI.getParameterMin paramDry = 0 ∧
        StudioReverbUI.getParameterMax paramDry = 100) ∧
      (StudioReverbUI.getParameterMin paramEarly = 0 ∧
        StudioReverbUI.getParameterMax paramEarly = 100) ∧
      (StudioReverbUI.getParameterMin paramLate = 0 ∧
        StudioReverbUI.getParameterMax paramLate = 100) ∧
      (StudioReverbUI.getParameterMin paramSize = 0 ∧
        StudioReverbUI.getParameterMax paramSize = 100) ∧
      (StudioReverbUI.getParameterMin paramWidth = 0 ∧
        StudioReverbUI.getParameterMax paramWidth = 100) ∧
      (StudioReverbUI.getParameterMin paramPredelay = 0 ∧
        StudioReverbUI.getParameterMax paramPredelay = 200) ∧
      (StudioReverbUI.getParameterMin paramDecay = 0.1 ∧
        StudioReverbUI.getParameterMax paramDecay = 10) ∧
      (StudioReverbUI.getParameterMin paramDiffuse = 0 ∧
        StudioReverbUI.getParameterMax paramDiffuse = 100) ∧
      (StudioReverbUI.getParameterMin paramDamping = 0 ∧
        StudioReverbUI.getParameterMax paramDamping = 100) ∧
      (StudioReverbUI.getParameterMin paramModulation = 0 ∧
        StudioReverbUI.getParameterMax paramModulation = 100) ∧
      (StudioReverbUI.getParameterMin paramLowCut = 20 ∧
        StudioReverbUI.getParameterMax paramLowCut = 500) ∧
      (StudioReverbUI.getParameterMin paramHighCut = 1000 ∧
        StudioReverbUI.getParameterMax paramHighCut = 20000)) ∧
    (s.setParameterValue index v).getParameterValue index = v := by
  obtain ⟨b1, b2⟩ := std_clamp_bounds (StudioReverbUI.getParameterMin knob.param)
    (StudioReverbUI.getParameterMax knob.param)
    (ui.fDragStartValue + (ui.fDragStartY - y) / 100 *
      (StudioReverbUI.getParameterMax knob.param - StudioReverbUI.getParameterMin knob.param))
    (getParameterMin_le_max knob.param)
  rw [onMotion_dragging ui y knob h]
  refine ⟨rfl, ⟨_, rfl, rfl, b1, b2⟩, ui_parameter_ranges, ?_⟩
  simp [StudioReverbDSP.getParameterValue, setParameterValue_params s index v hi, hi]

/-- C28 at a concrete input: the Decay knob dragged from value 2 at height 300 up to
height 0 would give `2 + 3 * 9.9 = 31.7`; `onMotion` sends the clamped value 10, while
the core stores 31.7 as given. -/
theorem ui_clamps_core_does_not_witness :
    (demoUI.fDraggingKnob =
        some { param := paramDecay, x := 50, y := 350, radius := 50, visible := true } ∧
      paramDecay < paramCount) ∧
    (demoUI.onMotion 0).sent = some (paramDecay, 10) ∧
    (demoDSP.setParameterValue paramDecay 31.7).getParameterValue paramDecay = 31.7 := by
  obtain ⟨-, ⟨value, hs, hv, -, -⟩, hr, hc⟩ := ui_clamps_core_does_not demoUI 0
    { param := paramDecay, x := 50, y := 350, radius := 50, visible := true } rfl demoDSP
    paramDecay 31.7 (by decide)
  refine ⟨⟨rfl, by decide⟩, ?_, hc⟩
  obtain ⟨-, -, -, -, -, -, -, ⟨hmin, hmax⟩, -⟩ := hr
  rw [hs, hv]
  simp only [hmin, hmax, demoUI, std_max, std_min]
  norm_num

end StudioReverb
